import Mathlib

/-
  Verification development for the deterministic tactical combat engine
  (reducer pipeline, rule kernels, effect lifecycle, scenario loader and
  driver loop).  Python source files are embedded shallowly: dicts become
  insertion-ordered association lists, machine integers become Int (Python
  ints are unbounded), fallible code returns Except/Option, and the seeded
  PRNG (random.Random, a Mersenne Twister whose bit stream is external to
  the engine) is modelled as an abstract stream of draws with the same
  interface and in-range guarantee.
-/

namespace Engine

/-- Python dict lookup: first (unique) matching key. -/
def dictGet {α : Type} (m : List (String × α)) (k : String) : Option α :=
  match m with
  | [] => none
  | (k0, v) :: rest => if k0 = k then some v else dictGet rest k

/-- Python dict lookup with default (dict.get(k, d)). -/
def dictGetD {α : Type} (m : List (String × α)) (k : String) (d : α) : α :=
  (dictGet m k).getD d

/-- Python dict assignment m[k] = v: updates the value in place when the key
exists (keeping its position), otherwise appends the new key at the end. -/
def dictSet {α : Type} (m : List (String × α)) (k : String) (v : α) : List (String × α) :=
  match m with
  | [] => [(k, v)]
  | (k0, v0) :: rest => if k0 = k then (k, v) :: rest else (k0, v0) :: dictSet rest k v

/-- Python dict.pop(k, None): removes the key when present. -/
def dictPop {α : Type} (m : List (String × α)) (k : String) : List (String × α) :=
  m.filter (fun p => p.1 ≠ k)

/-- Python `k in m` for dicts. -/
def dictHas {α : Type} (m : List (String × α)) (k : String) : Bool :=
  (dictGet m k).isSome

/-- Iteration order of dict values (insertion order, like CPython). -/
def dictValues {α : Type} (m : List (String × α)) : List α :=
  m.map (·.2)

/-- Iteration order of dict keys (insertion order, like CPython). -/
def dictKeys {α : Type} (m : List (String × α)) : List String :=
  m.map (·.1)

/-- Python len() of a dict (keys are unique in every map the engine builds). -/
def dictLen {α : Type} (m : List (String × α)) : Nat :=
  m.length

/-- Stable insertion of x after every element le-below-or-equal to it. -/
def insertByLe {α : Type} (le : α → α → Bool) (x : α) : List α → List α
  | [] => [x]
  | y :: ys => if le y x then y :: insertByLe le x ys else x :: y :: ys

/-- Stable sort by a total-preorder Bool comparison, modelling Python
sorted(xs, key=...) with the key's lexicographic ≤ passed as le. -/
def sortByLe {α : Type} (le : α → α → Bool) : List α → List α
  | [] => []
  | x :: xs => insertByLe le x (sortByLe le xs)

/-- Characters Python str.strip() removes. -/
def isPySpace (c : Char) : Bool :=
  c = ' ' || c = Char.ofNat 9 || c = Char.ofNat 10 || c = Char.ofNat 13 ||
    c = Char.ofNat 11 || c = Char.ofNat 12

/-- Python str.strip(). -/
def pyStrip (s : String) : String :=
  ⟨((s.data.dropWhile isPySpace).reverse.dropWhile isPySpace).reverse⟩

/-- Python str.lower() (the engine only feeds it ASCII names). -/
def pyLower (s : String) : String :=
  ⟨s.data.map Char.toLower⟩

/-- Python str.replace(" ", "_") (all call sites replace the single space
character). -/
def replaceSpaces (s : String) : String :=
  ⟨s.data.map (fun c => if c = ' ' then '_' else c)⟩

/-- Lexicographic code-point comparison of character lists (Python string
ordering). -/
def strLeAux : List Char → List Char → Bool
  | [], _ => true
  | _ :: _, [] => false
  | x :: xs, y :: ys =>
    if x.toNat < y.toNat then true
    else if y.toNat < x.toNat then false
    else strLeAux xs ys

/-- Python string ≤ (lexicographic by code point). -/
def strLe (a b : String) : Bool :=
  strLeAux a.data b.data

/-- Zero-padded decimal rendering, modelling Python format spec 0Nd. -/
def padZeros (width : Nat) (n : Nat) : String :=
  let digits := toString n
  let pad := width - digits.length
  String.mk (List.replicate pad '0') ++ digits

/- ===== engine/core/rng.py ===== -/

structure RollResult where
  value : Int
  low : Int
  high : Int
  deriving Repr, DecidableEq

/-- engine/core/rng.py DeterministicRNG: wraps random.Random(seed).  The
Mersenne-Twister output itself is outside the embedded code; the model keeps
a seed-determined stream of raw draws and an index, so that every roll is a
pure function of (seed, consumption order), which is all the reducer relies
on. -/
structure DeterministicRNG where
  stream : Nat → Nat
  idx : Nat

/-- Errors: ReductionError is caught by the driver; plain ValueError
(unparsable damage formula, empty randint range) is not. -/
inductive RunError where
  | reduction (msg : String)
  | valueError (msg : String)
  deriving Repr, DecidableEq

/-- Raw in-range draw for callers with lo ≤ hi (d20 and die rolls). -/
def DeterministicRNG.draw (rng : DeterministicRNG) (lo hi : Int) :
    RollResult × DeterministicRNG :=
  let span := (hi - lo + 1).toNat
  let v := lo + Int.ofNat (rng.stream rng.idx % max 1 span)
  (⟨v, lo, hi⟩, ⟨rng.stream, rng.idx + 1⟩)

/-- random.Random.randint(lo, hi): raises ValueError on an empty range. -/
def DeterministicRNG.randint (rng : DeterministicRNG) (lo hi : Int) :
    Except RunError (RollResult × DeterministicRNG) :=
  if hi < lo then .error (.valueError "empty range for randrange")
  else .ok (rng.draw lo hi)

/-- rng.d20() = randint(1, 20); the range is never empty. -/
def DeterministicRNG.d20 (rng : DeterministicRNG) : RollResult × DeterministicRNG :=
  rng.draw 1 20

/- ===== engine/rules/degrees.py ===== -/

inductive Degree where
  | critical_success
  | success
  | failure
  | critical_failure
  deriving Repr, DecidableEq

/-- The string literal a Degree renders as in event payloads. -/
def degreeStr (d : Degree) : String :=
  match d with
  | .critical_success => "critical_success"
  | .success => "success"
  | .failure => "failure"
  | .critical_failure => "critical_failure"

/-- engine/rules/degrees.py degree_of_success. -/
def degree_of_success (total dc : Int) (die_value : Option Int) : Degree :=
  let degree : Degree :=
    if total ≥ dc + 10 then .critical_success
    else if total ≥ dc then .success
    else if total ≤ dc - 10 then .critical_failure
    else .failure
  if die_value = some 20 then
    match degree with
    | .critical_failure => .failure
    | .failure => .success
    | .success => .critical_success
    | d => d
  else if die_value = some 1 then
    match degree with
    | .critical_success => .success
    | .success => .failure
    | .failure => .critical_failure
    | d => d
  else degree

/- ===== engine/rules/checks.py ===== -/

structure CheckResult where
  die : Int
  modifier : Int
  total : Int
  dc : Int
  degree : Degree
  deriving Repr, DecidableEq

/-- engine/rules/checks.py resolve_check. -/
def resolve_check (rng : DeterministicRNG) (modifier dc : Int) :
    CheckResult × DeterministicRNG :=
  let (roll, rng') := rng.d20
  let total := roll.value + modifier
  (⟨roll.value, modifier, total, dc, degree_of_success total dc (some roll.value)⟩, rng')

/- ===== engine/rules/saves.py ===== -/

structure SaveProfile where
  fortitude : Int := 0
  reflex : Int := 0
  will : Int := 0
  deriving Repr, DecidableEq

/-- engine/rules/saves.py resolve_save: picks the matching modifier
(default 0 for an unknown save type) and delegates to resolve_check. -/
def resolve_save (rng : DeterministicRNG) (save_type : String) (profile : SaveProfile)
    (dc : Int) : CheckResult × DeterministicRNG :=
  let modifier :=
    if save_type = "Fortitude" then profile.fortitude
    else if save_type = "Reflex" then profile.reflex
    else if save_type = "Will" then profile.will
    else 0
  resolve_check rng modifier dc

/-- engine/rules/saves.py basic_save_multiplier, as an exact rational
(the Python floats 0.0, 0.5, 1.0, 2.0 are exact). -/
def basic_save_multiplier (degree : Degree) : Rat :=
  match degree with
  | .critical_success => 0
  | .success => 1/2
  | .failure => 1
  | .critical_failure => 2

/-- Python int() truncation toward zero of a rational. -/
def pyIntOfRat (q : Rat) : Int :=
  if q ≥ 0 then q.floor else -((-q).floor)

/- ===== engine/rules/conditions.py ===== -/

/-- engine/rules/conditions.py normalize_condition_name. -/
def normalize_condition_name (name : String) : String :=
  replaceSpaces (pyLower name)

/-- engine/rules/conditions.py condition_is_immune. -/
def condition_is_immune (name : String) (condition_immunities : List String) : Bool :=
  let normalized := normalize_condition_name name
  let immunity_set := condition_immunities.map normalize_condition_name
  immunity_set.contains normalized || immunity_set.contains "all_conditions"

/-- engine/rules/conditions.py apply_condition: keeps the max severity. -/
def apply_condition (conditions : List (String × Int)) (name : String) (value : Int) :
    List (String × Int) :=
  let key := normalize_condition_name name
  let current := dictGetD conditions key 0
  dictSet conditions key (max current value)

/-- engine/rules/conditions.py clear_condition. -/
def clear_condition (conditions : List (String × Int)) (name : String) :
    List (String × Int) :=
  dictPop conditions (normalize_condition_name name)

/- ===== engine/rules/damage.py ===== -/

structure DamageRoll where
  formula : String
  total : Int
  rolls : List Int
  flat_modifier : Int
  deriving Repr, DecidableEq

structure DamageAdjustment where
  raw_total : Int
  applied_total : Int
  damage_type : Option String
  immune : Bool
  resistance_total : Int
  weakness_total : Int
  deriving Repr, DecidableEq

structure AppliedDamage where
  incoming_total : Int
  absorbed_by_temp_hp : Int
  hp_loss : Int
  new_hp : Int
  new_temp_hp : Int
  deriving Repr, DecidableEq

/-- Longest digit prefix of a character list. -/
def spanDigits (cs : List Char) : List Char × List Char :=
  match cs with
  | [] => ([], [])
  | c :: rest =>
    if c.isDigit then
      let (ds, tl) := spanDigits rest
      (c :: ds, tl)
    else ([], c :: rest)

/-- Decimal value of a nonempty all-digit character list. -/
def digitsToNat (cs : List Char) : Nat :=
  cs.foldl (fun acc c => acc * 10 + (c.toNat - 48)) 0

/-- engine/rules/damage.py parse_formula: the regex NdM[+K] on the stripped
text, else a flat signed integer, else ValueError (None here). -/
def parse_formula (formula : String) : Option (Int × Int × Int) :=
  let text := (pyStrip formula).data
  let dice : Option (Int × Int × Int) :=
    match spanDigits text with
    | (ds, 'd' :: rest) =>
      if ds.isEmpty then none
      else
        match spanDigits rest with
        | (ms, tail) =>
          if ms.isEmpty then none
          else
            match tail with
            | [] => some (Int.ofNat (digitsToNat ds), Int.ofNat (digitsToNat ms), 0)
            | sign :: moddigits =>
              if sign = '+' ∧ moddigits ≠ [] ∧ moddigits.all Char.isDigit then
                some (Int.ofNat (digitsToNat ds), Int.ofNat (digitsToNat ms),
                  Int.ofNat (digitsToNat moddigits))
              else if sign = '-' ∧ moddigits ≠ [] ∧ moddigits.all Char.isDigit then
                some (Int.ofNat (digitsToNat ds), Int.ofNat (digitsToNat ms),
                  -Int.ofNat (digitsToNat moddigits))
              else none
    | _ => none
  match dice with
  | some r => some r
  | none =>
    match text with
    | [] => none
    | '+' :: ds =>
      if ds ≠ [] ∧ ds.all Char.isDigit then some (0, 1, Int.ofNat (digitsToNat ds)) else none
    | '-' :: ds =>
      if ds ≠ [] ∧ ds.all Char.isDigit then some (0, 1, -Int.ofNat (digitsToNat ds)) else none
    | ds =>
      if ds.all Char.isDigit then some (0, 1, Int.ofNat (digitsToNat ds)) else none

/-- Draw dice_count rolls of randint(1, dice_size) in order. -/
def rollDice (rng : DeterministicRNG) (count : Nat) (size : Int) :
    Except RunError (List Int × DeterministicRNG) :=
  match count with
  | 0 => .ok ([], rng)
  | n + 1 => do
    let (r, rng') ← rng.randint 1 size
    let (rest, rng'') ← rollDice rng' n size
    .ok (r.value :: rest, rng'')

/-- engine/rules/damage.py roll_damage. -/
def roll_damage (rng : DeterministicRNG) (formula : String) (multiplier : Int := 1) :
    Except RunError (DamageRoll × DeterministicRNG) := do
  match parse_formula formula with
  | none => .error (.valueError ("Unsupported damage formula: " ++ formula))
  | some (dice_count, dice_size, modifier) => do
    let (rolls, rng') ← rollDice rng dice_count.toNat dice_size
    let total := (rolls.foldl (· + ·) 0 + modifier) * multiplier
    .ok (⟨formula, max 0 total, rolls, modifier⟩, rng')

/-- engine/rules/damage.py _DAMAGE_TYPE_ALIASES. -/
def damageTypeAlias (n : String) : String :=
  if n = "lightning" then "electricity"
  else if n = "pierce" then "piercing"
  else if n = "slash" then "slashing"
  else if n = "bludgeon" then "bludgeoning"
  else n

/-- engine/rules/damage.py _normalized_damage_type. -/
def normalizedDamageType (raw : Option String) : Option String :=
  let normalized := pyLower (pyStrip (raw.getD ""))
  if normalized = "" then none else some (damageTypeAlias normalized)

def physicalTypes : List String := ["bludgeoning", "piercing", "slashing"]

def energyTypes : List String := ["acid", "cold", "electricity", "fire", "force", "sonic"]

/-- engine/rules/damage.py _damage_type_tags. -/
def damageTypeTags (damage_type : Option String) : List String :=
  match normalizedDamageType damage_type with
  | none => []
  | some normalized =>
    [normalized] ++ (if physicalTypes.contains normalized then ["physical"] else [])
      ++ (if energyTypes.contains normalized then ["energy"] else [])

/-- engine/rules/damage.py _highest_matching_modifier. -/
def highestMatchingModifier (modifiers : List (String × Int)) (damage_tags : List String) :
    Int :=
  let best := modifiers.foldl
    (fun best kv =>
      match normalizedDamageType (some kv.1) with
      | some k => if k = "all" ∨ damage_tags.contains k then max best kv.2 else best
      | none => best)
    0
  max 0 best

/-- engine/rules/damage.py apply_damage_modifiers. -/
def apply_damage_modifiers (raw_total : Int) (damage_type : Option String)
    (resistances weaknesses : List (String × Int)) (immunities : List String) :
    DamageAdjustment :=
  let raw := max 0 raw_total
  let normalized_type := normalizedDamageType damage_type
  let damage_tags := damageTypeTags normalized_type
  let immunity_set := immunities.map (fun x => (normalizedDamageType (some x)).getD "")
  if raw = 0 then
    ⟨0, 0, normalized_type, false, 0, 0⟩
  else if immunity_set.contains "all" ∨ damage_tags.any (immunity_set.contains ·) then
    ⟨raw, 0, normalized_type, true, 0, 0⟩
  else
    let resistance_total := highestMatchingModifier resistances damage_tags
    let weakness_total := highestMatchingModifier weaknesses damage_tags
    let applied := max 0 (raw - resistance_total + weakness_total)
    ⟨raw, applied, normalized_type, false, max 0 resistance_total, max 0 weakness_total⟩

/-- engine/rules/damage.py apply_damage_to_pool: temp-HP absorbs first. -/
def apply_damage_to_pool (hp temp_hp damage_total : Int) : AppliedDamage :=
  let incoming := max 0 damage_total
  let current_hp := max 0 hp
  let current_temp := max 0 temp_hp
  let absorbed := min current_temp incoming
  let hp_loss := max 0 (incoming - absorbed)
  ⟨incoming, absorbed, hp_loss, max 0 (current_hp - hp_loss), max 0 (current_temp - absorbed)⟩

/- ===== Dynamically-typed values (Python objects / parsed JSON) ===== -/

/-- A Python object as it appears in parsed scenario JSON, command dicts and
effect payloads.  int and float stay separate constructors because
isinstance(x, int) distinguishes them; floats produced by the engine
(save multipliers 0.0/0.5/1.0/2.0) are exact rationals. -/
inductive JVal where
  | null
  | bool (b : Bool)
  | int (n : Int)
  | float (q : Rat)
  | str (s : String)
  | arr (items : List JVal)
  | obj (fields : List (String × JVal))

/-- Python `x == s` against a string literal. -/
def jIsStr (v : JVal) (s : String) : Bool :=
  match v with
  | .str t => t = s
  | _ => false

/-- Python `x is None`. -/
def jIsNull (v : JVal) : Bool :=
  match v with
  | .null => true
  | _ => false

/-- Python truthiness bool(x). -/
def jTruthy : JVal → Bool
  | .null => false
  | .bool b => b
  | .int n => n ≠ 0
  | .float q => q ≠ 0
  | .str s => s ≠ ""
  | .arr items => ¬ items.isEmpty
  | .obj fields => ¬ fields.isEmpty

/-- Python `value or fallback` on an optional lookup result. -/
def jOr (v : Option JVal) (fallback : JVal) : JVal :=
  match v with
  | none => fallback
  | some x => if jTruthy x then x else fallback

/-- Object lookup d.get(k). -/
def jGet (v : JVal) (k : String) : Option JVal :=
  match v with
  | .obj fields => dictGet fields k
  | _ => none

/-- Object lookup d.get(k, default). -/
def jGetD (v : JVal) (k : String) (d : JVal) : JVal :=
  (jGet v k).getD d

/-- Python int(x): ints pass through, bools are 0/1, floats truncate toward
zero, strings parse as an optionally signed decimal; anything else raises
(none). -/
def pyInt : JVal → Option Int
  | .int n => some n
  | .bool b => some (if b then 1 else 0)
  | .float q => some (pyIntOfRat q)
  | .str s =>
    match (pyStrip s).data with
    | '+' :: ds => if ds ≠ [] ∧ ds.all Char.isDigit then some (Int.ofNat (digitsToNat ds)) else none
    | '-' :: ds => if ds ≠ [] ∧ ds.all Char.isDigit then some (-Int.ofNat (digitsToNat ds)) else none
    | ds => if ds ≠ [] ∧ ds.all Char.isDigit then some (Int.ofNat (digitsToNat ds)) else none
  | _ => none

/-- Python str(x) for the value shapes the engine renders into labels.
Container and float rendering is approximate (only used in display strings,
never branched on). -/
def pyStr : JVal → String
  | .null => "None"
  | .bool b => if b then "True" else "False"
  | .int n => toString n
  | .float q => toString q
  | .str s => s
  | .arr _ => "[...]"
  | .obj _ => "{...}"

/-- Python str(x) of an optional value (None renders as "None"). -/
def pyStrOpt (v : Option JVal) : String :=
  pyStr (v.getD .null)

/-- List elements of a JSON array (list(x) where the engine iterates). -/
def jItems : JVal → List JVal
  | .arr items => items
  | _ => []

/- ===== engine/core/state.py ===== -/

/-- engine/core/state.py UnitState, as constructed by scenario_loader.py and
the reducer's spawn branch.  Modelled from the spec: the optional
attack_damage_bypass list (spec section 3, Unit) is a field of the
authoritative UnitState — scenario_loader.py under src/ passes
attack_damage_bypass= to the constructor although the sibling state.py under
src/ lacks the field, so the richer state definition is taken from the spec. -/
structure UnitState where
  unit_id : String
  team : String
  hp : Int
  max_hp : Int
  x : Int
  y : Int
  initiative : Int
  attack_mod : Int
  ac : Int
  damage : String
  temp_hp : Int := 0
  temp_hp_source : Option String := none
  temp_hp_owner_effect_id : Option String := none
  attack_damage_type : String := "physical"
  attack_damage_bypass : List String := []
  fortitude : Int := 0
  reflex : Int := 0
  will : Int := 0
  actions_remaining : Int := 3
  reaction_available : Bool := true
  conditions : List (String × Int) := []
  condition_immunities : List String := []
  resistances : List (String × Int) := []
  weaknesses : List (String × Int) := []
  immunities : List String := []

/-- UnitState.alive ≡ hp > 0. -/
def UnitState.alive (u : UnitState) : Bool :=
  u.hp > 0

/-- engine/core/state.py MapState. -/
structure MapState where
  width : Int
  height : Int
  blocked : List (Int × Int) := []

/-- engine/core/state.py EffectState (payload is an open Python dict). -/
structure EffectState where
  effect_id : String
  kind : String
  source_unit_id : Option String
  target_unit_id : Option String
  payload : List (String × JVal) := []
  duration_rounds : Option Int := none
  tick_timing : Option String := none

/-- engine/core/state.py BattleState. -/
structure BattleState where
  battle_id : String
  seed : Int
  round_number : Int
  turn_index : Nat
  turn_order : List String
  units : List (String × UnitState)
  battle_map : MapState
  effects : List (String × EffectState) := []
  flags : List (String × Bool) := []
  event_sequence : Nat := 0

/-- Placeholder for the KeyError path of dict[key] lookups the engine only
performs after establishing membership. -/
def missingUnit : UnitState :=
  ⟨"", "", 0, 0, 0, 0, 0, 0, 0, "", 0, none, none, "physical", [], 0, 0, 0, 0, true,
    [], [], [], [], []⟩

/-- state.units[uid] where the engine has already established membership. -/
def BattleState.unitGet (st : BattleState) (uid : String) : UnitState :=
  (dictGet st.units uid).getD missingUnit

/-- BattleState.active_unit_id ≡ turn_order[turn_index] (the engine never
evaluates it on an empty turn order). -/
def BattleState.active_unit_id (st : BattleState) : String :=
  st.turn_order.getD st.turn_index ""

/-- In-place mutation of one unit (Python mutates the object held by the
units dict). -/
def BattleState.updateUnit (st : BattleState) (uid : String) (f : UnitState → UnitState) :
    BattleState :=
  { st with units := st.units.map (fun p => if p.1 = uid then (p.1, f p.2) else p) }

/-- In-place mutation of one effect. -/
def BattleState.updateEffect (st : BattleState) (eid : String)
    (f : EffectState → EffectState) : BattleState :=
  { st with effects := st.effects.map (fun p => if p.1 = eid then (p.1, f p.2) else p) }

/- ===== engine/core/ids.py ===== -/

/-- engine/core/ids.py event_id: "ev_" plus the zero-padded 6-digit counter. -/
def eventIdOf (sequence : Nat) : String :=
  "ev_" ++ padZeros 6 sequence

/- ===== engine/core/turn_order.py ===== -/

/-- engine/core/turn_order.py build_turn_order: higher initiative first,
ties broken by stable unit id (Python sorted on the key (-initiative,
unit_id)). -/
def build_turn_order (units : List (String × UnitState)) : List String :=
  (sortByLe
    (fun a b =>
      a.initiative > b.initiative ∨ (a.initiative = b.initiative ∧ strLe a.unit_id b.unit_id))
    (dictValues units)).map (·.unit_id)

/-- engine/core/turn_order.py next_turn_index. -/
def next_turn_index (current : Nat) (turn_order_size : Nat) : Nat :=
  (current + 1) % turn_order_size

/- ===== engine/grid/map.py ===== -/

/-- engine/grid/map.py in_bounds. -/
def in_bounds (st : BattleState) (x y : Int) : Bool :=
  0 ≤ x ∧ x < st.battle_map.width ∧ 0 ≤ y ∧ y < st.battle_map.height

/-- engine/grid/map.py is_blocked. -/
def is_blocked (st : BattleState) (x y : Int) : Bool :=
  st.battle_map.blocked.contains (x, y)

/-- engine/grid/map.py is_occupied: some alive unit stands on the tile. -/
def is_occupied (st : BattleState) (x y : Int) : Bool :=
  (dictValues st.units).any (fun u => u.alive ∧ u.x = x ∧ u.y = y)

/- ===== engine/grid/movement.py ===== -/

/-- engine/grid/movement.py manhattan_distance. -/
def manhattan_distance (ax ay bx by' : Int) : Int :=
  |ax - bx| + |ay - by'|

/-- engine/grid/movement.py can_step_to. -/
def can_step_to (st : BattleState) (u : UnitState) (x y : Int) : Bool :=
  if ¬ in_bounds st x y then false
  else if is_blocked st x y then false
  else if is_occupied st x y then false
  else manhattan_distance u.x u.y x y = 1

/- ===== engine/grid/areas.py ===== -/

/-- Python range(a, b) over integers. -/
def intRange (a b : Int) : List Int :=
  (List.range (b - a).toNat).map (fun i => a + Int.ofNat i)

/-- engine/grid/areas.py radius_points: Manhattan disc, x-major iteration. -/
def radius_points (cx cy radius : Int) : List (Int × Int) :=
  (intRange (cx - radius) (cx + radius + 1)).flatMap (fun x =>
    (intRange (cy - radius) (cy + radius + 1)).filterMap (fun y =>
      if |x - cx| + |y - cy| ≤ radius then some (x, y) else none))

/-- Loop body of the Bresenham walk in engine/grid/areas.py line_points.
Each iteration appends the current tile and, until the endpoint is reached,
advances x and/or y exactly as the Python while-loop; the fuel bounds the
iteration count (the loop always advances at least one coordinate toward the
endpoint, so |x1-x0| + |y1-y0| + 1 iterations suffice). -/
def linePointsAux (x1 y1 dx dy sx sy : Int) :
    Nat → Int → Int → Int → List (Int × Int)
  | 0, _, _, _ => []
  | fuel + 1, err, x, y =>
    (x, y) ::
      (if x = x1 ∧ y = y1 then []
       else
        let e2 := 2 * err
        let errA := if e2 ≥ dy then err + dy else err
        let xA := if e2 ≥ dy then x + sx else x
        let errB := if e2 ≤ dx then errA + dx else errA
        let yB := if e2 ≤ dx then y + sy else y
        linePointsAux x1 y1 dx dy sx sy fuel errB xA yB)

/-- engine/grid/areas.py line_points (Bresenham, inclusive endpoints). -/
def line_points (x0 y0 x1 y1 : Int) : List (Int × Int) :=
  let dx := |x1 - x0|
  let dy := -|y1 - y0|
  let sx : Int := if x0 < x1 then 1 else -1
  let sy : Int := if y0 < y1 then 1 else -1
  linePointsAux x1 y1 dx dy sx sy ((dx - dy).toNat + 1) (dx + dy) x0 y0

/- ===== engine/grid/loe.py ===== -/

/-- engine/grid/loe.py _sign. -/
def signOf (value : Int) : Int :=
  if value > 0 then 1 else if value < 0 then -1 else 0

/-- Per-step walk of engine/grid/loe.py has_tile_line_of_effect: diagonal
steps fail when both orthogonal corner tiles are blocked; intermediate
blocked tiles fail; the final tile fails only when blocked. -/
def loeWalk (st : BattleState) : (Int × Int) → List (Int × Int) → Bool
  | _, [] => true
  | prev, (x, y) :: rest =>
    let step_x := x - prev.1
    let step_y := y - prev.2
    let pinched :=
      |step_x| = 1 ∧ |step_y| = 1 ∧
        (in_bounds st (prev.1 + step_x) prev.2 ∧ is_blocked st (prev.1 + step_x) prev.2) ∧
        (in_bounds st prev.1 (prev.2 + step_y) ∧ is_blocked st prev.1 (prev.2 + step_y))
    if pinched then false
    else if rest.isEmpty then ¬ is_blocked st x y
    else if is_blocked st x y then false
    else loeWalk st (x, y) rest

/-- engine/grid/loe.py has_tile_line_of_effect. -/
def has_tile_line_of_effect (st : BattleState) (source_x source_y target_x target_y : Int) :
    Bool :=
  if ¬ in_bounds st source_x source_y then false
  else if ¬ in_bounds st target_x target_y then false
  else
    match line_points source_x source_y target_x target_y with
    | [] => true
    | start :: rest => loeWalk st start rest

inductive CoverGrade where
  | none
  | standard
  | greater
  | blocked
  deriving Repr, DecidableEq

/-- engine/grid/loe.py cover_grade_between_tiles. -/
def cover_grade_between_tiles (st : BattleState) (source_x source_y target_x target_y : Int) :
    CoverGrade :=
  if ¬ has_tile_line_of_effect st source_x source_y target_x target_y then .blocked
  else
    let sx := signOf (source_x - target_x)
    let sy := signOf (source_y - target_y)
    if sx = 0 ∧ sy = 0 then .none
    else
      let candidates : List (Int × Int) :=
        if sx = 0 then [(target_x - 1, target_y), (target_x + 1, target_y)]
        else if sy = 0 then [(target_x, target_y - 1), (target_x, target_y + 1)]
        else [(target_x + sx, target_y), (target_x, target_y + sy)]
      let blocked_count :=
        (candidates.filter (fun p => in_bounds st p.1 p.2 ∧ is_blocked st p.1 p.2)).length
      if blocked_count ≥ 2 then .greater
      else if blocked_count = 1 then .standard
      else .none

/-- engine/grid/loe.py cover_ac_bonus_from_grade. -/
def cover_ac_bonus_from_grade (grade : CoverGrade) : Int :=
  match grade with
  | .standard => 2
  | .greater => 4
  | _ => 0

/-- engine/grid/loe.py has_line_of_effect (unit level). -/
def has_line_of_effect (st : BattleState) (source target : UnitState) : Bool :=
  if ¬ source.alive ∨ ¬ target.alive then false
  else has_tile_line_of_effect st source.x source.y target.x target.y

/-- engine/grid/los.py has_line_of_sight: the source equates sight with
line of effect. -/
def has_line_of_sight (st : BattleState) (source target : UnitState) : Bool :=
  has_line_of_effect st source target

/-- engine/grid/loe.py cover_grade_for_units. -/
def cover_grade_for_units (st : BattleState) (source target : UnitState) : CoverGrade :=
  if ¬ source.alive ∨ ¬ target.alive then .blocked
  else cover_grade_between_tiles st source.x source.y target.x target.y

/-- engine/grid/loe.py cover_ac_bonus_for_units. -/
def cover_ac_bonus_for_units (st : BattleState) (source target : UnitState) : Int :=
  if ¬ source.alive ∨ ¬ target.alive then 0
  else cover_ac_bonus_from_grade
    (cover_grade_between_tiles st source.x source.y target.x target.y)

/- ===== engine/effects/lifecycle.py ===== -/

/-- Lifecycle events are (event_type, payload) pairs appended by the caller. -/
abbrev LifeEvent : Type := String × List (String × JVal)

/-- int(x) where the engine trusts the catalog value to be numeric. -/
def pyIntD (v : JVal) (d : Int) : Int :=
  (pyInt v).getD d

/-- Placeholder for effect lookups the engine performs after membership. -/
def missingEffect : EffectState :=
  ⟨"", "", none, none, [], none, none⟩

/-- state.effects[eid] after membership is established. -/
def BattleState.effectGet (st : BattleState) (eid : String) : EffectState :=
  (dictGet st.effects eid).getD missingEffect

/-- Shared helper _unit_save_profile (lifecycle.py and reducer.py). -/
def unitSaveProfile (st : BattleState) (uid : String) : SaveProfile :=
  let u := st.unitGet uid
  ⟨u.fortitude, u.reflex, u.will⟩

/-- engine/effects/lifecycle.py _stage_by_number. -/
def stageByNumber (stages : List JVal) (stage_number : Int) : Option JVal :=
  stages.find? (fun stage => pyIntD (jGetD stage "stage" (.int 0)) 0 = stage_number)

/-- engine/effects/lifecycle.py _duration_to_rounds. -/
def durationToRounds (duration : JVal) (default_rounds : Int) : Int :=
  match duration with
  | .obj _ =>
    let amount := pyIntD (jOr (jGet duration "amount") (.int 0)) 0
    let unit := pyStr (jOr (jGet duration "unit") (.str ""))
    if amount ≤ 0 then default_rounds
    else if unit = "round" then amount
    else if unit = "minute" then amount * 10
    else if unit = "hour" then amount * 600
    else if unit = "day" then amount * 14400
    else default_rounds
  | _ => default_rounds

/-- Python set(...) built from a list, keeping first occurrences (set
iteration order is unspecified in CPython; membership is what the engine
branches on). -/
def setOfList (xs : List String) : List String :=
  xs.foldl (fun acc x => if acc.contains x then acc else acc ++ [x]) []

/-- The persistent-condition name set read from an affliction payload. -/
def persistentConditionSet (payload : List (String × JVal)) : List String :=
  setOfList
    ((jItems (dictGetD payload "persistent_conditions" (.arr []))).filterMap
      (fun name =>
        if pyStrip (pyStr name) ≠ "" then some (replaceSpaces (pyStr name)) else none))

/-- The applied-condition map recorded in an affliction payload. -/
def oldAppliedConditions (payload : List (String × JVal)) : List (String × Int) :=
  match dictGetD payload "applied_conditions" (.obj []) with
  | .obj fields => (fields.filter (fun p => pyStrip p.1 ≠ "")).map (fun p => (p.1, pyIntD p.2 0))
  | _ => []

/-- Python sorted() on a list of strings. -/
def sortedStrings (xs : List String) : List String :=
  sortByLe strLe xs

/-- One stage-damage entry of engine/effects/lifecycle.py
_apply_affliction_stage: roll the formula and apply it straight to the
temp-HP/hp pool (no apply_damage_modifiers call). -/
def afflictionStageDamageStep (st : BattleState) (tid : String)
    (rng : DeterministicRNG) (dmg : JVal) :
    Except RunError (BattleState × Option JVal × DeterministicRNG) := do
  let formula := pyStr (jGetD dmg "formula" (.str ""))
  if formula = "" then
    .ok (st, none, rng)
  else do
    let (roll, rng') ← roll_damage rng formula
    let target := st.unitGet tid
    let applied_damage := apply_damage_to_pool target.hp target.temp_hp roll.total
    let st' := st.updateUnit tid (fun u =>
      let u := { u with hp := applied_damage.new_hp, temp_hp := applied_damage.new_temp_hp }
      if u.temp_hp = 0 then
        { u with temp_hp_source := none, temp_hp_owner_effect_id := none }
      else u)
    let detail : List (String × JVal) :=
      [("formula", .str formula),
       ("damage_type", jGetD dmg "damage_type" .null),
       ("rolls", .arr (roll.rolls.map (.int ·))),
       ("flat_modifier", .int roll.flat_modifier),
       ("total", .int roll.total)]
    let detail :=
      if applied_damage.absorbed_by_temp_hp > 0 then
        detail ++ [("temp_hp_absorbed", .int applied_damage.absorbed_by_temp_hp)]
      else detail
    .ok (st', some (.obj detail), rng')

/-- Fold of afflictionStageDamageStep over a stage's damage list. -/
def afflictionStageDamageLoop (st : BattleState) (tid : String)
    (rng : DeterministicRNG) : List JVal →
    Except RunError (BattleState × List JVal × DeterministicRNG)
  | [] => .ok (st, [], rng)
  | dmg :: rest => do
    let (st', detail, rng') ← afflictionStageDamageStep st tid rng dmg
    let (st'', details, rng'') ← afflictionStageDamageLoop st' tid rng' rest
    .ok (st'', (detail.toList ++ details), rng'')

/-- Per-condition step of the stage-condition loop in
_apply_affliction_stage.  Accumulates (stage_condition_values,
applied_conditions, skipped_conditions). -/
def afflictionStageCondStep (old_applied : List (String × Int))
    (acc : BattleState × List (String × Int) × List JVal × List JVal) (cond : JVal)
    (tid : String) : BattleState × List (String × Int) × List JVal × List JVal :=
  let (st, stage_values, applied, skipped) := acc
  let name := normalize_condition_name (pyStr (jGetD cond "condition" (.str "")))
  if name = "" then acc
  else
    let value := pyIntD (jOr (jGet cond "value") (.int 1)) 0
    let target := st.unitGet tid
    if condition_is_immune name target.condition_immunities then
      (st, stage_values, applied,
        skipped ++ [.obj [("name", .str name), ("value", .int value),
          ("reason", .str "condition_immune")]])
    else
      let old_value := dictGet old_applied name
      let current := dictGetD target.conditions name 0
      let st' :=
        if old_value.isSome ∧ old_value = some current then
          st.updateUnit tid (fun u => { u with conditions := dictSet u.conditions name value })
        else
          st.updateUnit tid (fun u => { u with conditions := apply_condition u.conditions name value })
      (st', dictSet stage_values name value,
        applied ++ [.obj [("name", .str name), ("value", .int value)]], skipped)

/-- Clearing pass over previously applied conditions in
_apply_affliction_stage. -/
def afflictionStageClearStep (stage_values : List (String × Int))
    (persistent : List String) (tid : String)
    (acc : BattleState × List String) (entry : String × Int) : BattleState × List String :=
  let (st, cleared) := acc
  let (name, old_value) := entry
  if dictHas stage_values name then acc
  else if persistent.contains name then acc
  else
    let target := st.unitGet tid
    if dictGetD target.conditions name 0 = old_value then
      (st.updateUnit tid (fun u => { u with conditions := clear_condition u.conditions name }),
        cleared ++ [name])
    else acc

/-- engine/effects/lifecycle.py _apply_affliction_stage.  The effect is
addressed by id because the Python code mutates the payload of the effect
object aliased inside state.effects. -/
def applyAfflictionStage (st : BattleState) (eid : String) (rng : DeterministicRNG)
    (stage_number : Int) :
    Except RunError (BattleState × JVal × DeterministicRNG) := do
  let effect := st.effectGet eid
  let tid := effect.target_unit_id.getD ""
  match dictGet st.units tid with
  | none =>
    .ok (st, .obj [("stage", .int stage_number), ("applied", .bool false),
      ("reason", .str "target_missing_or_dead")], rng)
  | some target0 =>
    if ¬ target0.alive then
      .ok (st, .obj [("stage", .int stage_number), ("applied", .bool false),
        ("reason", .str "target_missing_or_dead")], rng)
    else
      let stages := jItems (dictGetD effect.payload "stages" (.arr []))
      match stageByNumber stages stage_number with
      | none =>
        .ok (st, .obj [("stage", .int stage_number), ("applied", .bool false),
          ("reason", .str "stage_not_found"), ("target_hp", .int target0.hp)], rng)
      | some stage => do
        let persistent := persistentConditionSet effect.payload
        let old_applied := oldAppliedConditions effect.payload
        let (st1, damage_results, rng1) ←
          afflictionStageDamageLoop st tid rng (jItems (jGetD stage "damage" (.arr [])))
        let (st2, stage_values, applied_conditions, skipped_conditions) :=
          (jItems (jGetD stage "conditions" (.arr []))).foldl
            (fun acc cond => afflictionStageCondStep old_applied acc cond tid)
            (st1, [], [], [])
        let (st3, cleared_conditions) :=
          old_applied.foldl (afflictionStageClearStep stage_values persistent tid) (st2, [])
        let tracked :=
          persistent.foldl
            (fun tracked name =>
              match dictGet old_applied name with
              | some old_value =>
                if dictGetD (st3.unitGet tid).conditions name 0 = old_value then
                  dictSet tracked name old_value
                else tracked
              | none => tracked)
            stage_values
        let stage_rounds := durationToRounds (jGetD stage "duration" .null) 1
        let st4 := st3.updateEffect eid (fun e =>
          let p1 := dictSet e.payload "applied_conditions"
            (.obj (tracked.map (fun p => (p.1, .int p.2))))
          { e with payload := dictSet p1 "stage_rounds_remaining" (.int stage_rounds) })
        let st5 :=
          if (st4.unitGet tid).hp = 0 then
            st4.updateUnit tid (fun u =>
              { u with conditions := apply_condition u.conditions "unconscious" 1 })
          else st4
        .ok (st5,
          .obj [("stage", .int stage_number), ("applied", .bool true),
            ("damage", .arr damage_results),
            ("conditions", .arr applied_conditions),
            ("skipped_conditions", .arr skipped_conditions),
            ("cleared_conditions", .arr (cleared_conditions.map (.str ·))),
            ("stage_rounds", .int stage_rounds),
            ("target_hp", .int (st5.unitGet tid).hp)],
          rng1)

/-- engine/effects/lifecycle.py _affliction_delta. -/
def afflictionDelta (degree : Degree) : Int :=
  match degree with
  | .critical_success => -2
  | .success => -1
  | .failure => 1
  | .critical_failure => 2

/-- engine/effects/lifecycle.py _on_affliction_tick. -/
def onAfflictionTick (st : BattleState) (eid : String) (rng : DeterministicRNG) :
    Except RunError (List LifeEvent × BattleState × DeterministicRNG) := do
  let effect := st.effectGet eid
  let tid := effect.target_unit_id.getD ""
  match dictGet st.units tid with
  | none => .ok ([], st, rng)
  | some target =>
    if ¬ target.alive then .ok ([], st, rng)
    else
      let current_stage := pyIntD (jOr (dictGet effect.payload "current_stage") (.int 1)) 1
      let stages := jItems (dictGetD effect.payload "stages" (.arr []))
      let stage_numbers := stages.map (fun s => pyIntD (jGetD s "stage" (.int 0)) 0)
      let max_stage :=
        match stage_numbers with
        | [] => current_stage
        | x :: xs => xs.foldl max x
      let stage_rounds_remaining :=
        pyIntD (jOr (dictGet effect.payload "stage_rounds_remaining") (.int 1)) 1
      if stage_rounds_remaining > 1 then
        let st' := st.updateEffect eid (fun e =>
          { e with payload :=
              dictSet e.payload "stage_rounds_remaining" (.int (stage_rounds_remaining - 1)) })
        .ok ([("effect_tick",
          [("effect_id", .str effect.effect_id), ("kind", .str effect.kind),
           ("target", .str target.unit_id), ("stage_from", .int current_stage),
           ("stage_to", .int current_stage), ("waiting", .bool true),
           ("remaining_stage_rounds", .int (stage_rounds_remaining - 1)),
           ("target_hp", .int target.hp)])], st', rng)
      else do
        let save_cfg := jOr (dictGet effect.payload "save") (.obj [])
        let dc := pyIntD (jOr (jGet save_cfg "dc") (.int 0)) 0
        let save_type := pyStr (jOr (jGet save_cfg "save_type") (.str "Fortitude"))
        let (next_stage, save_detail, rng1) :=
          if jTruthy save_cfg ∧ dc > 0 then
            let (save, rng') := resolve_save rng save_type (unitSaveProfile st tid) dc
            (max 0 (min max_stage (current_stage + afflictionDelta save.degree)),
              some (.obj [("dc", .int dc), ("save_type", .str save_type),
                ("die", .int save.die), ("modifier", .int save.modifier),
                ("total", .int save.total), ("degree", .str (degreeStr save.degree))]),
              rng')
          else (current_stage, none, rng)
        let st1 := st.updateEffect eid (fun e =>
          { e with payload := dictSet e.payload "current_stage" (.int next_stage) })
        if next_stage ≤ 0 then
          let st2 := st1.updateEffect eid (fun e => { e with duration_rounds := some 0 })
          .ok ([("effect_tick",
            [("effect_id", .str effect.effect_id), ("kind", .str effect.kind),
             ("target", .str target.unit_id), ("stage_from", .int current_stage),
             ("stage_to", .int next_stage), ("save", save_detail.getD .null),
             ("cured", .bool true), ("target_hp", .int target.hp)])], st2, rng1)
        else do
          let (st2, stage_result, rng2) ← applyAfflictionStage st1 eid rng1 next_stage
          .ok ([("effect_tick",
            [("effect_id", .str effect.effect_id), ("kind", .str effect.kind),
             ("target", .str target.unit_id), ("stage_from", .int current_stage),
             ("stage_to", .int next_stage), ("save", save_detail.getD .null),
             ("stage_result", stage_result)])], st2, rng2)

/-- temp_hp application decision of engine/effects/lifecycle.py on_apply:
returns (after, after_source, after_owner, decision, reason). -/
def tempHpDecision (before : Int) (before_source before_owner : Option String)
    (amount : Int) (stack_mode cross_source source_key eid : String) :
    Int × Option String × Option String × String × Option String :=
  if amount ≤ 0 then
    (before, before_source, before_owner, "ignored", some "invalid_amount")
  else if stack_mode ≠ "max" ∧ stack_mode ≠ "add" then
    (before, before_source, before_owner, "ignored", some "invalid_stack_mode")
  else if cross_source ≠ "higher_only" ∧ cross_source ≠ "replace" ∧ cross_source ≠ "ignore" then
    (before, before_source, before_owner, "ignored", some "invalid_cross_source_policy")
  else
    let same_source := before_source = some source_key ∨ (before = 0 ∧ before_source = none)
    if same_source then
      let after := if stack_mode = "add" then before + amount else max before amount
      ((after : Int),
        (if after > 0 then some source_key else none),
        (if after > 0 then some eid else none),
        "same_source_refresh", none)
    else if cross_source = "ignore" then
      (before, before_source, before_owner, "cross_source_ignored",
        some "cross_source_policy_ignore")
    else if cross_source = "replace" then
      (amount, some source_key, some eid, "cross_source_replaced", none)
    else if amount > before then
      (amount, some source_key, some eid, "cross_source_replaced", none)
    else
      (before, before_source, before_owner, "cross_source_ignored",
        some "lower_or_equal_than_current")

/-- engine/effects/lifecycle.py on_apply. -/
def on_apply (st : BattleState) (eid : String) (rng : DeterministicRNG) :
    Except RunError (List LifeEvent × BattleState × DeterministicRNG) := do
  let effect := st.effectGet eid
  match effect.target_unit_id with
  | none => .ok ([], st, rng)
  | some tid =>
    match dictGet st.units tid with
    | none => .ok ([], st, rng)
    | some target =>
      if ¬ target.alive then .ok ([], st, rng)
      else if effect.kind = "condition" then
        let name := normalize_condition_name (pyStr (jGetD (.obj effect.payload) "name" (.str "")))
        let value := pyIntD (dictGetD effect.payload "value" (.int 1)) 1
        if name = "" then .ok ([], st, rng)
        else
          let applied := ¬ condition_is_immune name target.condition_immunities
          let st' :=
            if applied then
              st.updateUnit tid (fun u =>
                { u with conditions := apply_condition u.conditions name value })
            else st
          .ok ([("effect_apply",
            [("effect_id", .str effect.effect_id), ("kind", .str effect.kind),
             ("target", .str target.unit_id), ("condition", .str name),
             ("value", .int value), ("applied", .bool applied),
             ("reason", if applied then .null else .str "condition_immune")])], st', rng)
      else if effect.kind = "temp_hp" then
        let amount := pyIntD (dictGetD effect.payload "amount" (.int 0)) 0
        let stack_mode := pyStr (jOr (dictGet effect.payload "stack_mode") (.str "max"))
        let cross_source := pyStr (jOr (dictGet effect.payload "cross_source") (.str "higher_only"))
        let source_key0 := pyStr (jOr (dictGet effect.payload "source_key") (.str ""))
        let source_key :=
          if source_key0 = "" then
            match effect.source_unit_id with
            | some sid => "unit:" ++ sid
            | none => "effect:" ++ effect.effect_id
          else source_key0
        let before := target.temp_hp
        let before_source := target.temp_hp_source
        let before_owner := target.temp_hp_owner_effect_id
        let (after, after_source, after_owner, decision, reason) :=
          tempHpDecision before before_source before_owner amount stack_mode cross_source
            source_key effect.effect_id
        let new_temp := max 0 after
        let new_source := if new_temp > 0 then after_source else none
        let new_owner := if new_temp > 0 then after_owner else none
        let st1 := st.updateUnit tid (fun u =>
          { u with temp_hp := new_temp, temp_hp_source := new_source,
                   temp_hp_owner_effect_id := new_owner })
        let granted := max 0 (new_temp - before)
        let applied :=
          new_temp ≠ before ∨ new_source ≠ before_source ∨ new_owner ≠ before_owner
        let st2 := st1.updateEffect eid (fun e =>
          let p1 := dictSet e.payload "applied_temp_hp" (.int granted)
          let p2 := dictSet p1 "temp_hp_source_key" (.str source_key)
          let p3 := dictSet p2 "stack_mode" (.str stack_mode)
          { e with payload := dictSet p3 "cross_source" (.str cross_source) })
        .ok ([("effect_apply",
          [("effect_id", .str effect.effect_id), ("kind", .str effect.kind),
           ("target", .str target.unit_id), ("requested_amount", .int amount),
           ("stack_mode", .str stack_mode), ("cross_source", .str cross_source),
           ("source_key", .str source_key), ("temp_hp_before", .int before),
           ("temp_hp_after", .int new_temp),
           ("temp_hp_source_before",
             match before_source with | some s => .str s | none => .null),
           ("temp_hp_source_after",
             match new_source with | some s => .str s | none => .null),
           ("granted", .int granted), ("applied", .bool applied),
           ("decision", .str decision),
           ("reason", match reason with | some r => .str r | none => .null)])], st2, rng)
      else if effect.kind = "affliction" then do
        let stage := pyIntD (jOr (dictGet effect.payload "current_stage") (.int 1)) 1
        let st1 := st.updateEffect eid (fun e =>
          let p1 :=
            if dictHas e.payload "applied_conditions" then e.payload
            else dictSet e.payload "applied_conditions" (.obj [])
          let p2 :=
            if dictHas p1 "persistent_conditions" then p1
            else dictSet p1 "persistent_conditions" (.arr [])
          { e with payload := p2 })
        let (st2, stage_result, rng1) ← applyAfflictionStage st1 eid rng stage
        .ok ([("effect_apply",
          [("effect_id", .str effect.effect_id), ("kind", .str effect.kind),
           ("target", .str target.unit_id), ("stage", .int stage),
           ("stage_result", stage_result)])], st2, rng1)
      else
        .ok ([("effect_apply",
          [("effect_id", .str effect.effect_id), ("kind", .str effect.kind),
           ("target", .str target.unit_id)])], st, rng)

/-- engine/effects/lifecycle.py _apply_persistent_damage: rolls the formula,
mitigates by damage type via apply_damage_modifiers, applies to the pool,
then optionally rolls the recovery check. -/
def applyPersistentDamage (st : BattleState) (eid : String) (rng : DeterministicRNG) :
    Except RunError (List LifeEvent × BattleState × DeterministicRNG) := do
  let effect := st.effectGet eid
  let tid := effect.target_unit_id.getD ""
  match dictGet st.units tid with
  | none => .ok ([], st, rng)
  | some target =>
    if ¬ target.alive then .ok ([], st, rng)
    else
      let formula := pyStr (dictGetD effect.payload "formula" (.str ""))
      let damage_type_str := pyLower (pyStr (jOr (dictGet effect.payload "damage_type") (.str "")))
      let damage_type : Option String := if damage_type_str = "" then none else some damage_type_str
      if formula = "" then .ok ([], st, rng)
      else do
        let (roll, rng1) ← roll_damage rng formula
        let adjustment := apply_damage_modifiers roll.total damage_type
          target.resistances target.weaknesses target.immunities
        let applied_damage := apply_damage_to_pool target.hp target.temp_hp
          adjustment.applied_total
        let st1 := st.updateUnit tid (fun u =>
          let u := { u with hp := applied_damage.new_hp, temp_hp := applied_damage.new_temp_hp }
          let u :=
            if u.temp_hp = 0 then
              { u with temp_hp_source := none, temp_hp_owner_effect_id := none }
            else u
          if u.hp = 0 then
            { u with conditions := apply_condition u.conditions "unconscious" 1 }
          else u)
        let (recovery, st2, rng2) :=
          if jTruthy (dictGetD effect.payload "recovery_check" (.bool true)) then
            let recovery_dc := pyIntD (dictGetD effect.payload "recovery_dc" (.int 15)) 15
            let recovery_mod := pyIntD (dictGetD effect.payload "recovery_modifier" (.int 0)) 0
            let (check, rng') := resolve_check rng1 recovery_mod recovery_dc
            let recovered := check.degree = .success ∨ check.degree = .critical_success
            let st' :=
              if recovered then
                st1.updateEffect eid (fun e =>
                  { e with payload := dictSet e.payload "_expire_now" (.bool true) })
              else st1
            (some (.obj [("dc", .int recovery_dc), ("modifier", .int recovery_mod),
              ("die", .int check.die), ("total", .int check.total),
              ("degree", .str (degreeStr check.degree)),
              ("recovered", .bool recovered)]), st', rng')
          else (none, st1, rng1)
        let damage_payload : List (String × JVal) :=
          [("formula", .str formula),
           ("rolls", .arr (roll.rolls.map (.int ·))),
           ("flat_modifier", .int roll.flat_modifier),
           ("raw_total", .int adjustment.raw_total),
           ("total", .int adjustment.applied_total),
           ("damage_type", .str (damage_type.getD "untyped")),
           ("immune", .bool adjustment.immune),
           ("resistance_total", .int adjustment.resistance_total),
           ("weakness_total", .int adjustment.weakness_total)]
        let damage_payload :=
          if applied_damage.absorbed_by_temp_hp > 0 then
            damage_payload ++ [("temp_hp_absorbed", .int applied_damage.absorbed_by_temp_hp)]
          else damage_payload
        .ok ([("effect_tick",
          [("effect_id", .str effect.effect_id), ("kind", .str effect.kind),
           ("target", .str target.unit_id), ("damage", .obj damage_payload),
           ("recovery", (recovery.map id).getD .null),
           ("target_hp", .int (st2.unitGet tid).hp)])], st2, rng2)

/-- engine/effects/lifecycle.py on_turn_start. -/
def on_turn_start (st : BattleState) (eid : String) (rng : DeterministicRNG) :
    Except RunError (List LifeEvent × BattleState × DeterministicRNG) :=
  if (st.effectGet eid).kind = "persistent_damage" then applyPersistentDamage st eid rng
  else .ok ([], st, rng)

/-- engine/effects/lifecycle.py on_turn_end. -/
def on_turn_end (st : BattleState) (eid : String) (rng : DeterministicRNG) :
    Except RunError (List LifeEvent × BattleState × DeterministicRNG) :=
  if (st.effectGet eid).kind = "persistent_damage" then applyPersistentDamage st eid rng
  else if (st.effectGet eid).kind = "affliction" then onAfflictionTick st eid rng
  else .ok ([], st, rng)

/-- engine/effects/lifecycle.py on_expire. -/
def on_expire (st : BattleState) (eid : String) : List LifeEvent × BattleState :=
  let effect := st.effectGet eid
  let genericEvent : List LifeEvent :=
    [("effect_expire",
      [("effect_id", .str effect.effect_id), ("kind", .str effect.kind),
       ("target", match effect.target_unit_id with | some t => .str t | none => .null)])]
  match effect.target_unit_id with
  | none => (genericEvent, st)
  | some tid =>
    if effect.kind = "condition" then
      match dictGet st.units tid with
      | none => (genericEvent, st)
      | some target =>
        if jTruthy (dictGetD effect.payload "clear_on_expire" (.bool true)) then
          let name := pyStr (dictGetD effect.payload "name" (.str ""))
          if name ≠ "" then
            (([("effect_expire",
              [("effect_id", .str effect.effect_id), ("kind", .str effect.kind),
               ("target", .str target.unit_id), ("cleared_condition", .str name)])]),
              st.updateUnit tid (fun u =>
                { u with conditions := clear_condition u.conditions name }))
          else (genericEvent, st)
        else (genericEvent, st)
    else if effect.kind = "affliction" then
      match dictGet st.units tid with
      | none => (genericEvent, st)
      | some target =>
        let persistent := persistentConditionSet effect.payload
        let applied := oldAppliedConditions effect.payload
        let (st', cleared) :=
          applied.foldl
            (fun acc entry =>
              let (st0, cleared0) := acc
              let (name, value) := entry
              if persistent.contains name then acc
              else if dictGetD (st0.unitGet tid).conditions name 0 = value then
                (st0.updateUnit tid (fun u =>
                  { u with conditions := clear_condition u.conditions name }),
                  cleared0 ++ [name])
              else acc)
            (st, ([] : List String))
        (([("effect_expire",
          [("effect_id", .str effect.effect_id), ("kind", .str effect.kind),
           ("target", .str target.unit_id),
           ("cleared_conditions", .arr ((sortedStrings cleared).map (.str ·))),
           ("persistent_conditions", .arr ((sortedStrings persistent).map (.str ·)))])]), st')
    else if effect.kind = "temp_hp" then
      match dictGet st.units tid with
      | none => (genericEvent, st)
      | some target =>
        let remove_on_expire := jTruthy (dictGetD effect.payload "remove_on_expire" (.bool true))
        let source_key := pyStr (jOr (dictGet effect.payload "temp_hp_source_key") (.str ""))
        let owner_match := target.temp_hp_owner_effect_id = some effect.effect_id
        let source_match := target.temp_hp_source = some source_key
        let doRemove := remove_on_expire ∧ owner_match ∧ source_match ∧ target.temp_hp > 0
        let removed := if doRemove then target.temp_hp else 0
        let st' :=
          if doRemove then
            st.updateUnit tid (fun u =>
              { u with temp_hp := 0, temp_hp_source := none, temp_hp_owner_effect_id := none })
          else st
        (([("effect_expire",
          [("effect_id", .str effect.effect_id), ("kind", .str effect.kind),
           ("target", .str target.unit_id),
           ("stack_mode", .str (pyStr (jOr (dictGet effect.payload "stack_mode") (.str "max")))),
           ("cross_source",
             .str (pyStr (jOr (dictGet effect.payload "cross_source") (.str "higher_only")))),
           ("source_key", .str source_key),
           ("remove_on_expire", .bool remove_on_expire),
           ("owner_match", .bool owner_match),
           ("source_match", .bool source_match),
           ("removed_temp_hp", .int removed),
           ("temp_hp_after", .int ((st'.unitGet tid).temp_hp))])]), st')
    else (genericEvent, st)

/-- One effect's visit in the scan loop of engine/effects/lifecycle.py
process_timing: tick when the timing matches, then consume a pending
_expire_now marker, then (at turn_end) decrement the duration.  Returns the
events it emitted and whether the effect joined the expiry list. -/
def processTimingVisit (st : BattleState) (rng : DeterministicRNG) (timing : String)
    (active : String) (eid : String) :
    Except RunError (List LifeEvent × BattleState × DeterministicRNG × Bool) := do
  let effect := st.effectGet eid
  if effect.target_unit_id ≠ some active then .ok ([], st, rng, false)
  else do
    let (tickEvents, st1, rng1) ←
      if effect.tick_timing = some timing then
        if timing = "turn_start" then on_turn_start st eid rng
        else if timing = "turn_end" then on_turn_end st eid rng
        else .ok ([], st, rng)
      else .ok ([], st, rng)
    let effect1 := st1.effectGet eid
    let expireNow := jTruthy (dictGetD effect1.payload "_expire_now" (.bool false))
    let st2 := st1.updateEffect eid (fun e => { e with payload := dictPop e.payload "_expire_now" })
    if expireNow then .ok (tickEvents, st2, rng1, true)
    else
      match (st2.effectGet eid).duration_rounds with
      | some d =>
        if timing = "turn_end" then
          let st3 := st2.updateEffect eid (fun e => { e with duration_rounds := some (d - 1) })
          let durEvent : LifeEvent :=
            ("effect_duration",
              [("effect_id", .str eid), ("remaining_rounds", .int (d - 1)),
               ("target", match effect1.target_unit_id with | some t => .str t | none => .null)])
          .ok (tickEvents ++ [durEvent], st3, rng1, d - 1 ≤ 0)
        else .ok (tickEvents, st2, rng1, false)
      | none => .ok (tickEvents, st2, rng1, false)

/-- The scan phase of process_timing over a snapshot of effect ids. -/
def processTimingScan (st : BattleState) (rng : DeterministicRNG) (timing : String)
    (active : String) : List String →
    Except RunError (List LifeEvent × BattleState × DeterministicRNG × List String)
  | [] => .ok ([], st, rng, [])
  | eid :: rest => do
    let (events1, st1, rng1, expired) ← processTimingVisit st rng timing active eid
    let (events2, st2, rng2, expiredRest) ← processTimingScan st1 rng1 timing active rest
    .ok (events1 ++ events2, st2, rng2, (if expired then [eid] else []) ++ expiredRest)

/-- The expiry phase of process_timing: run on_expire and remove. -/
def processTimingExpire (st : BattleState) : List String → List LifeEvent × BattleState
  | [] => ([], st)
  | eid :: rest =>
    match dictGet st.effects eid with
    | none => processTimingExpire st rest
    | some _ =>
      let (events1, st1) := on_expire st eid
      let st2 := { st1 with effects := dictPop st1.effects eid }
      let (events2, st3) := processTimingExpire st2 rest
      (events1 ++ events2, st3)

/-- engine/effects/lifecycle.py process_timing. -/
def process_timing (st : BattleState) (rng : DeterministicRNG) (timing : String) :
    Except RunError (List LifeEvent × BattleState × DeterministicRNG) := do
  let active := st.active_unit_id
  let (scanEvents, st1, rng1, to_expire) ←
    processTimingScan st rng timing active (dictKeys st.effects)
  let (expireEvents, st2) := processTimingExpire st1 to_expire
  .ok (scanEvents ++ expireEvents, st2, rng1)

/- ===== engine/core/reducer.py ===== -/

/-- Events as emitted into the battle log. -/
structure EventE where
  event_id : String
  round : Int
  active_unit : String
  type : String
  payload : List (String × JVal)

/-- engine/core/reducer.py _append_event: increments the state's
event_sequence counter, then stamps the new value into the event id. -/
def mkEvent (st : BattleState) (ty : String) (payload : List (String × JVal)) :
    EventE × BattleState :=
  let st' := { st with event_sequence := st.event_sequence + 1 }
  (⟨eventIdOf st'.event_sequence, st'.round_number, st'.active_unit_id, ty, payload⟩, st')

/-- engine/core/reducer.py _emit_lifecycle_events. -/
def emitLifecycleEvents (st : BattleState) : List LifeEvent → List EventE × BattleState
  | [] => ([], st)
  | (ty, payload) :: rest =>
    let (ev, st1) := mkEvent st ty payload
    let (evs, st2) := emitLifecycleEvents st1 rest
    (ev :: evs, st2)

/-- engine/core/reducer.py _advance_turn loop body; the fuel bounds the
walk around the turn order (the loop stops at an alive unit or after coming
back to the starting index). -/
def advanceTurnLoop (start : Nat) : Nat → BattleState → BattleState
  | 0, st => st
  | fuel + 1, st =>
    let size := st.turn_order.length
    let nxt := next_turn_index st.turn_index size
    let st := if nxt ≤ st.turn_index then { st with round_number := st.round_number + 1 } else st
    let st := { st with turn_index := nxt }
    let uid := st.active_unit_id
    if (st.unitGet uid).alive then
      st.updateUnit uid (fun u => { u with actions_remaining := 3, reaction_available := true })
    else if st.turn_index = start then st
    else advanceTurnLoop start fuel st

/-- engine/core/reducer.py _advance_turn. -/
def advanceTurn (st : BattleState) : BattleState :=
  if st.turn_order.length = 0 then st
  else advanceTurnLoop st.turn_index (st.turn_order.length + 1) st

/-- engine/core/reducer.py _new_effect_id: "eff_" plus the zero-padded
current effects-map size plus one. -/
def newEffectId (st : BattleState) : String :=
  "eff_" ++ padZeros 4 (dictLen st.effects + 1)

/-- engine/core/reducer.py _alive_unit_ids: iterates the units dict in its
insertion order. -/
def aliveUnitIds (st : BattleState) : List String :=
  (dictValues st.units).filterMap (fun u => if u.alive then some u.unit_id else none)

/-- engine/core/reducer.py _nearest_enemy_unit_id: stable sort of the alive
enemies by (Manhattan distance, unit_id), then the head. -/
def nearestEnemyUnitId (st : BattleState) (actor_id : String) : Option String :=
  let actor := st.unitGet actor_id
  let enemies := (dictValues st.units).filter
    (fun u => u.alive ∧ u.unit_id ≠ actor_id ∧ u.team ≠ actor.team)
  let sorted := sortByLe
    (fun a b =>
      let da := |a.x - actor.x| + |a.y - actor.y|
      let db := |b.x - actor.x| + |b.y - actor.y|
      da < db ∨ (da = db ∧ strLe a.unit_id b.unit_id))
    enemies
  sorted.head?.map (·.unit_id)

/-- engine/core/reducer.py _tiles_from_feet: (feet + 4) // 5, at least 1. -/
def tilesFromFeet (feet : Int) : Int :=
  max 1 (Int.fdiv (feet + 4) 5)

/-- engine/core/reducer.py _units_within_radius_feet (include_actor_id is the
excluded unit id); iterates the units dict in its insertion order. -/
def unitsWithinRadiusFeet (st : BattleState) (center_x center_y radius_feet : Int)
    (include_actor_id : Option String) : List String :=
  let area := radius_points center_x center_y (tilesFromFeet radius_feet)
  (dictValues st.units).filterMap (fun u =>
    if ¬ u.alive then none
    else if include_actor_id = some u.unit_id then none
    else if area.contains (u.x, u.y) then some u.unit_id
    else none)

/-- engine/core/reducer.py _nearest_open_tile: all map tiles in x-major
generation order, stably sorted by (Manhattan distance, y, x), first open. -/
def nearestOpenTile (st : BattleState) (x y : Int) : Option (Int × Int) :=
  let tiles := (intRange 0 st.battle_map.width).flatMap (fun tx =>
    (intRange 0 st.battle_map.height).map (fun ty => (tx, ty)))
  let sorted := sortByLe
    (fun a b =>
      let da := |a.1 - x| + |a.2 - y|
      let db := |b.1 - x| + |b.2 - y|
      da < db ∨ (da = db ∧ (a.2 < b.2 ∨ (a.2 = b.2 ∧ a.1 ≤ b.1))))
    tiles
  sorted.find? (fun p =>
    in_bounds st p.1 p.2 ∧ ¬ is_blocked st p.1 p.2 ∧ ¬ is_occupied st p.1 p.2)

/-- External collaborators of the reducer: the modeled-effect catalog is a
read-only table loaded from JSON files (lookup_hazard_source), cone
membership is computed with Python floating point (math.hypot / math.cos),
and persistent-condition inference runs a regex over catalog raw text.
These are passed in as oracles with the source signatures; none of the
verified claims depends on their internals. -/
structure ExternalCtx where
  lookupHazardSource : String → String → String → String → Option (List JVal)
  conePoints : Int → Int → Int → Int → Int → List (Int × Int)
  inferPersistent : String → List String

/-- engine/core/reducer.py _units_in_cone_feet; iterates the units dict in
its insertion order, membership given by the cone oracle. -/
def unitsInConeFeet (ctx : ExternalCtx) (st : BattleState) (actor_id : String)
    (facing_x facing_y size_feet : Int) : List String :=
  let actor := st.unitGet actor_id
  let area := ctx.conePoints actor.x actor.y facing_x facing_y (tilesFromFeet size_feet)
  (dictValues st.units).filterMap (fun u =>
    if u.alive ∧ u.unit_id ≠ actor_id ∧ area.contains (u.x, u.y) then some u.unit_id
    else none)

/-- Line-clipping walk of the line branch in _choose_model_targets: skip the
actor origin, stop at the first blocked tile. -/
def lineClip (blocked : List (Int × Int)) : List (Int × Int) → List (Int × Int)
  | [] => []
  | p :: rest => if blocked.contains p then [] else p :: lineClip blocked rest

/-- engine/core/reducer.py _choose_model_targets. -/
def chooseModelTargets (ctx : ExternalCtx) (st : BattleState) (actor_id : String)
    (effects : List JVal) (explicit_target_id : Option String)
    (center_x center_y : Option Int) : List String :=
  let actor := st.unitGet actor_id
  if explicit_target_id.getD "" ≠ "" then
    let tid := explicit_target_id.getD ""
    match dictGet st.units tid with
    | none => []
    | some target =>
      if ¬ target.alive then []
      else if ¬ has_tile_line_of_effect st actor.x actor.y target.x target.y then []
      else [tid]
  else
    let area_effects := effects.filter (fun e => jIsStr (jGetD e "kind" .null) "area")
    match area_effects, center_x, center_y with
    | area :: _, some cx, some cy =>
      if ¬ jIsNull ((jGet area "size_miles").getD .null) then
        (aliveUnitIds st).filter (fun uid => uid ≠ actor_id)
      else
        let size_feet := pyIntD (jGetD area "size_feet" (.int 5)) 5
        let shape := pyStr (jGetD area "shape" (.str "within_radius"))
        if shape = "line" then
          let pts :=
            match line_points actor.x actor.y cx cy with
            | [] => []
            | _ :: rest => lineClip st.battle_map.blocked rest
          (dictValues st.units).filterMap (fun u =>
            if u.alive ∧ u.unit_id ≠ actor_id ∧ pts.contains (u.x, u.y) then some u.unit_id
            else none)
        else if shape = "cone" then
          let candidates := unitsInConeFeet ctx st actor_id cx cy size_feet
          candidates.filter (fun uid =>
            let u := st.unitGet uid
            has_tile_line_of_effect st actor.x actor.y u.x u.y)
        else
          let candidates := unitsWithinRadiusFeet st cx cy size_feet (some actor_id)
          candidates.filter (fun uid =>
            let u := st.unitGet uid
            has_tile_line_of_effect st cx cy u.x u.y)
    | _, _, _ =>
      (aliveUnitIds st).filter (fun uid =>
        uid ≠ actor_id ∧
          (let u := st.unitGet uid
           has_tile_line_of_effect st actor.x actor.y u.x u.y))

/-- engine/core/reducer.py _duration_to_rounds (returns None outside the
known units). -/
def durationToRoundsOpt (maximum_duration : JVal) : Option Int :=
  match maximum_duration with
  | .obj _ =>
    let amount := pyIntD (jOr (jGet maximum_duration "amount") (.int 0)) 0
    let unit := pyStr (jOr (jGet maximum_duration "unit") (.str ""))
    if amount ≤ 0 then none
    else if unit = "round" then some amount
    else if unit = "minute" then some (amount * 10)
    else if unit = "hour" then some (amount * 600)
    else if unit = "day" then some (amount * 14400)
    else none
  | _ => none

/-- engine/core/reducer.py _infer_persistent_affliction_conditions: the
regex scan over the raw catalog fragment runs through the oracle; the
sorted-set collection around it is kept. -/
def inferPersistentAfflictionConditions (ctx : ExternalCtx) (affliction_event : JVal) :
    List String :=
  let raw := pyStr (jOr (jGet affliction_event "raw_fragment") (.str ""))
  sortedStrings (setOfList (ctx.inferPersistent raw))

/-- Apply pool damage to a unit and clear the temp-HP source fields when the
overlay empties (the repeated pattern after apply_damage_to_pool calls). -/
def applyPoolToUnit (st : BattleState) (tid : String) (applied : AppliedDamage) :
    BattleState :=
  st.updateUnit tid (fun u =>
    let u := { u with hp := applied.new_hp, temp_hp := applied.new_temp_hp }
    if u.temp_hp = 0 then
      { u with temp_hp_source := none, temp_hp_owner_effect_id := none }
    else u)

/-- Optional-string JVal rendering. -/
def jOfOptStr (s : Option String) : JVal :=
  match s with
  | some t => .str t
  | none => .null

/-- Optional-int JVal rendering. -/
def jOfOptInt (n : Option Int) : JVal :=
  match n with
  | some v => .int v
  | none => .null

/-- damage_type extraction pattern str(x.get("damage_type") or "").lower()
or None, shared by the reducer's damage paths. -/
def damageTypeOfField (v : JVal) (key : String) : Option String :=
  let s := pyLower (pyStr (jOr (jGet v key) (.str "")))
  if s = "" then none else some s

/-- Condition-application loop shared by _apply_modeled_effects_to_target:
returns (state, applied list, skipped list). -/
def modelConditionLoop (tid : String) :
    (BattleState × List JVal × List JVal) → List JVal → BattleState × List JVal × List JVal
  | acc, [] => acc
  | (st, applied, skipped), cond :: rest =>
    let name := normalize_condition_name (pyStr (jGetD cond "condition" (.str "")))
    let value := pyIntD (jOr (jGet cond "value") (.int 1)) 1
    if name = "" then modelConditionLoop tid (st, applied, skipped) rest
    else
      let target := st.unitGet tid
      if condition_is_immune name target.condition_immunities then
        modelConditionLoop tid
          (st, applied,
            skipped ++ [.obj [("name", .str name), ("value", .int value),
              ("reason", .str "condition_immune")]]) rest
      else
        modelConditionLoop tid
          (st.updateUnit tid (fun u =>
            { u with conditions := apply_condition u.conditions name value }),
            applied ++ [.obj [("name", .str name), ("value", .int value)]], skipped) rest

/-- engine/core/reducer.py _apply_modeled_effects_to_target. -/
def applyModeledEffectsToTarget (ctx : ExternalCtx) (st : BattleState)
    (rng : DeterministicRNG) (actor_id target_id : String) (effects : List JVal)
    (source_label : Option String) :
    Except RunError (JVal × List LifeEvent × BattleState × DeterministicRNG) := do
  let save_event := effects.find? (fun e => jIsStr (jGetD e "kind" .null) "save_check")
  let damage_event := effects.find? (fun e =>
    jIsStr (jGetD e "kind" .null) "damage" ∧ jTruthy (jGetD e "formula" .null))
  let affliction_event := effects.find? (fun e => jIsStr (jGetD e "kind" .null) "affliction")
  let condition_events := effects.filter (fun e => jIsStr (jGetD e "kind" .null) "apply_condition")
  let death_events := effects.filter (fun e =>
    jIsStr (jGetD e "kind" .null) "instant_death" ∨ jIsStr (jGetD e "kind" .null) "special_lethality")
  let transform_events := effects.filter (fun e => jIsStr (jGetD e "kind" .null) "transform")
  let teleport_events := effects.filter (fun e => jIsStr (jGetD e "kind" .null) "teleport")
  match affliction_event with
  | some aff =>
    let aff_save_cfg : JVal :=
      match jGet aff "save" with
      | some (.obj fields) => .obj fields
      | _ => .obj []
    let dcBase : JVal :=
      match save_event with
      | some se => jGetD se "dc" .null
      | none => .int 0
    let dc := pyIntD (jOr (jGet aff_save_cfg "dc") dcBase) 0
    let saveTypeBase : JVal :=
      match save_event with
      | some se => jGetD se "save_type" .null
      | none => .str "Fortitude"
    let save_type := pyStr (jOr (jGet aff_save_cfg "save_type") saveTypeBase)
    let (save_degree, save_detail, rng1) :=
      if dc > 0 then
        let (save, rng') := resolve_save rng save_type (unitSaveProfile st target_id) dc
        (save.degree,
          some (.obj [("dc", .int dc), ("save_type", .str save_type),
            ("mode", .str "affliction"), ("die", .int save.die),
            ("modifier", .int save.modifier), ("total", .int save.total),
            ("degree", .str (degreeStr save.degree))]),
          rng')
      else (Degree.failure, none, rng)
    let contracted := save_degree = .failure ∨ save_degree = .critical_failure
    if contracted then do
      let stage_values := (jItems (jGetD aff "stages" (.arr []))).filterMap (fun stage =>
        match stage with
        | .obj _ =>
          match jGet stage "stage" with
          | some v => if jIsNull v then none else some (pyIntD v 0)
          | none => none
        | _ => none)
      let max_stage :=
        match stage_values with
        | [] => 1
        | x :: xs => xs.foldl max x
      let initial_stage := if save_degree = .critical_failure then min 2 max_stage else 1
      let duration_rounds := durationToRoundsOpt (jGetD aff "maximum_duration" .null)
      let eid := newEffectId st
      let effect : EffectState :=
        ⟨eid, "affliction", some actor_id, some target_id,
          [("name", .str (source_label.getD "modeled_affliction")),
           ("save",
             if dc > 0 then .obj [("dc", .int dc), ("save_type", .str save_type)]
             else aff_save_cfg),
           ("maximum_duration", jGetD aff "maximum_duration" .null),
           ("stages", jGetD aff "stages" (.arr [])),
           ("current_stage", .int initial_stage),
           ("persistent_conditions",
             .arr ((inferPersistentAfflictionConditions ctx aff).map (.str ·)))],
          duration_rounds, some "turn_end"⟩
      let st1 := { st with effects := dictSet st.effects eid effect }
      let (lifecycle_events, st2, rng2) ← on_apply st1 eid rng1
      .ok (.obj
        [("actor", .str actor_id), ("target", .str target_id),
         ("save", save_detail.getD .null), ("damage", .null),
         ("applied_conditions", .arr []), ("special_flags", .arr []),
         ("affliction", .obj
           [("contracted", .bool true), ("effect_id", .str eid),
            ("initial_stage", .int initial_stage),
            ("maximum_duration_rounds", jOfOptInt duration_rounds)]),
         ("target_hp", .int (st2.unitGet target_id).hp)],
        lifecycle_events, st2, rng2)
    else
      .ok (.obj
        [("actor", .str actor_id), ("target", .str target_id),
         ("save", save_detail.getD .null), ("damage", .null),
         ("applied_conditions", .arr []), ("special_flags", .arr []),
         ("affliction", .obj
           [("contracted", .bool false), ("effect_id", .null),
            ("initial_stage", .null), ("maximum_duration_rounds", .null)]),
         ("target_hp", .int (st.unitGet target_id).hp)],
        [], st, rng1)
  | none => do
    let (save_detail, should_apply_secondary, damage_detail, st1, rng1) ←
      match save_event with
      | some se => do
        let (save, rngA) := resolve_save rng (pyStr (jGetD se "save_type" .null))
          (unitSaveProfile st target_id) (pyIntD (jGetD se "dc" .null) 0)
        let save_mode := pyStr (jGetD se "mode" (.str "standard"))
        let save_detail : JVal := .obj
          [("dc", .int (pyIntD (jGetD se "dc" .null) 0)),
           ("save_type", .str (pyStr (jGetD se "save_type" .null))),
           ("mode", .str save_mode), ("die", .int save.die),
           ("modifier", .int save.modifier), ("total", .int save.total),
           ("degree", .str (degreeStr save.degree))]
        let secondary : Bool := save.degree = .failure ∨ save.degree = .critical_failure
        match damage_event with
        | some de => do
          let (base_roll, rngB) ← roll_damage rngA (pyStr (jGetD de "formula" .null))
          let multiplier : Rat :=
            if save_mode = "basic" then basic_save_multiplier save.degree
            else if save_mode = "negates" then
              (if save.degree = .success ∨ save.degree = .critical_success then 0 else 1)
            else 1
          let raw_total := pyIntOfRat (base_roll.total * multiplier)
          let target := st.unitGet target_id
          let adjustment := apply_damage_modifiers raw_total
            (damageTypeOfField de "damage_type") target.resistances target.weaknesses
            target.immunities
          let applied_damage := apply_damage_to_pool target.hp target.temp_hp
            adjustment.applied_total
          let stB := applyPoolToUnit st target_id applied_damage
          let detail : List (String × JVal) :=
            [("formula", jGetD de "formula" .null),
             ("damage_type", jGetD de "damage_type" .null),
             ("rolled_total", .int base_roll.total),
             ("rolls", .arr (base_roll.rolls.map (.int ·))),
             ("flat_modifier", .int base_roll.flat_modifier),
             ("multiplier", .float multiplier),
             ("raw_total", .int adjustment.raw_total),
             ("immune", .bool adjustment.immune),
             ("resistance_total", .int adjustment.resistance_total),
             ("weakness_total", .int adjustment.weakness_total),
             ("applied_total", .int adjustment.applied_total)]
          let detail :=
            if applied_damage.absorbed_by_temp_hp > 0 then
              detail ++ [("temp_hp_absorbed", .int applied_damage.absorbed_by_temp_hp)]
            else detail
          .ok (some save_detail, secondary, some (JVal.obj detail), stB, rngB)
        | none => .ok (some save_detail, secondary, none, st, rngA)
      | none =>
        match damage_event with
        | some de => do
          let (base_roll, rngB) ← roll_damage rng (pyStr (jGetD de "formula" .null))
          let target := st.unitGet target_id
          let adjustment := apply_damage_modifiers base_roll.total
            (damageTypeOfField de "damage_type") target.resistances target.weaknesses
            target.immunities
          let applied_damage := apply_damage_to_pool target.hp target.temp_hp
            adjustment.applied_total
          let stB := applyPoolToUnit st target_id applied_damage
          let detail : List (String × JVal) :=
            [("formula", jGetD de "formula" .null),
             ("damage_type", jGetD de "damage_type" .null),
             ("rolled_total", .int base_roll.total),
             ("rolls", .arr (base_roll.rolls.map (.int ·))),
             ("flat_modifier", .int base_roll.flat_modifier),
             ("multiplier", .float 1),
             ("raw_total", .int adjustment.raw_total),
             ("immune", .bool adjustment.immune),
             ("resistance_total", .int adjustment.resistance_total),
             ("weakness_total", .int adjustment.weakness_total),
             ("applied_total", .int adjustment.applied_total)]
          let detail :=
            if applied_damage.absorbed_by_temp_hp > 0 then
              detail ++ [("temp_hp_absorbed", .int applied_damage.absorbed_by_temp_hp)]
            else detail
          .ok (none, true, some (JVal.obj detail), stB, rngB)
        | none => .ok (none, true, none, st, rng)
    let (st2, applied_conditions, skipped_conditions) :=
      if should_apply_secondary then modelConditionLoop target_id (st1, [], []) condition_events
      else (st1, [], [])
    let (st3, special_flags1) :=
      if ¬ death_events.isEmpty ∧ should_apply_secondary then
        (st2.updateUnit target_id (fun u =>
          { u with hp := 0,
                   conditions := apply_condition u.conditions "unconscious" 1 }),
          death_events.map (fun evt => pyStr (jGetD evt "kind" .null)))
      else (st2, [])
    let st4 :=
      if (st3.unitGet target_id).hp = 0 then
        st3.updateUnit target_id (fun u =>
          { u with conditions := apply_condition u.conditions "unconscious" 1 })
      else st3
    let special_flags := special_flags1
      ++ transform_events.map (fun evt =>
          "transform:" ++ pyStr (jGetD evt "transform_type" (.str "unknown")))
      ++ teleport_events.map (fun evt =>
          "teleport:" ++ pyStr (jGetD evt "teleport_type" (.str "unknown")))
    .ok (.obj
      [("actor", .str actor_id), ("target", .str target_id),
       ("save", save_detail.getD .null),
       ("damage", damage_detail.getD .null),
       ("applied_conditions", .arr applied_conditions),
       ("skipped_conditions", .arr skipped_conditions),
       ("special_flags", .arr (special_flags.map (.str ·))),
       ("affliction", .null),
       ("target_hp", .int (st4.unitGet target_id).hp)],
      [], st4, rng1)

/-- The string a CoverGrade renders as in event payloads. -/
def coverGradeStr (g : CoverGrade) : String :=
  match g with
  | .none => "none"
  | .standard => "standard"
  | .greater => "greater"
  | .blocked => "blocked"

/-- str(DEFAULT_EFFECT_MODEL_PATH) from engine/io/effect_model_loader.py. -/
def defaultEffectModelPath : String :=
  "compiled/tactical_effect_models_v1.json"

/-- move branch of engine/core/reducer.py apply_command. -/
def applyMove (st : BattleState) (cmd : JVal) (rng : DeterministicRNG) (actor_id : String) :
    Except RunError (BattleState × List EventE × DeterministicRNG) :=
  let actor := st.unitGet actor_id
  if actor.actions_remaining ≤ 0 then .error (.reduction "actor has no actions remaining")
  else
    let x := pyIntD (jGetD cmd "x" .null) 0
    let y := pyIntD (jGetD cmd "y" .null) 0
    if ¬ can_step_to st actor x y then
      .error (.reduction ("illegal move target (" ++ toString x ++ ", " ++ toString y ++ ")"))
    else
      let old := (actor.x, actor.y)
      let st1 := st.updateUnit actor_id (fun u =>
        { u with x := x, y := y, actions_remaining := u.actions_remaining - 1 })
      let (ev, st2) := mkEvent st1 "move"
        [("actor", .str actor_id),
         ("from", .arr [.int old.1, .int old.2]),
         ("to", .arr [.int x, .int y]),
         ("actions_remaining", .int (st2i st1 actor_id))]
      .ok (st2, [ev], rng)
where
  st2i (st : BattleState) (uid : String) : Int := (st.unitGet uid).actions_remaining

/-- strike branch of engine/core/reducer.py apply_command. -/
def applyStrike (st : BattleState) (cmd : JVal) (rng : DeterministicRNG) (actor_id : String) :
    Except RunError (BattleState × List EventE × DeterministicRNG) := do
  let actor := st.unitGet actor_id
  if actor.actions_remaining ≤ 0 then .error (.reduction "actor has no actions remaining")
  else
    let target_id := pyStr (jGetD cmd "target" .null)
    match dictGet st.units target_id with
    | none => .error (.reduction ("unknown target " ++ target_id))
    | some target =>
      if ¬ target.alive then .error (.reduction ("target " ++ target_id ++ " is not alive"))
      else if ¬ has_line_of_sight st actor target then
        .error (.reduction ("no line of sight from " ++ actor_id ++ " to " ++ target_id))
      else do
        let cover_grade := cover_grade_for_units st actor target
        let cover_bonus := cover_ac_bonus_for_units st actor target
        let effective_ac := target.ac + cover_bonus
        let (check, rng1) := resolve_check rng actor.attack_mod effective_ac
        let multiplier : Int :=
          if check.degree = .critical_success then 2
          else if check.degree = .success then 1
          else 0
        let (damage_detail, st1, rng2) ←
          if multiplier > 0 then do
            let (dmg, rngB) ← roll_damage rng1 actor.damage multiplier
            let adjustment := apply_damage_modifiers dmg.total (some actor.attack_damage_type)
              target.resistances target.weaknesses target.immunities
            let damage_total := adjustment.applied_total
            let applied_damage := apply_damage_to_pool target.hp target.temp_hp damage_total
            let stB := applyPoolToUnit st target_id applied_damage
            let stC :=
              if (stB.unitGet target_id).hp = 0 then
                stB.updateUnit target_id (fun u =>
                  { u with conditions := apply_condition u.conditions "unconscious" 1 })
              else stB
            let detail : List (String × JVal) :=
              [("formula", .str actor.damage),
               ("damage_type", .str actor.attack_damage_type),
               ("rolls", .arr (dmg.rolls.map (.int ·))),
               ("flat_modifier", .int dmg.flat_modifier),
               ("multiplier", .int multiplier),
               ("raw_total", .int adjustment.raw_total),
               ("immune", .bool adjustment.immune),
               ("resistance_total", .int adjustment.resistance_total),
               ("weakness_total", .int adjustment.weakness_total),
               ("total", .int damage_total)]
            let detail :=
              if applied_damage.absorbed_by_temp_hp > 0 then
                detail ++ [("temp_hp_absorbed", .int applied_damage.absorbed_by_temp_hp)]
              else detail
            .ok (some (JVal.obj detail), stC, rngB)
          else
            .ok ((none : Option JVal), st, rng1)
        let st2 := st1.updateUnit actor_id (fun u =>
          { u with actions_remaining := u.actions_remaining - 1 })
        let (ev, st3) := mkEvent st2 "strike"
          [("actor", .str actor_id), ("target", .str target_id),
           ("degree", .str (degreeStr check.degree)),
           ("roll", .obj
             [("die", .int check.die), ("modifier", .int check.modifier),
              ("total", .int check.total), ("base_dc", .int target.ac),
              ("cover_grade", .str (coverGradeStr cover_grade)),
              ("cover_bonus", .int cover_bonus), ("dc", .int check.dc)]),
           ("damage", damage_detail.getD .null),
           ("target_hp", .int ((st2.unitGet target_id).hp)),
           ("actions_remaining", .int ((st2.unitGet actor_id).actions_remaining))]
        .ok (st3, [ev], rng2)

/-- end_turn branch of engine/core/reducer.py apply_command. -/
def applyEndTurn (st : BattleState) (rng : DeterministicRNG) (actor_id : String) :
    Except RunError (BattleState × List EventE × DeterministicRNG) := do
  let actor := st.unitGet actor_id
  let (ev1, st1) := mkEvent st "end_turn"
    [("actor", .str actor_id), ("actions_remaining", .int actor.actions_remaining)]
  let (endEvents, st2, rng1) ← process_timing st1 rng "turn_end"
  let (endEventsE, st3) := emitLifecycleEvents st2 endEvents
  let st4 := advanceTurn st3
  let (ev2, st5) := mkEvent st4 "turn_start"
    [("active_unit", .str st4.active_unit_id), ("round", .int st4.round_number)]
  let (startEvents, st6, rng2) ← process_timing st5 rng1 "turn_start"
  let (startEventsE, st7) := emitLifecycleEvents st6 startEvents
  .ok (st7, [ev1] ++ endEventsE ++ [ev2] ++ startEventsE, rng2)

/-- save_damage branch of engine/core/reducer.py apply_command. -/
def applySaveDamage (st : BattleState) (cmd : JVal) (rng : DeterministicRNG)
    (actor_id : String) : Except RunError (BattleState × List EventE × DeterministicRNG) := do
  let actor := st.unitGet actor_id
  if actor.actions_remaining ≤ 0 then .error (.reduction "actor has no actions remaining")
  else
    let target_id := pyStr (jGetD cmd "target" .null)
    match dictGet st.units target_id with
    | none => .error (.reduction ("unknown target " ++ target_id))
    | some target =>
      if ¬ target.alive then .error (.reduction ("target " ++ target_id ++ " is not alive"))
      else
        let dc := pyIntD (jGetD cmd "dc" .null) 0
        let save_type := pyStr (jGetD cmd "save_type" .null)
        let damage_formula := pyStr (jGetD cmd "damage" .null)
        let damage_type := damageTypeOfField cmd "damage_type"
        let mode := pyStr (jGetD cmd "mode" (.str "basic"))
        if mode ≠ "basic" then
          .error (.reduction ("unsupported save_damage mode: " ++ mode))
        else do
          let (save, rng1) := resolve_save rng save_type (unitSaveProfile st target_id) dc
          let multiplier := basic_save_multiplier save.degree
          let (damage_roll, rng2) ← roll_damage rng1 damage_formula
          let raw_total := pyIntOfRat (damage_roll.total * multiplier)
          let adjustment := apply_damage_modifiers raw_total damage_type
            target.resistances target.weaknesses target.immunities
          let damage_total := adjustment.applied_total
          let applied_damage := apply_damage_to_pool target.hp target.temp_hp damage_total
          let st1 := applyPoolToUnit st target_id applied_damage
          let st2 :=
            if (st1.unitGet target_id).hp = 0 then
              st1.updateUnit target_id (fun u =>
                { u with conditions := apply_condition u.conditions "unconscious" 1 })
            else st1
          let damage_payload : List (String × JVal) :=
            [("formula", .str damage_formula),
             ("damage_type", jOfOptStr damage_type),
             ("rolled_total", .int damage_roll.total),
             ("rolls", .arr (damage_roll.rolls.map (.int ·))),
             ("flat_modifier", .int damage_roll.flat_modifier),
             ("multiplier", .float multiplier),
             ("raw_total", .int adjustment.raw_total),
             ("immune", .bool adjustment.immune),
             ("resistance_total", .int adjustment.resistance_total),
             ("weakness_total", .int adjustment.weakness_total),
             ("applied_total", .int damage_total)]
          let damage_payload :=
            if applied_damage.absorbed_by_temp_hp > 0 then
              damage_payload ++ [("temp_hp_absorbed", .int applied_damage.absorbed_by_temp_hp)]
            else damage_payload
          let st3 := st2.updateUnit actor_id (fun u =>
            { u with actions_remaining := u.actions_remaining - 1 })
          let (ev, st4) := mkEvent st3 "save_damage"
            [("actor", .str actor_id), ("target", .str target_id),
             ("save_type", .str save_type), ("mode", .str mode),
             ("roll", .obj
               [("die", .int save.die), ("modifier", .int save.modifier),
                ("total", .int save.total), ("dc", .int save.dc),
                ("degree", .str (degreeStr save.degree))]),
             ("damage", .obj damage_payload),
             ("target_hp", .int ((st3.unitGet target_id).hp)),
             ("actions_remaining", .int ((st3.unitGet actor_id).actions_remaining))]
          .ok (st4, [ev], rng2)

/-- Per-target loop of the area_save_damage branch. -/
def areaSaveLoop (dc : Int) (save_type damage_formula : String) (damage_type : Option String)
    (mode : String) (st : BattleState) (rng : DeterministicRNG) : List String →
    Except RunError (List JVal × BattleState × DeterministicRNG)
  | [] => .ok ([], st, rng)
  | target_id :: rest => do
    let (save, rng1) := resolve_save rng save_type (unitSaveProfile st target_id) dc
    let multiplier := basic_save_multiplier save.degree
    let (roll, rng2) ← roll_damage rng1 damage_formula
    let raw_total := pyIntOfRat (roll.total * multiplier)
    let target := st.unitGet target_id
    let adjustment := apply_damage_modifiers raw_total damage_type
      target.resistances target.weaknesses target.immunities
    let applied := adjustment.applied_total
    let applied_damage := apply_damage_to_pool target.hp target.temp_hp applied
    let st1 := applyPoolToUnit st target_id applied_damage
    let st2 :=
      if (st1.unitGet target_id).hp = 0 then
        st1.updateUnit target_id (fun u =>
          { u with conditions := apply_condition u.conditions "unconscious" 1 })
      else st1
    let damage_payload : List (String × JVal) :=
      [("formula", .str damage_formula),
       ("damage_type", jOfOptStr damage_type),
       ("rolled_total", .int roll.total),
       ("rolls", .arr (roll.rolls.map (.int ·))),
       ("flat_modifier", .int roll.flat_modifier),
       ("multiplier", .float multiplier),
       ("raw_total", .int adjustment.raw_total),
       ("immune", .bool adjustment.immune),
       ("resistance_total", .int adjustment.resistance_total),
       ("weakness_total", .int adjustment.weakness_total),
       ("applied_total", .int applied)]
    let damage_payload :=
      if applied_damage.absorbed_by_temp_hp > 0 then
        damage_payload ++ [("temp_hp_absorbed", .int applied_damage.absorbed_by_temp_hp)]
      else damage_payload
    let resolution : JVal := .obj
      [("target", .str target_id),
       ("save", .obj
         [("dc", .int dc), ("save_type", .str save_type), ("mode", .str mode),
          ("die", .int save.die), ("modifier", .int save.modifier),
          ("total", .int save.total), ("degree", .str (degreeStr save.degree))]),
       ("damage", .obj damage_payload),
       ("target_hp", .int ((st2.unitGet target_id).hp))]
    let (resolutions, st3, rng3) ←
      areaSaveLoop dc save_type damage_formula damage_type mode st2 rng2 rest
    .ok (resolution :: resolutions, st3, rng3)

/-- area_save_damage branch of engine/core/reducer.py apply_command. -/
def applyAreaSaveDamage (st : BattleState) (cmd : JVal) (rng : DeterministicRNG)
    (actor_id : String) : Except RunError (BattleState × List EventE × DeterministicRNG) := do
  let actor := st.unitGet actor_id
  if actor.actions_remaining ≤ 0 then .error (.reduction "actor has no actions remaining")
  else
    let center_x := pyIntD (jGetD cmd "center_x" .null) 0
    let center_y := pyIntD (jGetD cmd "center_y" .null) 0
    let radius_feet := pyIntD (jGetD cmd "radius_feet" .null) 0
    let dc := pyIntD (jGetD cmd "dc" .null) 0
    let save_type := pyStr (jGetD cmd "save_type" .null)
    let damage_formula := pyStr (jGetD cmd "damage" .null)
    let damage_type := damageTypeOfField cmd "damage_type"
    let mode := pyStr (jGetD cmd "mode" (.str "basic"))
    if mode ≠ "basic" then
      .error (.reduction ("unsupported area_save_damage mode: " ++ mode))
    else do
      let include_actor := jTruthy (jGetD cmd "include_actor" (.bool false))
      let excluded := if include_actor then none else some actor_id
      let targets0 := unitsWithinRadiusFeet st center_x center_y radius_feet excluded
      let targets := targets0.filter (fun uid =>
        let u := st.unitGet uid
        has_tile_line_of_effect st center_x center_y u.x u.y)
      let (resolutions, st1, rng1) ←
        areaSaveLoop dc save_type damage_formula damage_type mode st rng targets
      let st2 := st1.updateUnit actor_id (fun u =>
        { u with actions_remaining := u.actions_remaining - 1 })
      let (ev, st3) := mkEvent st2 "area_save_damage"
        [("actor", .str actor_id),
         ("center", .arr [.int center_x, .int center_y]),
         ("radius_feet", .int radius_feet),
         ("save_type", .str save_type), ("dc", .int dc), ("mode", .str mode),
         ("damage_formula", .str damage_formula),
         ("targets", .arr (targets.map (.str ·))),
         ("resolutions", .arr resolutions),
         ("actions_remaining", .int ((st2.unitGet actor_id).actions_remaining))]
      .ok (st3, [ev], rng1)

/-- set_flag branch of engine/core/reducer.py apply_command. -/
def applySetFlag (st : BattleState) (cmd : JVal) (rng : DeterministicRNG)
    (actor_id : String) : Except RunError (BattleState × List EventE × DeterministicRNG) :=
  let flag := pyStr (jGetD cmd "flag" .null)
  let value := jTruthy (jGetD cmd "value" (.bool true))
  let st1 := { st with flags := dictSet st.flags flag value }
  let (ev, st2) := mkEvent st1 "set_flag"
    [("actor", .str actor_id), ("flag", .str flag), ("value", .bool value)]
  .ok (st2, [ev], rng)

/-- spawn_unit branch of engine/core/reducer.py apply_command. -/
def applySpawnUnit (st : BattleState) (cmd : JVal) (rng : DeterministicRNG)
    (actor_id : String) : Except RunError (BattleState × List EventE × DeterministicRNG) := do
  let unit_raw := jOr (jGet cmd "unit") (.obj [])
  let unit_id := pyStr (jOr (jGet unit_raw "id") (.str ""))
  if unit_id = "" then .error (.reduction "spawn_unit requires unit.id")
  else if dictHas st.units unit_id then
    .error (.reduction ("cannot spawn duplicate unit id: " ++ unit_id))
  else do
    let (pos_x, pos_y) ←
      match jGet unit_raw "position" with
      | some (.arr [px, py]) => .ok (pyIntD px 0, pyIntD py 0)
      | _ => .error (RunError.reduction "spawn_unit unit.position must be [x, y]")
    let policy := pyStr (jOr (jGet cmd "placement_policy") (.str "exact"))
    let (spawn_x, spawn_y) ←
      if policy = "nearest_open" then
        match nearestOpenTile st pos_x pos_y with
        | none =>
          .error (RunError.reduction "spawn_unit found no open tile for nearest_open placement")
        | some p => .ok p
      else if policy = "exact" then
        if ¬ in_bounds st pos_x pos_y then
          .error (.reduction
            ("spawn position out of bounds: (" ++ toString pos_x ++ ", " ++ toString pos_y ++ ")"))
        else if is_blocked st pos_x pos_y then
          .error (.reduction
            ("spawn position blocked: (" ++ toString pos_x ++ ", " ++ toString pos_y ++ ")"))
        else if is_occupied st pos_x pos_y then
          .error (.reduction
            ("spawn position occupied: (" ++ toString pos_x ++ ", " ++ toString pos_y ++ ")"))
        else .ok (pos_x, pos_y)
      else .error (.reduction ("unsupported spawn placement policy: " ++ policy))
    let hp := pyIntD (jOr (jGet unit_raw "hp") (.int 0)) 0
    if hp ≤ 0 then .error (.reduction "spawn_unit unit.hp must be > 0")
    else
      let temp_hp := pyIntD (jGetD unit_raw "temp_hp" (.int 0)) 0
      if temp_hp < 0 then .error (.reduction "spawn_unit unit.temp_hp must be >= 0")
      else
        let spawned : UnitState :=
          { unit_id := unit_id,
            team := pyStr (jOr (jGet unit_raw "team") (.str "")),
            hp := hp,
            max_hp := pyIntD (jOr (jGet unit_raw "max_hp") (.int hp)) 0,
            x := spawn_x, y := spawn_y,
            initiative := pyIntD (jOr (jGet unit_raw "initiative") (.int 0)) 0,
            attack_mod := pyIntD (jOr (jGet unit_raw "attack_mod") (.int 0)) 0,
            ac := pyIntD (jOr (jGet unit_raw "ac") (.int 10)) 0,
            damage := pyStr (jOr (jGet unit_raw "damage") (.str "1d1")),
            temp_hp := temp_hp,
            temp_hp_source := if temp_hp > 0 then some ("spawn:" ++ unit_id) else none,
            temp_hp_owner_effect_id := none,
            attack_damage_type := pyLower (pyStr (jOr (jGet unit_raw "attack_damage_type") (.str "physical"))),
            fortitude := pyIntD (jOr (jGet unit_raw "fortitude") (.int 0)) 0,
            reflex := pyIntD (jOr (jGet unit_raw "reflex") (.int 0)) 0,
            will := pyIntD (jOr (jGet unit_raw "will") (.int 0)) 0,
            actions_remaining := 3,
            reaction_available := true,
            conditions :=
              (match jGetD unit_raw "conditions" (.obj []) with
               | .obj fields => fields.map (fun p => (p.1, pyIntD p.2 0))
               | _ => []),
            condition_immunities :=
              (jItems (jGetD unit_raw "condition_immunities" (.arr []))).map
                (fun x => replaceSpaces (pyLower (pyStr x))),
            resistances :=
              (match jGetD unit_raw "resistances" (.obj []) with
               | .obj fields => fields.map (fun p => (pyLower p.1, pyIntD p.2 0))
               | _ => []),
            weaknesses :=
              (match jGetD unit_raw "weaknesses" (.obj []) with
               | .obj fields => fields.map (fun p => (pyLower p.1, pyIntD p.2 0))
               | _ => []),
            immunities :=
              (jItems (jGetD unit_raw "immunities" (.arr []))).map (fun x => pyLower (pyStr x)) }
        if spawned.team = "" then .error (.reduction "spawn_unit unit.team is required")
        else
          let active_unit_id := st.active_unit_id
          let st1 := { st with units := dictSet st.units unit_id spawned }
          let st2 := { st1 with turn_order := build_turn_order st1.units }
          let st3 := { st2 with turn_index := st2.turn_order.indexOf active_unit_id }
          let spend_action := jTruthy (jGetD cmd "spend_action" (.bool false))
          if spend_action ∧ (st3.unitGet actor_id).actions_remaining ≤ 0 then
            .error (.reduction "actor has no actions remaining")
          else
            let st4 :=
              if spend_action then
                st3.updateUnit actor_id (fun u =>
                  { u with actions_remaining := u.actions_remaining - 1 })
              else st3
            let (ev, st5) := mkEvent st4 "spawn_unit"
              [("actor", .str actor_id), ("unit_id", .str unit_id),
               ("team", .str spawned.team),
               ("position", .arr [.int spawned.x, .int spawned.y]),
               ("placement_policy", .str policy),
               ("spend_action", .bool spend_action),
               ("actions_remaining", .int ((st4.unitGet actor_id).actions_remaining))]
            .ok (st5, [ev], rng)

/-- Per-target loop shared by the hazard command branches: dead or vanished
targets are skipped at resolution time. -/
def hazardTargetLoop (ctx : ExternalCtx) (actor_id : String) (effects : List JVal)
    (source_label : String) (st : BattleState) (rng : DeterministicRNG) : List String →
    Except RunError (List JVal × List LifeEvent × BattleState × DeterministicRNG)
  | [] => .ok ([], [], st, rng)
  | target_id :: rest => do
    let skip : Bool :=
      match dictGet st.units target_id with
      | none => true
      | some u => ¬ u.alive
    if skip then hazardTargetLoop ctx actor_id effects source_label st rng rest
    else do
      let (result, target_events, st1, rng1) ←
        applyModeledEffectsToTarget ctx st rng actor_id target_id effects (some source_label)
      let (results, lifecycle, st2, rng2) ←
        hazardTargetLoop ctx actor_id effects source_label st1 rng1 rest
      .ok (result :: results, target_events ++ lifecycle, st2, rng2)

/-- sorted({str(e.get("kind")) for e in effects if "kind" in e}). -/
def effectKindsSorted (effects : List JVal) : List String :=
  sortedStrings (setOfList (effects.filterMap (fun e =>
    match jGet e "kind" with
    | some v => some (pyStr v)
    | none => none)))

/-- run_hazard_routine branch of engine/core/reducer.py apply_command. -/
def applyRunHazardRoutine (ctx : ExternalCtx) (st : BattleState) (cmd : JVal)
    (rng : DeterministicRNG) (actor_id : String) :
    Except RunError (BattleState × List EventE × DeterministicRNG) := do
  let actor := st.unitGet actor_id
  if actor.actions_remaining ≤ 0 then .error (.reduction "actor has no actions remaining")
  else
    let hazard_id := pyStr (jGetD cmd "hazard_id" .null)
    let source_name := pyStr (jGetD cmd "source_name" .null)
    let source_type := pyStr (jOr (jGet cmd "source_type") (.str "trigger_action"))
    let model_path := pyStr (jOr (jGet cmd "model_path") (.str defaultEffectModelPath))
    let policy := pyStr (jOr (jGet cmd "target_policy") (.str "nearest_enemy"))
    let center_x0 : Option Int :=
      match jGet cmd "center_x" with
      | some v => if jIsNull v then none else some (pyIntD v 0)
      | none => none
    let center_y0 : Option Int :=
      match jGet cmd "center_y" with
      | some v => if jIsNull v then none else some (pyIntD v 0)
      | none => none
    let explicit0 : Option String :=
      match jGet cmd "target" with
      | some (.str s) => some s
      | _ => none
    let (explicit_target, center_x, center_y) ←
      if policy = "nearest_enemy" then
        .ok (nearestEnemyUnitId st actor_id, center_x0, center_y0)
      else if policy = "nearest_enemy_area_center" then
        match nearestEnemyUnitId st actor_id with
        | some nearest_id =>
          let nearest := st.unitGet nearest_id
          .ok ((none : Option String), some nearest.x, some nearest.y)
        | none => .ok ((none : Option String), center_x0, center_y0)
      else if policy = "explicit" then .ok (explicit0, center_x0, center_y0)
      else if policy = "all_enemies" then .ok ((none : Option String), center_x0, center_y0)
      else if policy = "as_configured" then .ok (explicit0, center_x0, center_y0)
      else .error (RunError.reduction ("unsupported target policy: " ++ policy))
    match ctx.lookupHazardSource hazard_id source_name source_type model_path with
    | none =>
      .error (.reduction
        ("hazard source not found: hazard_id=" ++ hazard_id ++ " source_type=" ++ source_type
          ++ " source_name=" ++ source_name))
    | some effects => do
      let target_ids0 := chooseModelTargets ctx st actor_id effects explicit_target
        center_x center_y
      let target_ids :=
        if policy = "all_enemies" then
          let actor_team := (st.unitGet actor_id).team
          target_ids0.filter (fun uid => (st.unitGet uid).team ≠ actor_team)
        else target_ids0
      let (per_target, lifecycle_events, st1, rng1) ←
        hazardTargetLoop ctx actor_id effects (hazard_id ++ ":" ++ source_name) st rng target_ids
      let st2 := st1.updateUnit actor_id (fun u =>
        { u with actions_remaining := u.actions_remaining - 1 })
      let (ev, st3) := mkEvent st2 "run_hazard_routine"
        [("actor", .str actor_id), ("hazard_id", .str hazard_id),
         ("source_type", .str source_type), ("source_name", .str source_name),
         ("target_policy", .str policy),
         ("center",
           match center_x, center_y with
           | some cx, some cy => .arr [.int cx, .int cy]
           | _, _ => .null),
         ("explicit_target", jOfOptStr explicit_target),
         ("target_ids", .arr (target_ids.map (.str ·))),
         ("effect_kinds", .arr ((effectKindsSorted effects).map (.str ·))),
         ("results", .arr per_target),
         ("actions_remaining", .int ((st2.unitGet actor_id).actions_remaining))]
      let (lifecycleE, st4) := emitLifecycleEvents st3 lifecycle_events
      .ok (st4, [ev] ++ lifecycleE, rng1)

/-- trigger_hazard_source branch of engine/core/reducer.py apply_command. -/
def applyTriggerHazardSource (ctx : ExternalCtx) (st : BattleState) (cmd : JVal)
    (rng : DeterministicRNG) (actor_id : String) :
    Except RunError (BattleState × List EventE × DeterministicRNG) := do
  let actor := st.unitGet actor_id
  if actor.actions_remaining ≤ 0 then .error (.reduction "actor has no actions remaining")
  else
    let hazard_id := pyStr (jGetD cmd "hazard_id" .null)
    let source_name := pyStr (jGetD cmd "source_name" .null)
    let source_type := pyStr (jOr (jGet cmd "source_type") (.str "trigger_action"))
    let model_path := pyStr (jOr (jGet cmd "model_path") (.str defaultEffectModelPath))
    let center_x : Option Int :=
      match jGet cmd "center_x" with
      | some v => if jIsNull v then none else some (pyIntD v 0)
      | none => none
    let center_y : Option Int :=
      match jGet cmd "center_y" with
      | some v => if jIsNull v then none else some (pyIntD v 0)
      | none => none
    let explicit_target : Option String :=
      match jGet cmd "target" with
      | some (.str s) => some s
      | _ => none
    match ctx.lookupHazardSource hazard_id source_name source_type model_path with
    | none =>
      .error (.reduction
        ("hazard source not found: hazard_id=" ++ hazard_id ++ " source_type=" ++ source_type
          ++ " source_name=" ++ source_name))
    | some effects => do
      let target_ids := chooseModelTargets ctx st actor_id effects explicit_target
        center_x center_y
      let (per_target, lifecycle_events, st1, rng1) ←
        hazardTargetLoop ctx actor_id effects (hazard_id ++ ":" ++ source_name) st rng target_ids
      let st2 := st1.updateUnit actor_id (fun u =>
        { u with actions_remaining := u.actions_remaining - 1 })
      let (ev, st3) := mkEvent st2 "trigger_hazard_source"
        [("actor", .str actor_id), ("hazard_id", .str hazard_id),
         ("source_type", .str source_type), ("source_name", .str source_name),
         ("center",
           match center_x, center_y with
           | some cx, some cy => .arr [.int cx, .int cy]
           | _, _ => .null),
         ("explicit_target", jOfOptStr explicit_target),
         ("target_ids", .arr (target_ids.map (.str ·))),
         ("effect_kinds", .arr ((effectKindsSorted effects).map (.str ·))),
         ("results", .arr per_target),
         ("actions_remaining", .int ((st2.unitGet actor_id).actions_remaining))]
      let (lifecycleE, st4) := emitLifecycleEvents st3 lifecycle_events
      .ok (st4, [ev] ++ lifecycleE, rng1)

/-- apply_effect branch of engine/core/reducer.py apply_command. -/
def applyApplyEffect (st : BattleState) (cmd : JVal) (rng : DeterministicRNG)
    (actor_id : String) : Except RunError (BattleState × List EventE × DeterministicRNG) := do
  let actor := st.unitGet actor_id
  if actor.actions_remaining ≤ 0 then .error (.reduction "actor has no actions remaining")
  else
    let target_id := pyStr (jGetD cmd "target" .null)
    match dictGet st.units target_id with
    | none => .error (.reduction ("unknown target " ++ target_id))
    | some target =>
      if ¬ target.alive then .error (.reduction ("target " ++ target_id ++ " is not alive"))
      else do
        let eid := newEffectId st
        let duration_rounds : Option Int :=
          match jGet cmd "duration_rounds" with
          | some (.int n) => some n
          | _ => none
        let tick_timing : Option String :=
          match jGet cmd "tick_timing" with
          | some (.str s) => some s
          | _ => none
        let effect : EffectState :=
          ⟨eid, pyStr (jGetD cmd "effect_kind" .null), some actor_id, some target_id,
            (match jGetD cmd "payload" (.obj []) with
             | .obj fields => fields
             | _ => []),
            duration_rounds, tick_timing⟩
        let st1 := { st with effects := dictSet st.effects eid effect }
        let st2 := st1.updateUnit actor_id (fun u =>
          { u with actions_remaining := u.actions_remaining - 1 })
        let (ev, st3) := mkEvent st2 "apply_effect_command"
          [("actor", .str actor_id), ("target", .str target_id),
           ("effect_id", .str eid), ("kind", .str effect.kind),
           ("duration_rounds", jOfOptInt duration_rounds),
           ("tick_timing", jOfOptStr tick_timing),
           ("actions_remaining", .int ((st2.unitGet actor_id).actions_remaining))]
        let (lifecycle_events, st4, rng1) ← on_apply st3 eid rng
        let (lifecycleE, st5) := emitLifecycleEvents st4 lifecycle_events
        .ok (st5, [ev] ++ lifecycleE, rng1)

/-- engine/core/reducer.py apply_command: actor preconditions, then a
dispatch over the command type in source order; unknown types raise
ReductionError "unsupported command type". -/
def apply_command (ctx : ExternalCtx) (st : BattleState) (cmd : JVal)
    (rng : DeterministicRNG) :
    Except RunError (BattleState × List EventE × DeterministicRNG) :=
  let command_type := pyStr (jGetD cmd "type" .null)
  let actor_id := pyStr (jGetD cmd "actor" .null)
  if st.active_unit_id ≠ actor_id then
    .error (.reduction
      ("actor " ++ actor_id ++ " is not active unit " ++ st.active_unit_id))
  else if ¬ (st.unitGet actor_id).alive then
    .error (.reduction ("actor " ++ actor_id ++ " is not alive"))
  else if command_type = "move" then applyMove st cmd rng actor_id
  else if command_type = "strike" then applyStrike st cmd rng actor_id
  else if command_type = "end_turn" then applyEndTurn st rng actor_id
  else if command_type = "save_damage" then applySaveDamage st cmd rng actor_id
  else if command_type = "area_save_damage" then applyAreaSaveDamage st cmd rng actor_id
  else if command_type = "set_flag" then applySetFlag st cmd rng actor_id
  else if command_type = "spawn_unit" then applySpawnUnit st cmd rng actor_id
  else if command_type = "run_hazard_routine" then applyRunHazardRoutine ctx st cmd rng actor_id
  else if command_type = "trigger_hazard_source" then
    applyTriggerHazardSource ctx st cmd rng actor_id
  else if command_type = "apply_effect" then applyApplyEffect st cmd rng actor_id
  else .error (.reduction ("unsupported command type: " ++ command_type))


/- ===== engine/io/scenario_loader.py ===== -/

/-- Python isinstance(v, str) and bool(v). -/
def jNonEmptyStr (v : JVal) : Bool :=
  match v with
  | .str s => s ≠ ""
  | _ => false

/-- Python isinstance(v, int); CPython's bool-is-int identification is not
modelled (scenarios never rely on it). -/
def jIsInt (v : JVal) : Bool :=
  match v with
  | .int _ => true
  | _ => false

/-- Python isinstance(v, bool). -/
def jIsBool (v : JVal) : Bool :=
  match v with
  | .bool _ => true
  | _ => false

/-- isinstance(v, int) and v > 0. -/
def jPosInt (v : JVal) : Bool :=
  match v with
  | .int n => n > 0
  | _ => false

/-- isinstance(v, int) and v >= 0. -/
def jNonNegInt (v : JVal) : Bool :=
  match v with
  | .int n => n ≥ 0
  | _ => false

/-- isinstance(v, list) with exactly two int entries. -/
def jIntPair (v : JVal) : Bool :=
  match v with
  | .arr [a, b] => jIsInt a && jIsInt b
  | _ => false

/-- isinstance(v, dict). -/
def jIsObj (v : JVal) : Bool :=
  match v with
  | .obj _ => true
  | _ => false

/-- The value is one of the known unit-id strings. -/
def jStrInList (v : JVal) (known : List String) : Bool :=
  match v with
  | .str s => known.contains s
  | _ => false

/-- Python `k in d` on a JSON object. -/
def jHasKey (v : JVal) (k : String) : Bool :=
  match v with
  | .obj fields => dictHas fields k
  | _ => false

/-- An optional field check of the form `x = d.get(k); if x is not None: P x`. -/
def jOptField (d : JVal) (k : String) (p : JVal → Bool) : Bool :=
  match jGet d k with
  | some v => if jIsNull v then true else p v
  | none => true

/-- A field check skipped when the key is absent: `if k in d: P d[k]`. -/
def jKeyField (d : JVal) (k : String) (p : JVal → Bool) : Bool :=
  if jHasKey d k then p (jGetD d k .null) else true

/-- A list-of-non-empty-strings shape check. -/
def jStrListShape (v : JVal) : Bool :=
  match v with
  | .arr items => items.all jNonEmptyStr
  | _ => false

/-- A non-negative-int-valued mapping shape check (keys are strings by
construction of the JSON model and must be non-empty). -/
def jNonNegIntMapShape (v : JVal) : Bool :=
  match v with
  | .obj fields => fields.all (fun p => p.1 ≠ "" && jNonNegInt p.2)
  | _ => false

/-- engine/io/scenario_loader.py _validate_unit_shape (Bool form: the raised
ScenarioValidationError messages are dropped, acceptance is unchanged). -/
def validateUnitShape (unit : JVal) : Bool :=
  jIsObj unit &&
  ["id", "team", "hp", "position", "initiative", "attack_mod", "ac", "damage"].all
    (jHasKey unit) &&
  jNonEmptyStr (jGetD unit "id" .null) &&
  jNonEmptyStr (jGetD unit "team" .null) &&
  jPosInt (jGetD unit "hp" .null) &&
  jOptField unit "temp_hp" jNonNegInt &&
  jIntPair (jGetD unit "position" .null) &&
  jOptField unit "attack_damage_type" jNonEmptyStr &&
  jOptField unit "attack_damage_bypass" jStrListShape &&
  jOptField unit "resistances" jNonNegIntMapShape &&
  jOptField unit "weaknesses" jNonNegIntMapShape &&
  jOptField unit "immunities" jStrListShape &&
  jOptField unit "condition_immunities" jStrListShape

/-- The command types _validate_command accepts (note: "interact" is not in
the list). -/
def knownCommandTypes : List String :=
  ["move", "strike", "end_turn", "save_damage", "area_save_damage", "apply_effect",
   "trigger_hazard_source", "run_hazard_routine", "set_flag", "spawn_unit",
   "cast_spell", "use_feat", "use_item"]

/-- The save_type ∈ {Fortitude, Reflex, Will} check. -/
def validSaveType (v : JVal) : Bool :=
  let s := pyStr v
  s = "Fortitude" || s = "Reflex" || s = "Will"

/-- Shared optional-field checks of the save-like command validators. -/
def validateSaveCommandOptions (cmd : JVal) (_ctype : String) : Bool :=
  jKeyField cmd "damage_type" jNonEmptyStr &&
  jKeyField cmd "damage_bypass" jStrListShape &&
  jKeyField cmd "mode" (fun v => pyStr v = "basic")

/-- Shared optional-field checks of the effect-like command validators
(use_feat / use_item). -/
def validateEffectCommandOptions (cmd : JVal) : Bool :=
  jKeyField cmd "payload" jIsObj &&
  jKeyField cmd "duration_rounds" (fun v => jIsNull v || jNonNegInt v) &&
  jKeyField cmd "tick_timing" (fun v =>
    jIsNull v || pyStr v = "turn_start" || pyStr v = "turn_end") &&
  jKeyField cmd "action_cost" jPosInt

/-- The per-type field checks of _validate_command (the elif chain). -/
def validateCommandFields (cmd : JVal) (ctype : String) : Bool :=
  if ctype = "move" then jHasKey cmd "x" && jHasKey cmd "y"
  else if ctype = "strike" then
    (match jGet cmd "target" with
     | some (.str _) => true
     | _ => false)
  else if ctype = "save_damage" then
    ["target", "dc", "save_type", "damage"].all (jHasKey cmd) &&
    validSaveType (jGetD cmd "save_type" .null) &&
    validateSaveCommandOptions cmd ctype
  else if ctype = "cast_spell" then
    ["spell_id", "target", "dc", "save_type", "damage"].all (jHasKey cmd) &&
    jNonEmptyStr (jGetD cmd "spell_id" .null) &&
    validSaveType (jGetD cmd "save_type" .null) &&
    validateSaveCommandOptions cmd ctype &&
    jKeyField cmd "action_cost" jPosInt
  else if ctype = "area_save_damage" then
    ["center_x", "center_y", "radius_feet", "dc", "save_type", "damage"].all (jHasKey cmd) &&
    validSaveType (jGetD cmd "save_type" .null) &&
    validateSaveCommandOptions cmd ctype
  else if ctype = "apply_effect" then
    ["target", "effect_kind"].all (jHasKey cmd)
  else if ctype = "use_feat" then
    ["feat_id", "target", "effect_kind"].all (jHasKey cmd) &&
    jNonEmptyStr (jGetD cmd "feat_id" .null) &&
    validateEffectCommandOptions cmd
  else if ctype = "use_item" then
    ["item_id", "target", "effect_kind"].all (jHasKey cmd) &&
    jNonEmptyStr (jGetD cmd "item_id" .null) &&
    validateEffectCommandOptions cmd
  else if ctype = "trigger_hazard_source" then
    ["hazard_id", "source_name"].all (jHasKey cmd)
  else if ctype = "run_hazard_routine" then
    ["hazard_id", "source_name"].all (jHasKey cmd) &&
    jKeyField cmd "target_policy" (fun v =>
      let s := pyStr v
      s = "as_configured" || s = "explicit" || s = "nearest_enemy" ||
        s = "nearest_enemy_area_center" || s = "all_enemies")
  else if ctype = "set_flag" then
    jHasKey cmd "flag" && jKeyField cmd "value" jIsBool
  else true

/-- engine/io/scenario_loader.py _validate_command: returns acceptance and
the known-unit-id set after a possible spawn_unit registration. -/
def validateCommand (cmd : JVal) (known : List String) (actor_required : Bool) :
    Bool × List String :=
  if ¬ jIsObj cmd then (false, known)
  else
    let ok1 := jHasKey cmd "type"
    let ctype := pyStr (jGetD cmd "type" .null)
    let ok2 := knownCommandTypes.contains ctype
    let actorOk :=
      if actor_required then jStrInList (jGetD cmd "actor" .null) known
      else
        match jGet cmd "actor" with
        | some v => jIsNull v || jStrInList v known
        | none => true
    let targetOk :=
      match jGet cmd "target" with
      | some v => jIsNull v || jStrInList v known
      | none => true
    let fieldsOk := validateCommandFields cmd ctype
    if ctype = "spawn_unit" then
      let unit := jGetD cmd "unit" .null
      let unitOk := jIsObj unit && validateUnitShape unit
      let unit_id := pyStr (jGetD unit "id" .null)
      let freshOk := ¬ known.contains unit_id
      let policyOk :=
        jOptField cmd "placement_policy"
          (fun v => pyStr v = "exact" || pyStr v = "nearest_open")
      let spendOk := jKeyField cmd "spend_action" jIsBool
      (ok1 && ok2 && actorOk && targetOk && fieldsOk && unitOk && freshOk && policyOk && spendOk,
        known ++ [unit_id])
    else
      (ok1 && ok2 && actorOk && targetOk && fieldsOk, known)

/-- Command-list validation threading the known-id set. -/
def validateCommandList (cmds : List JVal) (known : List String) (actor_required : Bool) :
    Bool × List String :=
  cmds.foldl
    (fun (acc : Bool × List String) cmd =>
      let (ok, known') := validateCommand cmd acc.2 actor_required
      (acc.1 && ok, known'))
    (true, known)

/-- engine/io/scenario_loader.py _validate_command_block: validates against
a copy of the known-id set and returns the copy with block-local spawns. -/
def validateCommandBlock (commands : JVal) (known : List String) (actor_required : Bool) :
    Bool × List String :=
  match commands with
  | .arr cmds => validateCommandList cmds known actor_required
  | _ => (false, known)

/-- Objective entries of validate_scenario. -/
def validateObjective (known : List String) (objective : JVal) : Bool :=
  jIsObj objective &&
  jHasKey objective "id" && jHasKey objective "type" &&
  (let otype := pyStr (jGetD objective "type" .null)
   if otype = "unit_reach_tile" || otype = "unit_dead" || otype = "unit_alive" then
     jStrInList (jGetD objective "unit_id" .null) known
   else true)

/-- Objective-pack entries of validate_scenario. -/
def validateObjectivePack (known : List String) (pack : JVal) : Bool :=
  jIsObj pack &&
  jHasKey pack "type" &&
  (if pyStr (jGetD pack "type" .null) = "escape_unit" then
     jStrInList (jGetD pack "unit_id" .null) known
   else true)

/-- The enemy_policy block of validate_scenario. -/
def validateEnemyPolicy (v : JVal) : Bool :=
  match v with
  | .null => true
  | .obj _ =>
    jKeyField v "enabled" jIsBool &&
    jKeyField v "teams" jStrListShape &&
    jKeyField v "action" (fun a => pyStr a = "strike_nearest") &&
    jKeyField v "auto_end_turn" jIsBool
  | _ => false

/-- One mission_event entry of validate_scenario: acceptance plus the known
set extended by the ids any branch spawned. -/
def validateMissionEvent (mission_event : JVal) (known : List String) :
    Bool × List String :=
  if ¬ jIsObj mission_event then (false, known)
  else
    let triggerOk :=
      jOptField mission_event "trigger" (fun v =>
        let s := pyStr v
        s = "turn_start" || s = "round_start" || s = "unit_dead" || s = "unit_alive" ||
          s = "flag_set")
    let trigger_name := pyStr (jOr (jGet mission_event "trigger") (.str "turn_start"))
    let unitRefOk :=
      if trigger_name = "unit_dead" || trigger_name = "unit_alive" then
        jStrInList (jGetD mission_event "unit_id" .null) known
      else true
    let flagOk :=
      if trigger_name = "flag_set" then jNonEmptyStr (jGetD mission_event "flag" .null)
      else true
    let activeOk :=
      jOptField mission_event "active_unit" (fun v => jStrInList v known)
    let commandsVal :=
      match jGet mission_event "commands" with
      | some v => if jIsNull v then none else some v
      | none => none
    let (cmdsOk, cmdsIds, hasCmds) :=
      match commandsVal with
      | some v =>
        let (ok, ids) := validateCommandBlock v known false
        (ok, ids, true)
      | none => (true, known, false)
    let thenRaw :=
      match jGet mission_event "then_commands" with
      | some v => if jIsNull v then none else some v
      | none => none
    let elseRaw :=
      match jGet mission_event "else_commands" with
      | some v => if jIsNull v then none else some v
      | none => none
    let has_branch := thenRaw.isSome || elseRaw.isSome
    let (branchOk, thenIds, elseIds) :=
      if has_branch then
        let (okT, idsT) := validateCommandBlock (thenRaw.getD (.arr [])) known false
        let (okE, idsE) := validateCommandBlock (elseRaw.getD (.arr [])) known false
        (okT && okE, idsT, idsE)
      else (true, known, known)
    let anyBlock := hasCmds || has_branch
    let merged := known
      ++ (cmdsIds.filter (fun i => ¬ known.contains i))
      ++ (thenIds.filter (fun i => ¬ known.contains i && ¬ cmdsIds.contains i))
      ++ (elseIds.filter (fun i =>
            ¬ known.contains i && ¬ cmdsIds.contains i && ¬ thenIds.contains i))
    (triggerOk && unitRefOk && flagOk && activeOk && cmdsOk && branchOk && anyBlock, merged)

/-- One reinforcement_wave entry of validate_scenario. -/
def validateReinforcementWave (wave : JVal) (known : List String) : Bool × List String :=
  if ¬ jIsObj wave then (false, known)
  else
    let triggerOk :=
      jOptField wave "trigger" (fun v =>
        pyStr v = "turn_start" || pyStr v = "round_start")
    let policyOk :=
      jOptField wave "placement_policy" (fun v =>
        pyStr v = "exact" || pyStr v = "nearest_open")
    let activeOk :=
      jOptField wave "active_unit" (fun v => jStrInList v known)
    match jGet wave "units" with
    | some (.arr us) =>
      if us.isEmpty then (false, known)
      else
        us.foldl
          (fun (acc : Bool × List String) unit =>
            let okShape := validateUnitShape unit
            let uid := pyStr (jGetD unit "id" .null)
            let fresh := ¬ acc.2.contains uid
            (acc.1 && triggerOk && policyOk && activeOk && okShape && fresh, acc.2 ++ [uid]))
          (true, known)
    | _ => (false, known)

/-- The unit-list loop of validate_scenario: shape check, then uniqueness of
ids against the accumulating set (structural recursion computing the same
Bool value as the Python loop). -/
def validateUnitsList : List JVal → List String → Bool × List String
  | [], acc => (true, acc)
  | unit :: us, acc =>
    let okShape := validateUnitShape unit
    let uid := pyStr (jGetD unit "id" .null)
    let fresh := ¬ acc.contains uid
    let (restOk, ids) := validateUnitsList us (acc ++ [uid])
    (okShape && fresh && restOk, ids)

/-- One hazard_routine entry of validate_scenario. -/
def validateHazardRoutine (known : List String) (routine : JVal) : Bool :=
  jIsObj routine &&
  ["unit_id", "hazard_id", "source_name"].all (jHasKey routine) &&
  (match jGet routine "unit_id" with
   | some v => jStrInList v known
   | none => false) &&
  jOptField routine "cadence_rounds" jPosInt &&
  jOptField routine "max_triggers" jPosInt

/-- engine/io/scenario_loader.py validate_scenario (Bool form). -/
def validate_scenario (data : JVal) : Bool :=
  if ¬ jIsObj data then false
  else
    let topOk := ["battle_id", "seed", "map", "units", "commands"].all (jHasKey data)
    let map_data := jGetD data "map" .null
    let mapOk := jIsObj map_data &&
      jPosInt (jGetD map_data "width" .null) &&
      jPosInt (jGetD map_data "height" .null)
    let (unitsOk, unit_ids) :=
      match jGetD data "units" .null with
      | .arr us =>
        if us.isEmpty then (false, ([] : List String))
        else validateUnitsList us []
      | _ => (false, [])
    let (commandsOk, known1) :=
      match jGetD data "commands" .null with
      | .arr cmds => validateCommandList cmds unit_ids true
      | _ => (false, unit_ids)
    let flagsOk :=
      match jGetD data "flags" (.obj []) with
      | .obj fields => fields.all (fun p => jIsBool p.2)
      | _ => false
    let objectivesOk :=
      match jGetD data "objectives" (.arr []) with
      | .arr os => os.all (validateObjective known1)
      | _ => false
    let packsOk :=
      match jGetD data "objective_packs" (.arr []) with
      | .arr ps => ps.all (validateObjectivePack known1)
      | _ => false
    let enemyOk := validateEnemyPolicy (jGetD data "enemy_policy" .null)
    let (missionOk, known2) :=
      match jGetD data "mission_events" (.arr []) with
      | .arr ms =>
        ms.foldl
          (fun (acc : Bool × List String) m =>
            let (ok, known') := validateMissionEvent m acc.2
            (acc.1 && ok, known'))
          (true, known1)
      | _ => (false, known1)
    let (wavesOk, known3) :=
      match jGetD data "reinforcement_waves" (.arr []) with
      | .arr ws =>
        ws.foldl
          (fun (acc : Bool × List String) w =>
            let (ok, known') := validateReinforcementWave w acc.2
            (acc.1 && ok, known'))
          (true, known2)
      | _ => (false, known2)
    let routinesOk :=
      match jGetD data "hazard_routines" (.arr []) with
      | .arr rs => rs.all (validateHazardRoutine known3)
      | _ => false
    topOk && mapOk && unitsOk && commandsOk && flagsOk && objectivesOk && packsOk &&
      enemyOk && missionOk && wavesOk && routinesOk

/-- The blocked-tile list of battle_state_from_scenario: each cell becomes a
tuple.  Cells are required to be int pairs here (the typed map cannot hold
ragged tuples); Python additionally raises only when a cell is not iterable. -/
def blockedFromScenario (map_data : JVal) : Option (List (Int × Int)) :=
  (jItems (jGetD map_data "blocked" (.arr []))).foldr
    (fun cell acc =>
      match cell, acc with
      | .arr [.int x, .int y], some rest => some ((x, y) :: rest)
      | _, _ => none)
    (some [])

/-- int-valued map conversion {str(k).lower(): int(v) ...}; fails where
Python's int() raises. -/
def intMapFromRaw (v : JVal) : Option (List (String × Int)) :=
  match v with
  | .obj fields =>
    fields.foldr
      (fun p acc =>
        match pyInt p.2, acc with
        | some n, some rest => some ((pyLower p.1, n) :: rest)
        | _, _ => none)
      (some [])
  | _ => none

/-- One unit entry of engine/io/scenario_loader.py battle_state_from_scenario.
int(...) conversions (temp_hp, fortitude, reflex, will, resistance and
weakness values) fail exactly where Python's int() raises; fields the loader
stores or consumes without conversion (id, team, hp, position, initiative,
attack_mod, ac, damage) are required to carry their documented types because
the typed UnitState cannot hold arbitrary objects (Python would defer the
failure to build_turn_order or the first strike instead). -/
def unitFromRaw (raw : JVal) : Option UnitState := do
  let (x, y) ←
    match jGet raw "position" with
    | some (.arr [.int a, .int b]) => some (a, b)
    | _ => none
  let temp_hp ← pyInt (jGetD raw "temp_hp" (.int 0))
  let unit_id ←
    match jGet raw "id" with
    | some (.str s) => some s
    | _ => none
  let team ←
    match jGet raw "team" with
    | some (.str s) => some s
    | _ => none
  let hp ←
    match jGet raw "hp" with
    | some (.int n) => some n
    | _ => none
  let initiative ←
    match jGet raw "initiative" with
    | some (.int n) => some n
    | _ => none
  let attack_mod ←
    match jGet raw "attack_mod" with
    | some (.int n) => some n
    | _ => none
  let ac ←
    match jGet raw "ac" with
    | some (.int n) => some n
    | _ => none
  let damage ←
    match jGet raw "damage" with
    | some (.str s) => some s
    | _ => none
  let fortitude ← pyInt (jGetD raw "fortitude" (.int 0))
  let reflex ← pyInt (jGetD raw "reflex" (.int 0))
  let will ← pyInt (jGetD raw "will" (.int 0))
  let resistances ← intMapFromRaw (jGetD raw "resistances" (.obj []))
  let weaknesses ← intMapFromRaw (jGetD raw "weaknesses" (.obj []))
  some
    { unit_id := unit_id,
      team := team,
      hp := hp,
      max_hp := hp,
      x := x, y := y,
      initiative := initiative,
      attack_mod := attack_mod,
      ac := ac,
      damage := damage,
      temp_hp := temp_hp,
      temp_hp_source := if temp_hp > 0 then some "initial" else none,
      temp_hp_owner_effect_id := none,
      attack_damage_type := pyLower (pyStr (jGetD raw "attack_damage_type" (.str "physical"))),
      attack_damage_bypass :=
        (jItems (jGetD raw "attack_damage_bypass" (.arr []))).map (fun v => pyLower (pyStr v)),
      fortitude := fortitude,
      reflex := reflex,
      will := will,
      actions_remaining := 3,
      reaction_available := true,
      conditions := [],
      condition_immunities :=
        (jItems (jGetD raw "condition_immunities" (.arr []))).map
          (fun v => replaceSpaces (pyLower (pyStr v))),
      resistances := resistances,
      weaknesses := weaknesses,
      immunities :=
        (jItems (jGetD raw "immunities" (.arr []))).map (fun v => pyLower (pyStr v)) }

/-- The units-dict loop of battle_state_from_scenario (insertion order of
the scenario's units[] array). -/
def unitsFromScenario : List JVal → List (String × UnitState) →
    Option (List (String × UnitState))
  | [], units => some units
  | raw :: raws, units =>
    match unitFromRaw raw with
    | some u => unitsFromScenario raws (dictSet units u.unit_id u)
    | none => none

/-- engine/io/scenario_loader.py battle_state_from_scenario.  none models a
raised exception (int() conversions, malformed position/blocked shapes, the
empty-turn-order _require); battle_id and seed are additionally required to
carry their documented types for the typed BattleState. -/
def battle_state_from_scenario (data : JVal) : Option BattleState := do
  let map_data := jGetD data "map" .null
  let blocked ← blockedFromScenario map_data
  let width ←
    match jGet map_data "width" with
    | some (.int n) => some n
    | _ => none
  let height ←
    match jGet map_data "height" with
    | some (.int n) => some n
    | _ => none
  let battle_id ←
    match jGet data "battle_id" with
    | some (.str s) => some s
    | _ => none
  let seed ←
    match jGet data "seed" with
    | some (.int n) => some n
    | _ => none
  let units ← unitsFromScenario (jItems (jGetD data "units" (.arr []))) []
  let turn_order := build_turn_order units
  if turn_order.isEmpty then none
  else
    some
      { battle_id := battle_id,
        seed := seed,
        round_number := 1,
        turn_index := 0,
        turn_order := turn_order,
        units := units,
        battle_map := ⟨width, height, blocked⟩,
        effects := [],
        flags :=
          (match jGetD data "flags" (.obj []) with
           | .obj fields => fields.map (fun p => (p.1, jTruthy p.2))
           | _ => []),
        event_sequence := 0 }

/-- The typing obligations on unit fields that validate_scenario never
checks but battle_state_from_scenario consumes: initiative / attack_mod /
ac / damage are stored into typed state (Python would instead defer a crash
to build_turn_order or the first strike), and temp_hp / fortitude / reflex /
will / resistance / weakness values must survive int(). -/
def unitRuntimeTyped (raw : JVal) : Bool :=
  jIsInt (jGetD raw "initiative" .null) &&
  jIsInt (jGetD raw "attack_mod" .null) &&
  jIsInt (jGetD raw "ac" .null) &&
  (match jGet raw "damage" with
   | some (.str _) => true
   | _ => false) &&
  (pyInt (jGetD raw "temp_hp" (.int 0))).isSome &&
  (pyInt (jGetD raw "fortitude" (.int 0))).isSome &&
  (pyInt (jGetD raw "reflex" (.int 0))).isSome &&
  (pyInt (jGetD raw "will" (.int 0))).isSome &&
  (intMapFromRaw (jGetD raw "resistances" (.obj []))).isSome &&
  (intMapFromRaw (jGetD raw "weaknesses" (.obj []))).isSome

/-- The scenario-level typing obligations validate_scenario never checks:
battle_id a string, seed an int, blocked cells int pairs, plus
unitRuntimeTyped for every unit entry. -/
def scenarioRuntimeTyped (data : JVal) : Bool :=
  (match jGet data "battle_id" with
   | some (.str _) => true
   | _ => false) &&
  jIsInt (jGetD data "seed" .null) &&
  (blockedFromScenario (jGetD data "map" .null)).isSome &&
  (jItems (jGetD data "units" (.arr []))).all unitRuntimeTyped

/- ===== engine/cli/run_scenario.py (event-id fragment) ===== -/

/-- engine/cli/run_scenario.py _alive_teams (a Python set; first-occurrence
order stands in for the unspecified set iteration order — the driver only
takes its length and, when at most one team remains, its sole element). -/
def aliveTeams (st : BattleState) : List String :=
  setOfList ((dictValues st.units).filterMap (fun u => if u.alive then some u.team else none))

/-- engine/core/objectives.py _objective_met. -/
def objectiveMet (st : BattleState) (objective : JVal) : Bool :=
  let kind := pyStr (jGetD objective "type" (.str ""))
  if kind = "team_eliminated" then
    let team := pyStr (jGetD objective "team" (.str ""))
    team ≠ "" &&
      ¬ (dictValues st.units).any (fun u => u.alive && u.team = team)
  else if kind = "unit_reach_tile" then
    let unit_id := pyStr (jGetD objective "unit_id" (.str ""))
    match dictGet st.units unit_id with
    | none => false
    | some u =>
      u.alive && u.x = pyIntD (jGetD objective "x" (.int (-99999))) 0 &&
        u.y = pyIntD (jGetD objective "y" (.int (-99999))) 0
  else if kind = "flag_set" then
    let flag := pyStr (jGetD objective "flag" (.str ""))
    let expected := jTruthy (jGetD objective "value" (.bool true))
    flag ≠ "" && dictGetD st.flags flag false = expected
  else if kind = "round_at_least" then
    st.round_number ≥ pyIntD (jGetD objective "round" (.int 0)) 0
  else if kind = "unit_dead" then
    match dictGet st.units (pyStr (jGetD objective "unit_id" (.str ""))) with
    | none => false
    | some u => ¬ u.alive
  else if kind = "unit_alive" then
    match dictGet st.units (pyStr (jGetD objective "unit_id" (.str ""))) with
    | none => false
    | some u => u.alive
  else false

/-- engine/core/objectives.py evaluate_objectives: statuses in objective
order plus the victory/defeat aggregation. -/
def evaluate_objectives (st : BattleState) (objectives : List JVal) :
    List (String × Bool) × Bool × Bool :=
  let step := objectives.foldl
    (fun (acc : Nat × List (String × Bool) × List String × List String) objective =>
      let (idx, statuses, victory_ids, defeat_ids) := acc
      let objective_id :=
        pyStr (jOr (jGet objective "id") (.str ("objective_" ++ toString (idx + 1))))
      let met := objectiveMet st objective
      let statuses' := dictSet statuses objective_id met
      let result := pyLower (pyStr (jGetD objective "result" (.str "victory")))
      if result = "defeat" then
        (idx + 1, statuses', victory_ids, defeat_ids ++ [objective_id])
      else
        (idx + 1, statuses', victory_ids ++ [objective_id], defeat_ids))
    (0, [], [], [])
  let (_, statuses, victory_ids, defeat_ids) := step
  let victory_met :=
    ¬ victory_ids.isEmpty && victory_ids.all (fun oid => dictGetD statuses oid false)
  let defeat_met := defeat_ids.any (fun oid => dictGetD statuses oid false)
  (statuses, victory_met, defeat_met)

/-- A driver-synthesized event (raw dict, not routed through _append_event). -/
def driverEvent (event_id : String) (st : BattleState) (ty : String)
    (payload : List (String × JVal)) : EventE :=
  ⟨event_id, st.round_number, st.active_unit_id, ty, payload⟩

/-- engine/cli/run_scenario.py _check_battle_end: appends objective_update /
battle_end events whose ids come from the step counter, not from the
state's event_sequence. -/
def checkBattleEnd (events : List EventE) (st : BattleState) (objectives : List JVal)
    (objective_statuses : List (String × Bool)) (step_counter : Nat) :
    List EventE × Bool × List (String × Bool) :=
  let afterObjectives :=
    if ¬ objectives.isEmpty then
      let (statuses, victory_met, defeat_met) := evaluate_objectives st objectives
      let (events1, statuses1) :=
        if statuses ≠ objective_statuses then
          (events ++ [driverEvent ("ev_obj_" ++ padZeros 4 step_counter) st "objective_update"
            [("statuses", .obj (statuses.map (fun p => (p.1, .bool p.2)))),
             ("victory_met", .bool victory_met),
             ("defeat_met", .bool defeat_met)]], statuses)
        else (events, objective_statuses)
      if defeat_met ∨ victory_met then
        some (events1 ++ [driverEvent ("ev_done_" ++ padZeros 4 step_counter) st "battle_end"
          [("reason", .str "objectives"),
           ("outcome", .str (if defeat_met then "defeat" else "victory")),
           ("objective_statuses", .obj (statuses1.map (fun p => (p.1, .bool p.2))))]],
          true, statuses1)
      else some (events1, false, statuses1)
    else none
  match afterObjectives with
  | some r =>
    if r.2.1 then r
    else
      let (events1, _, statuses1) := r
      let alive_teams := aliveTeams st
      if alive_teams.length ≤ 1 then
        (events1 ++ [driverEvent ("ev_done_" ++ padZeros 4 step_counter) st "battle_end"
          [("winner_team", jOfOptStr alive_teams.head?)]], true, statuses1)
      else (events1, false, statuses1)
  | none =>
    let alive_teams := aliveTeams st
    if alive_teams.length ≤ 1 then
      (events ++ [driverEvent ("ev_done_" ++ padZeros 4 step_counter) st "battle_end"
        [("winner_team", jOfOptStr alive_teams.head?)]], true, objective_statuses)
    else (events, false, objective_statuses)

/-- The opening of engine/cli/run_scenario.py run_scenario_file for a
scenario with no content packs: the driver appends a literal "ev_000000"
turn_start event, then runs the initial battle-end check (step counter 0)
before entering the loop; when that check ends the battle the loop body
never runs and these are the run's only events. -/
def runScenarioPrologue (st : BattleState) (objectives : List JVal) :
    List EventE × Bool :=
  let ev0 := driverEvent "ev_000000" st "turn_start"
    [("active_unit", .str st.active_unit_id), ("round", .int st.round_number)]
  let (events, ended, _) := checkBattleEnd [ev0] st objectives [] 0
  (events, ended)

/- ===== Spec-modelled richer-reducer pieces ===== -/

/-- Modelled from the spec: normalized bypass tags of a damage source
("Bypass tags remove matching entries from the target's resistance/immunity
sets"); the bypass-aware apply_damage_modifiers overload exercised by the
repository's tests is absent from the src tree. -/
def bypassTagSet (bypass : List String) : List String :=
  bypass.filterMap (fun x => normalizedDamageType (some x))

/-- Modelled from the spec: apply_damage_modifiers with bypass (spec section
4.2 Mitigation) — the matching entries are removed from the target's
resistance and immunity sets, weaknesses are left untouched, then the
highest-matching mitigation of engine/rules/damage.py runs on what remains.
The bypass-accepting source function is missing from src; only its tests and
callers are present. -/
def apply_damage_modifiers_bypass (raw_total : Int) (damage_type : Option String)
    (resistances weaknesses : List (String × Int)) (immunities : List String)
    (bypass : List String) : DamageAdjustment :=
  let tags := bypassTagSet bypass
  let resistances' := resistances.filter
    (fun kv => ¬ tags.contains ((normalizedDamageType (some kv.1)).getD ""))
  let immunities' := immunities.filter
    (fun x => ¬ tags.contains ((normalizedDamageType (some x)).getD ""))
  apply_damage_modifiers raw_total damage_type resistances' weaknesses immunities'

/-- Modelled from the spec: the cast_spell branch of the authoritative
sibling reducer (spec sections 3 and 6; the richer reducer file is absent
from src).  A materialized cast_spell behaves as a single-target basic
save-damage spell: spell_id and action_cost annotate the event, the damage
is mitigated with the command's damage_bypass tags, and the actor pays
action_cost actions. -/
def applyCastSpell (st : BattleState) (cmd : JVal) (rng : DeterministicRNG)
    (actor_id : String) : Except RunError (BattleState × List EventE × DeterministicRNG) := do
  let actor := st.unitGet actor_id
  if actor.actions_remaining ≤ 0 then .error (.reduction "actor has no actions remaining")
  else
    let target_id := pyStr (jGetD cmd "target" .null)
    match dictGet st.units target_id with
    | none => .error (.reduction ("unknown target " ++ target_id))
    | some target =>
      if ¬ target.alive then .error (.reduction ("target " ++ target_id ++ " is not alive"))
      else
        let spell_id := pyStr (jOr (jGet cmd "spell_id") (.str ""))
        let action_cost := pyIntD (jGetD cmd "action_cost" (.int 1)) 1
        let dc := pyIntD (jGetD cmd "dc" .null) 0
        let save_type := pyStr (jGetD cmd "save_type" .null)
        let damage_formula := pyStr (jGetD cmd "damage" .null)
        let damage_type := damageTypeOfField cmd "damage_type"
        let bypass := (jItems (jGetD cmd "damage_bypass" (.arr []))).map
          (fun v => pyLower (pyStr v))
        let mode := pyStr (jGetD cmd "mode" (.str "basic"))
        if mode ≠ "basic" then
          .error (.reduction ("unsupported cast_spell mode: " ++ mode))
        else do
          let (save, rng1) := resolve_save rng save_type (unitSaveProfile st target_id) dc
          let multiplier := basic_save_multiplier save.degree
          let (damage_roll, rng2) ← roll_damage rng1 damage_formula
          let raw_total := pyIntOfRat (damage_roll.total * multiplier)
          let adjustment := apply_damage_modifiers_bypass raw_total damage_type
            target.resistances target.weaknesses target.immunities bypass
          let damage_total := adjustment.applied_total
          let applied_damage := apply_damage_to_pool target.hp target.temp_hp damage_total
          let st1 := applyPoolToUnit st target_id applied_damage
          let st2 :=
            if (st1.unitGet target_id).hp = 0 then
              st1.updateUnit target_id (fun u =>
                { u with conditions := apply_condition u.conditions "unconscious" 1 })
            else st1
          let damage_payload : List (String × JVal) :=
            [("formula", .str damage_formula),
             ("damage_type", jOfOptStr damage_type),
             ("bypass", .arr (bypass.map (.str ·))),
             ("rolled_total", .int damage_roll.total),
             ("rolls", .arr (damage_roll.rolls.map (.int ·))),
             ("flat_modifier", .int damage_roll.flat_modifier),
             ("multiplier", .float multiplier),
             ("raw_total", .int adjustment.raw_total),
             ("immune", .bool adjustment.immune),
             ("resistance_total", .int adjustment.resistance_total),
             ("weakness_total", .int adjustment.weakness_total),
             ("applied_total", .int damage_total)]
          let st3 := st2.updateUnit actor_id (fun u =>
            { u with actions_remaining := u.actions_remaining - action_cost })
          let (ev, st4) := mkEvent st3 "cast_spell"
            [("actor", .str actor_id), ("target", .str target_id),
             ("spell_id", .str spell_id), ("action_cost", .int action_cost),
             ("save_type", .str save_type), ("mode", .str mode),
             ("roll", .obj
               [("die", .int save.die), ("modifier", .int save.modifier),
                ("total", .int save.total), ("dc", .int save.dc),
                ("degree", .str (degreeStr save.degree))]),
             ("damage", .obj damage_payload),
             ("target_hp", .int ((st3.unitGet target_id).hp)),
             ("actions_remaining", .int ((st3.unitGet actor_id).actions_remaining))]
          .ok (st4, [ev], rng2)

/-- Modelled from the spec: the shared body of the use_feat / use_item
branches of the authoritative sibling reducer (absent from src): an
apply_effect-shaped command with an id field and an action_cost. -/
def applyUseTemplate (st : BattleState) (cmd : JVal) (rng : DeterministicRNG)
    (actor_id : String) (event_type id_key : String) :
    Except RunError (BattleState × List EventE × DeterministicRNG) := do
  let actor := st.unitGet actor_id
  if actor.actions_remaining ≤ 0 then .error (.reduction "actor has no actions remaining")
  else
    let target_id := pyStr (jGetD cmd "target" .null)
    match dictGet st.units target_id with
    | none => .error (.reduction ("unknown target " ++ target_id))
    | some target =>
      if ¬ target.alive then .error (.reduction ("target " ++ target_id ++ " is not alive"))
      else do
        let template_id := pyStr (jOr (jGet cmd id_key) (.str ""))
        let action_cost := pyIntD (jGetD cmd "action_cost" (.int 1)) 1
        let eid := newEffectId st
        let duration_rounds : Option Int :=
          match jGet cmd "duration_rounds" with
          | some (.int n) => some n
          | _ => none
        let tick_timing : Option String :=
          match jGet cmd "tick_timing" with
          | some (.str s) => some s
          | _ => none
        let effect : EffectState :=
          ⟨eid, pyStr (jGetD cmd "effect_kind" .null), some actor_id, some target_id,
            (match jGetD cmd "payload" (.obj []) with
             | .obj fields => fields
             | _ => []),
            duration_rounds, tick_timing⟩
        let st1 := { st with effects := dictSet st.effects eid effect }
        let st2 := st1.updateUnit actor_id (fun u =>
          { u with actions_remaining := u.actions_remaining - action_cost })
        let (ev, st3) := mkEvent st2 event_type
          [("actor", .str actor_id), ("target", .str target_id),
           (id_key, .str template_id), ("action_cost", .int action_cost),
           ("effect_id", .str eid), ("kind", .str effect.kind),
           ("duration_rounds", jOfOptInt duration_rounds),
           ("tick_timing", jOfOptStr tick_timing),
           ("actions_remaining", .int ((st2.unitGet actor_id).actions_remaining))]
        let (lifecycle_events, st4, rng1) ← on_apply st3 eid rng
        let (lifecycleE, st5) := emitLifecycleEvents st4 lifecycle_events
        .ok (st5, [ev] ++ lifecycleE, rng1)

/-- Modelled from the spec: the interact branch of the authoritative sibling
reducer (absent from src): an interaction may set a flag and/or apply an
effect to a target, pays action_cost actions, and reports any flag update in
its event. -/
def applyInteract (st : BattleState) (cmd : JVal) (rng : DeterministicRNG)
    (actor_id : String) : Except RunError (BattleState × List EventE × DeterministicRNG) := do
  let actor := st.unitGet actor_id
  if actor.actions_remaining ≤ 0 then .error (.reduction "actor has no actions remaining")
  else
    let interact_id := pyStr (jOr (jGet cmd "interact_id") (.str ""))
    let action_cost := pyIntD (jGetD cmd "action_cost" (.int 1)) 1
    let flagOpt : Option (String × Bool) :=
      match jGet cmd "flag" with
      | some (.str f) => some (f, jTruthy (jGetD cmd "value" (.bool true)))
      | _ => none
    let st1 :=
      match flagOpt with
      | some (f, v) => { st with flags := dictSet st.flags f v }
      | none => st
    let effect_kind : Option String :=
      match jGet cmd "effect_kind" with
      | some (.str s) => some s
      | _ => none
    let target_id := pyStr (jGetD cmd "target" .null)
    let (effectIds, st2) ←
      match effect_kind with
      | some kind =>
        (match dictGet st1.units target_id with
         | none => .error (RunError.reduction ("unknown target " ++ target_id))
         | some target =>
           if ¬ target.alive then
             .error (RunError.reduction ("target " ++ target_id ++ " is not alive"))
           else
             let eid := newEffectId st1
             let duration_rounds : Option Int :=
               match jGet cmd "duration_rounds" with
               | some (.int n) => some n
               | _ => none
             let tick_timing : Option String :=
               match jGet cmd "tick_timing" with
               | some (.str s) => some s
               | _ => none
             let effect : EffectState :=
               ⟨eid, kind, some actor_id, some target_id,
                 (match jGetD cmd "payload" (.obj []) with
                  | .obj fields => fields
                  | _ => []),
                 duration_rounds, tick_timing⟩
             .ok (some eid, { st1 with effects := dictSet st1.effects eid effect }))
      | none => .ok ((none : Option String), st1)
    let st3 := st2.updateUnit actor_id (fun u =>
      { u with actions_remaining := u.actions_remaining - action_cost })
    let (ev, st4) := mkEvent st3 "interact"
      [("actor", .str actor_id), ("interact_id", .str interact_id),
       ("action_cost", .int action_cost),
       ("flag_update",
         match flagOpt with
         | some (f, v) => .obj [("flag", .str f), ("value", .bool v)]
         | none => .null),
       ("effect_id", jOfOptStr effectIds),
       ("actions_remaining", .int ((st3.unitGet actor_id).actions_remaining))]
    let (lifecycle_events, st5, rng1) ←
      match effectIds with
      | some eid => on_apply st4 eid rng
      | none => .ok ([], st4, rng)
    let (lifecycleE, st6) := emitLifecycleEvents st5 lifecycle_events
    .ok (st6, [ev] ++ lifecycleE, rng1)

/-- Modelled from the spec: apply_command of the authoritative sibling
reducer (spec section 9 design note b names it the richer command set).
Dispatch covers every variant of the command union: the four template
variants go to the modelled branches above, everything else to the src
reducer's dispatch. -/
def apply_command_full (ctx : ExternalCtx) (st : BattleState) (cmd : JVal)
    (rng : DeterministicRNG) :
    Except RunError (BattleState × List EventE × DeterministicRNG) :=
  let command_type := pyStr (jGetD cmd "type" .null)
  let actor_id := pyStr (jGetD cmd "actor" .null)
  if command_type = "cast_spell" ∨ command_type = "use_feat" ∨ command_type = "use_item" ∨
      command_type = "interact" then
    if st.active_unit_id ≠ actor_id then
      .error (.reduction
        ("actor " ++ actor_id ++ " is not active unit " ++ st.active_unit_id))
    else if ¬ (st.unitGet actor_id).alive then
      .error (.reduction ("actor " ++ actor_id ++ " is not alive"))
    else if command_type = "cast_spell" then applyCastSpell st cmd rng actor_id
    else if command_type = "use_feat" then applyUseTemplate st cmd rng actor_id "use_feat" "feat_id"
    else if command_type = "use_item" then applyUseTemplate st cmd rng actor_id "use_item" "item_id"
    else applyInteract st cmd rng actor_id
  else apply_command ctx st cmd rng

/- ===== Concrete fixtures for the claim theorems ===== -/

/-- An external context with an empty hazard catalog (none of the fixture
commands consults it). -/
def fixtureCtx : ExternalCtx :=
  ⟨fun _ _ _ _ => none, fun _ _ _ _ _ => [], fun _ => []⟩

/-- A deterministic draw stream that always yields its low bound. -/
def fixtureRng : DeterministicRNG :=
  ⟨fun _ => 0, 0⟩

def soloUnit : UnitState :=
  { unit_id := "u1", team := "pc", hp := 10, max_hp := 10, x := 1, y := 1,
    initiative := 10, attack_mod := 5, ac := 15, damage := "1d4" }

def soloState : BattleState :=
  { battle_id := "b", seed := 1, round_number := 1, turn_index := 0,
    turn_order := ["u1"], units := [("u1", soloUnit)], battle_map := ⟨8, 8, []⟩ }

/-- An apply_effect command by u1 on itself, optionally with a one-round
turn_end duration. -/
def c5EffectCmd (dur : Option Int) : JVal :=
  .obj ([("type", .str "apply_effect"), ("actor", .str "u1"), ("target", .str "u1"),
    ("effect_kind", .str "marker")] ++
    (match dur with
     | some d => [("duration_rounds", JVal.int d), ("tick_timing", JVal.str "turn_end")]
     | none => []))

def c5EndTurnCmd : JVal :=
  .obj [("type", .str "end_turn"), ("actor", .str "u1")]

/-- apply_effect (1-round duration), apply_effect (no duration), end_turn:
the first effect expires at u1's turn end and is removed from the map. -/
def c5Chain : Except RunError BattleState := do
  let (stA, _, rngA) ← apply_command fixtureCtx soloState (c5EffectCmd (some 1)) fixtureRng
  let (stB, _, rngB) ← apply_command fixtureCtx stA (c5EffectCmd none) rngA
  let (stC, _, _) ← apply_command fixtureCtx stB c5EndTurnCmd rngB
  .ok stC

/-- A spawn_unit command whose unit payload carries hp 10 and max_hp 5. -/
def c7SpawnCmd : JVal :=
  .obj [("type", .str "spawn_unit"), ("actor", .str "u1"),
    ("unit", .obj [("id", .str "z"), ("team", .str "enemy"), ("hp", .int 10),
      ("max_hp", .int 5), ("position", .arr [.int 3, .int 3]),
      ("initiative", .int 1), ("attack_mod", .int 0), ("ac", .int 10),
      ("damage", .str "1d4")])]

/-- A well-formed single-unit scenario document (one team, no objectives). -/
def c3Scenario : JVal :=
  .obj [("battle_id", .str "b"), ("seed", .int 3),
    ("map", .obj [("width", .int 8), ("height", .int 8)]),
    ("units", .arr [.obj [("id", .str "u1"), ("team", .str "pc"), ("hp", .int 10),
      ("position", .arr [.int 1, .int 1]), ("initiative", .int 5),
      ("attack_mod", .int 4), ("ac", .int 14), ("damage", .str "1d6")]]),
    ("commands", .arr [])]

def c8Mia : UnitState :=
  { unit_id := "mia", team := "pc", hp := 10, max_hp := 10, x := 6, y := 6,
    initiative := 10, attack_mod := 5, ac := 15, damage := "1d4" }

def c8Zed : UnitState :=
  { unit_id := "zed", team := "enemy", hp := 20, max_hp := 20, x := 2, y := 2,
    initiative := 8, attack_mod := 3, ac := 14, damage := "1d4" }

def c8Abe : UnitState :=
  { unit_id := "abe", team := "enemy", hp := 20, max_hp := 20, x := 3, y := 2,
    initiative := 6, attack_mod := 3, ac := 14, damage := "1d4" }

/-- Units inserted in the order mia, zed, abe — "zed" before "abe", the
opposite of unit_id-ascending order. -/
def c8State : BattleState :=
  { battle_id := "b", seed := 1, round_number := 1, turn_index := 0,
    turn_order := ["mia", "zed", "abe"],
    units := [("mia", c8Mia), ("zed", c8Zed), ("abe", c8Abe)],
    battle_map := ⟨8, 8, []⟩ }

/-- A basic area_save_damage covering zed and abe (flat damage, no dice). -/
def c8AreaCmd : JVal :=
  .obj [("type", .str "area_save_damage"), ("actor", .str "mia"),
    ("center_x", .int 2), ("center_y", .int 2), ("radius_feet", .int 10),
    ("dc", .int 15), ("save_type", .str "Reflex"), ("damage", .str "4")]

/-- The targets list recorded in an event payload. -/
def eventTargets (ev : EventE) : List String :=
  match dictGet ev.payload "targets" with
  | some (.arr l) => l.map pyStr
  | _ => []

/- Reference definitions written from the claim text (mitigation). -/

/-- A modifier key matches when its normalized form is "all" or one of the
derived damage tags. -/
def tagMatches (damage_tags : List String) (key : String) : Bool :=
  match normalizedDamageType (some key) with
  | some k => k = "all" || damage_tags.contains k
  | none => false

/-- The highest matching modifier as the claim words it: the largest value
among entries whose key matches, never negative. -/
def specHighestMatching (modifiers : List (String × Int)) (damage_tags : List String) : Int :=
  max 0
    (((modifiers.filter (fun kv => tagMatches damage_tags kv.1)).map
      (fun kv => kv.2)).foldl max 0)

/-- The mitigation reference definition from the claim: raw 0 applies 0;
a derived tag in the immunity set (or "all") applies 0 immune; otherwise
max(0, raw − highest matching resistance + highest matching weakness). -/
def mitigationReference (raw_total : Int) (damage_type : Option String)
    (resistances weaknesses : List (String × Int)) (immunities : List String) :
    Int × Bool :=
  let raw := max 0 raw_total
  let tags := damageTypeTags (normalizedDamageType damage_type)
  let immunity_set := immunities.map (fun x => (normalizedDamageType (some x)).getD "")
  if raw = 0 then (0, false)
  else if immunity_set.contains "all" ∨ tags.any (immunity_set.contains ·) then
    (0, true)
  else
    (max 0 (raw - specHighestMatching resistances tags + specHighestMatching weaknesses tags),
      false)

/- C10 fixtures: a poison-immune target, an affliction stage damage entry
and a persistent_damage effect with the same formula and type. -/

def c10Target : UnitState :=
  { unit_id := "t", team := "enemy", hp := 40, max_hp := 40, x := 2, y := 1,
    initiative := 1, attack_mod := 0, ac := 10, damage := "1d4",
    immunities := ["poison"] }

def c10State : BattleState :=
  { battle_id := "b", seed := 1, round_number := 1, turn_index := 0,
    turn_order := ["t"], units := [("t", c10Target)], battle_map := ⟨8, 8, []⟩ }

/-- A stage damage entry: flat 10 poison. -/
def c10DmgEvent : JVal :=
  .obj [("formula", .str "10"), ("damage_type", .str "poison")]

/-- A persistent_damage effect on the same target with the same flat 10
poison formula. -/
def c10PersistEffect : EffectState :=
  ⟨"eff_0001", "persistent_damage", none, some "t",
    [("formula", .str "10"), ("damage_type", .str "poison"),
     ("recovery_check", .bool false)], some 3, some "turn_start"⟩

def c10PersistState : BattleState :=
  { c10State with effects := [("eff_0001", c10PersistEffect)] }

/-- An affliction effect on the same target whose stage 1 deals the same
flat 10 poison. -/
def c10AfflictionEffect : EffectState :=
  ⟨"eff_0002", "affliction", none, some "t",
    [("stages", .arr [ .obj [("stage", .int 1),
        ("damage", .arr [c10DmgEvent]),
        ("duration", .obj [("amount", .int 1), ("unit", .str "round")])] ])],
    some 3, some "turn_end"⟩

def c10AfflState : BattleState :=
  { c10State with effects := [("eff_0002", c10AfflictionEffect)] }

/-- Overwrite a unit's mitigation tables (its resistances, weaknesses and
immunities), leaving every other field unchanged. -/
def setMitigations (res wk : List (String × Int)) (imm : List String)
    (u : UnitState) : UnitState :=
  { u with resistances := res, weaknesses := wk, immunities := imm }

/- C2 fixtures: command builders with variable fields, plus concrete
instances for the witness. -/

/-- A materialized cast_spell command (content_entry_id already expanded). -/
def castSpellCmdOf (actor target spell_id save_type formula : String) (dc cost : Int) :
    JVal :=
  .obj [("type", .str "cast_spell"), ("actor", .str actor), ("target", .str target),
    ("spell_id", .str spell_id), ("dc", .int dc), ("save_type", .str save_type),
    ("damage", .str formula), ("action_cost", .int cost)]

/-- A materialized use_feat command carrying an apply_effect-shaped body. -/
def useFeatCmdOf (actor target feat_id kind : String) (cost : Int) : JVal :=
  .obj [("type", .str "use_feat"), ("actor", .str actor), ("target", .str target),
    ("feat_id", .str feat_id), ("effect_kind", .str kind), ("action_cost", .int cost)]

/-- A materialized use_item command carrying an apply_effect-shaped body. -/
def useItemCmdOf (actor target item_id kind : String) (cost : Int) : JVal :=
  .obj [("type", .str "use_item"), ("actor", .str actor), ("target", .str target),
    ("item_id", .str item_id), ("effect_kind", .str kind), ("action_cost", .int cost)]

/-- A materialized interact command that sets a flag. -/
def interactCmdOf (actor interact_id flag : String) (value : Bool) (cost : Int) : JVal :=
  .obj [("type", .str "interact"), ("actor", .str actor),
    ("interact_id", .str interact_id), ("flag", .str flag), ("value", .bool value),
    ("action_cost", .int cost)]

/- C1 fixtures. -/

/-- A unit whose optional fortitude field is a non-numeric string: accepted
by validate_scenario (which never type-checks fortitude), fatal to
battle_state_from_scenario's int() conversion. -/
def c1BadUnit : JVal :=
  .obj [("id", .str "u1"), ("team", .str "pc"), ("hp", .int 10),
    ("position", .arr [.int 1, .int 1]), ("initiative", .int 5),
    ("attack_mod", .int 4), ("ac", .int 14), ("damage", .str "1d6"),
    ("fortitude", .str "high")]

def c1BadScenario : JVal :=
  .obj [("battle_id", .str "b"), ("seed", .int 3),
    ("map", .obj [("width", .int 8), ("height", .int 8)]),
    ("units", .arr [c1BadUnit]), ("commands", .arr [])]

/-- A scenario whose two units carry every optional field with its
documented type, including attack_damage_bypass. -/
def c1GoodScenario : JVal :=
  .obj [("battle_id", .str "b"), ("seed", .int 3),
    ("map", .obj [("width", .int 8), ("height", .int 8),
      ("blocked", .arr [.arr [.int 4, .int 4]])]),
    ("units", .arr
      [.obj [("id", .str "u1"), ("team", .str "pc"), ("hp", .int 10),
        ("position", .arr [.int 1, .int 1]), ("initiative", .int 5),
        ("attack_mod", .int 4), ("ac", .int 14), ("damage", .str "1d6"),
        ("temp_hp", .int 2), ("attack_damage_type", .str "Slashing"),
        ("attack_damage_bypass", .arr [.str "fire"]),
        ("fortitude", .int 3), ("reflex", .int 2), ("will", .int 1),
        ("condition_immunities", .arr [.str "Frightened"]),
        ("resistances", .obj [("fire", .int 5)]),
        ("weaknesses", .obj [("cold", .int 3)]),
        ("immunities", .arr [.str "poison"])],
       .obj [("id", .str "u2"), ("team", .str "enemy"), ("hp", .int 8),
        ("position", .arr [.int 2, .int 2]), ("initiative", .int 7),
        ("attack_mod", .int 3), ("ac", .int 12), ("damage", .str "4")]]),
    ("commands", .arr [])]

/- ===== Claim theorems ===== -/

/-- C4 counterexample: with old_hp = 1, old_temp_hp = 0 and incoming = 5
(incoming exceeding old_temp_hp + old_hp), apply_damage_to_pool clamps
new_hp at 0, so new_hp = old_hp − hp_loss fails (0 ≠ 1 − 5). -/
theorem c4_pool_overkill_counterexample :
    (apply_damage_to_pool 1 0 5).new_hp ≠ 1 - (apply_damage_to_pool 1 0 5).hp_loss := by
  decide

/-- C4 (amended): for all non-negative old_hp, old_temp_hp and incoming,
apply_damage_to_pool satisfies incoming = absorbed_by_temp_hp + hp_loss,
new_temp_hp = old_temp_hp − absorbed, and new_hp = max(0, old_hp − hp_loss)
— the hp equation holds with clamping at zero, not exactly. -/
theorem c4_pool_accounting (hp temp_hp dmg : Int) (hhp : 0 ≤ hp)
    (htemp : 0 ≤ temp_hp) (hdmg : 0 ≤ dmg) :
    (apply_damage_to_pool hp temp_hp dmg).incoming_total =
        (apply_damage_to_pool hp temp_hp dmg).absorbed_by_temp_hp +
          (apply_damage_to_pool hp temp_hp dmg).hp_loss ∧
      (apply_damage_to_pool hp temp_hp dmg).new_hp =
        max 0 (hp - (apply_damage_to_pool hp temp_hp dmg).hp_loss) ∧
      (apply_damage_to_pool hp temp_hp dmg).new_temp_hp =
        temp_hp - (apply_damage_to_pool hp temp_hp dmg).absorbed_by_temp_hp := by
  simp only [apply_damage_to_pool]
  omega

/-- C4 witness: the accounting equations at hp 20, temp_hp 5, incoming 9. -/
theorem c4_pool_accounting_witness :
    (apply_damage_to_pool 20 5 9).new_hp =
      max 0 (20 - (apply_damage_to_pool 20 5 9).hp_loss) :=
  (c4_pool_accounting 20 5 9 (by decide) (by decide) (by decide)).2.1

/-- C5: evaluating the reducer on apply_effect, apply_effect, end_turn from
a fresh battle: after the first effect (eff_0001) expires at turn end and is
removed, the live effects map still holds eff_0002, yet _new_effect_id (the
effects-map size plus one) returns "eff_0002" again — the next allocation
reuses the id of a previously allocated, still-live effect (and the insert
would overwrite it). -/
theorem c5_effect_id_reuse_eval :
    (c5Chain.toOption.map (fun st => (dictKeys st.effects, newEffectId st))) =
      some (["eff_0002"], "eff_0002") := by
  decide

/-- C7: evaluating spawn_unit with a unit payload carrying hp 10 and
max_hp 5: the reducer accepts it and creates a unit with hp 10 > max_hp 5,
violating 0 ≤ hp ≤ max_hp. -/
theorem c7_spawn_exceeds_max_hp_eval :
    ((apply_command fixtureCtx soloState c7SpawnCmd fixtureRng).toOption.map
        (fun r => ((r.1.unitGet "z").hp, (r.1.unitGet "z").max_hp))) = some (10, 5) ∧
      ¬ ((10 : Int) ≤ 5) := by
  decide

/-- C3 counterexample: loading a well-formed single-team scenario and
running the driver's opening (literal "ev_000000" turn_start, then the
initial battle-end check): the run's full event log is
["ev_000000", "ev_done_0000"] — the second event id is driver-synthesized
from the step counter, not "ev_000001", so the log is not the contiguous
sequence ev_000000, ev_000001, .... -/
theorem c3_driver_ids_counterexample :
    ((battle_state_from_scenario c3Scenario).map
        (fun st => (runScenarioPrologue st []).1.map (fun e => e.event_id))) =
      some ["ev_000000", "ev_done_0000"] ∧
      ("ev_done_0000" : String) ≠ "ev_000001" := by
  decide

/-- C3 (amended): events routed through _append_event are contiguous — for
any state and lifecycle-event list, the emitted event ids are exactly
eventIdOf (seq+1), eventIdOf (seq+2), ... and the state counter advances by
exactly one per emitted event. -/
theorem c3_reducer_counter_contiguity (st : BattleState) (l : List LifeEvent) :
    (emitLifecycleEvents st l).1.map (fun e => e.event_id) =
        (List.range l.length).map (fun i => eventIdOf (st.event_sequence + 1 + i)) ∧
      (emitLifecycleEvents st l).2.event_sequence = st.event_sequence + l.length := by
  induction l generalizing st with
  | nil => simp [emitLifecycleEvents]
  | cons x rest ih =>
    obtain ⟨ty, payload⟩ := x
    have h := ih { st with event_sequence := st.event_sequence + 1 }
    simp only [emitLifecycleEvents, mkEvent, List.map_cons, List.length_cons] at h ⊢
    refine ⟨?_, ?_⟩
    · rw [List.range_succ_eq_map]
      simp only [List.map_cons, List.map_map, Nat.add_zero]
      refine congrArg₂ _ rfl ?_
      rw [h.1]
      apply List.map_congr_left
      intro i _
      simp [Function.comp]
      ring_nf
    · rw [h.2]
      omega

/-- C8 counterexample: with units inserted in the order mia, zed, abe, the
alive-unit enumeration, the radius enumeration used by area_save_damage and
the targets recorded by the area_save_damage event all list "zed" before
"abe" — the units-map insertion order, not unit_id-ascending order. -/
theorem c8_enumeration_counterexample :
    aliveUnitIds c8State = ["mia", "zed", "abe"] ∧
      unitsWithinRadiusFeet c8State 2 2 10 (some "mia") = ["zed", "abe"] ∧
      ((apply_command fixtureCtx c8State c8AreaCmd fixtureRng).toOption.map
          (fun r => r.2.1.map eventTargets)) = some [["zed", "abe"]] ∧
      sortedStrings ["zed", "abe"] ≠ ["zed", "abe"] := by
  decide

/-- A guarded max-fold equals a max-fold over the filtered, projected list
(shared helper lemma). -/
theorem foldl_if_filter {α : Type} (p : α → Bool) (v : α → Int) (l : List α) (a : Int) :
    l.foldl (fun best x => if p x then max best (v x) else best) a =
      ((l.filter p).map v).foldl max a := by
  induction l generalizing a with
  | nil => rfl
  | cons x xs ih =>
    by_cases h : p x
    · simp [h, ih]
    · simp [h, ih]

/-- highestMatchingModifier agrees with the claim-worded reference. -/
theorem highestMatching_eq_spec (m : List (String × Int)) (tags : List String) :
    highestMatchingModifier m tags = specHighestMatching m tags := by
  unfold highestMatchingModifier specHighestMatching
  have hstep :
      (fun (best : Int) (kv : String × Int) =>
        match normalizedDamageType (some kv.1) with
        | some k => if k = "all" ∨ tags.contains k then max best kv.2 else best
        | none => best) =
      (fun (best : Int) (kv : String × Int) =>
        if tagMatches tags kv.1 then max best kv.2 else best) := by
    funext best kv
    cases h : normalizedDamageType (some kv.1) with
    | none => simp [tagMatches, h]
    | some k =>
      by_cases hk : k = "all" ∨ tags.contains k <;> simp [tagMatches, h, hk]
  rw [hstep, foldl_if_filter]

/-- C9: apply_damage_modifiers matches the mitigation reference definition
on every input — raw 0 applies 0, a derived-tag immunity (or "all") applies
0 with immune, otherwise max(0, raw − highest matching resistance + highest
matching weakness) — and on the S2 instance (flat 10 slashing against
resistances physical 4 / slashing 2 / all 1) it reports resistance_total 4
and applied_total 6. -/
theorem c9_mitigation_matches_reference :
    (∀ (raw : Int) (ty : Option String) (res weak : List (String × Int))
        (imm : List String),
        ((apply_damage_modifiers raw ty res weak imm).applied_total,
            (apply_damage_modifiers raw ty res weak imm).immune) =
          mitigationReference raw ty res weak imm) ∧
      (apply_damage_modifiers 10 (some "slashing")
          [("physical", 4), ("slashing", 2), ("all", 1)] [] []).resistance_total = 4 ∧
      (apply_damage_modifiers 10 (some "slashing")
          [("physical", 4), ("slashing", 2), ("all", 1)] [] []).applied_total = 6 := by
  refine ⟨?_, by decide, by decide⟩
  intro raw ty res weak imm
  simp only [apply_damage_modifiers, mitigationReference, highestMatching_eq_spec]
  split_ifs <;> rfl

/-- C6: the bypass-aware mitigation removes matching entries from the
target's resistance and immunity sets (never from weaknesses) before the
highest-matching mitigation runs: it equals plain apply_damage_modifiers on
the filtered sets; an empty bypass changes nothing; and on the test-pinned
instances, bypass ["fire"] neutralizes a fire resistance 5 (applied 12,
resistance_total 0) and a fire immunity (immune false, applied 12) while a
fire weakness still applies (weakness_total 3). -/
theorem c6_bypass_filters_resistance_and_immunity :
    (∀ (raw : Int) (ty : Option String) (res weak : List (String × Int))
        (imm byp : List String),
        apply_damage_modifiers_bypass raw ty res weak imm byp =
          apply_damage_modifiers raw ty
            (res.filter (fun kv =>
              ¬ (bypassTagSet byp).contains ((normalizedDamageType (some kv.1)).getD "")))
            weak
            (imm.filter (fun x =>
              ¬ (bypassTagSet byp).contains ((normalizedDamageType (some x)).getD "")))) ∧
      (∀ (raw : Int) (ty : Option String) (res weak : List (String × Int))
        (imm : List String),
        apply_damage_modifiers_bypass raw ty res weak imm [] =
          apply_damage_modifiers raw ty res weak imm) ∧
      (apply_damage_modifiers_bypass 12 (some "fire") [("fire", 5)] [] []
        ["fire"]).applied_total = 12 ∧
      (apply_damage_modifiers_bypass 12 (some "fire") [("fire", 5)] [] []
        ["fire"]).resistance_total = 0 ∧
      (apply_damage_modifiers_bypass 12 (some "fire") [] [] ["fire"]
        ["fire"]).immune = false ∧
      (apply_damage_modifiers_bypass 12 (some "fire") [] [] ["fire"]
        ["fire"]).applied_total = 12 ∧
      (apply_damage_modifiers_bypass 12 (some "fire") [("fire", 5)] [("fire", 3)] []
        ["fire"]).weakness_total = 3 := by
  refine ⟨fun raw ty res weak imm byp => rfl, ?_,
    by decide, by decide, by decide, by decide, by decide⟩
  intro raw ty res weak imm
  simp [apply_damage_modifiers_bypass, bypassTagSet]

/-- Enumerations that emit unit ids while walking the units dict are
sublists of the key list (insertion order) whenever the map is well-keyed
(shared helper lemma). -/
theorem filterMap_ids_sublist (l : List (String × UnitState))
    (hwf : ∀ p ∈ l, (p.2 : UnitState).unit_id = p.1)
    (f : UnitState → Option String)
    (hf : ∀ u s, f u = some s → s = u.unit_id) :
    ((l.map (fun p => p.2)).filterMap f).Sublist (l.map (fun p => p.1)) := by
  induction l with
  | nil => simp
  | cons p rest ih =>
    have hw : (p.2 : UnitState).unit_id = p.1 := hwf p (by simp)
    have ihr := ih (fun q hq => hwf q (List.mem_cons_of_mem p hq))
    simp only [List.map_cons, List.filterMap_cons]
    cases hfx : f p.2 with
    | none => exact ihr.cons p.1
    | some s =>
      have hs : s = p.1 := by rw [hf p.2 s hfx, hw]
      rw [hs]
      exact ihr.cons₂ p.1

/-- C8 (amended): the otherwise-unordered target enumerations — alive-unit
enumeration, the radius enumeration used by area_save_damage, the cone
enumeration, and modeled-effect target selection without an explicit target
— follow the insertion order of the units map (each result is a sublist of
the units-dict key sequence), not unit_id-ascending order. -/
theorem c8_enumerations_follow_insertion_order (st : BattleState)
    (hwf : ∀ p ∈ st.units, (p.2 : UnitState).unit_id = p.1)
    (cx cy rf : Int) (excl : Option String) (ctx : ExternalCtx)
    (aid : String) (fx fy sf : Int) (effects : List JVal) (ocx ocy : Option Int) :
    (aliveUnitIds st).Sublist (dictKeys st.units) ∧
      (unitsWithinRadiusFeet st cx cy rf excl).Sublist (dictKeys st.units) ∧
      (unitsInConeFeet ctx st aid fx fy sf).Sublist (dictKeys st.units) ∧
      (chooseModelTargets ctx st aid effects none ocx ocy).Sublist (dictKeys st.units) := by
  have halive : (aliveUnitIds st).Sublist (dictKeys st.units) := by
    apply filterMap_ids_sublist st.units hwf
    intro u s h
    split_ifs at h
    all_goals exact (Option.some_injective _ h).symm
  have hradius : ∀ (cx cy rf : Int) (excl : Option String),
      (unitsWithinRadiusFeet st cx cy rf excl).Sublist (dictKeys st.units) := by
    intro cx cy rf excl
    apply filterMap_ids_sublist st.units hwf
    intro u s h
    split_ifs at h
    all_goals exact (Option.some_injective _ h).symm
  have hcone : ∀ (fx fy sf : Int),
      (unitsInConeFeet ctx st aid fx fy sf).Sublist (dictKeys st.units) := by
    intro fx fy sf
    apply filterMap_ids_sublist st.units hwf
    intro u s h
    split_ifs at h
    all_goals exact (Option.some_injective _ h).symm
  refine ⟨halive, hradius cx cy rf excl, hcone fx fy sf, ?_⟩
  show (chooseModelTargets ctx st aid effects none ocx ocy).Sublist (dictKeys st.units)
  unfold chooseModelTargets
  rw [if_neg (by simp)]
  dsimp only
  split
  · split_ifs
    all_goals first
      | exact (List.filter_sublist _).trans halive
      | exact (List.filter_sublist _).trans (hradius _ _ _ _)
      | exact (List.filter_sublist _).trans (hcone _ _ _)
      | (apply filterMap_ids_sublist st.units hwf
         intro u s h
         split_ifs at h
         all_goals exact (Option.some_injective _ h).symm)
  · exact (List.filter_sublist _).trans halive

/-- C8 witness: the insertion-order sublist facts at the concrete
three-unit fixture state. -/
theorem c8_enumerations_witness :
    (aliveUnitIds c8State).Sublist (dictKeys c8State.units) ∧
      (unitsWithinRadiusFeet c8State 2 2 10 (some "mia")).Sublist (dictKeys c8State.units) ∧
      (unitsInConeFeet fixtureCtx c8State "mia" 2 2 10).Sublist (dictKeys c8State.units) ∧
      (chooseModelTargets fixtureCtx c8State "mia" [] none none none).Sublist
        (dictKeys c8State.units) :=
  c8_enumerations_follow_insertion_order c8State (by decide) 2 2 10 (some "mia")
    fixtureCtx "mia" 2 2 10 [] none none

/-- dict lookup after an in-place update of one key's value. -/
theorem dictGet_map_update {α : Type} (l : List (String × α)) (k : String) (f : α → α) :
    dictGet (l.map (fun p => if p.1 = k then (p.1, f p.2) else p)) k
      = (dictGet l k).map f := by
  induction l with
  | nil => rfl
  | cons p rest ih =>
    obtain ⟨k0, v⟩ := p
    by_cases h : k0 = k
    · subst h
      show dictGet ((if k0 = k0 then (k0, f v) else (k0, v)) :: _) k0 = _
      rw [if_pos rfl]
      simp [dictGet]
    · show dictGet ((if k0 = k then (k0, f v) else (k0, v)) :: _) k = _
      rw [if_neg h]
      simp [dictGet, h, ih]

/-- unitGet after updateUnit on the same unit id. -/
theorem unitGet_updateUnit (st : BattleState) (tid : String) (f : UnitState → UnitState) :
    (st.updateUnit tid f).unitGet tid
      = ((dictGet st.units tid).map f).getD missingUnit := by
  simp [BattleState.updateUnit, BattleState.unitGet, dictGet_map_update]

/-- Overwriting the mitigation tables does not change the unit's hp. -/
theorem unitGet_setMitigations_hp (st : BattleState) (tid : String)
    (res wk : List (String × Int)) (imm : List String) :
    ((st.updateUnit tid (setMitigations res wk imm)).unitGet tid).hp
      = (st.unitGet tid).hp := by
  rw [unitGet_updateUnit]
  cases h : dictGet st.units tid <;> simp [BattleState.unitGet, h, setMitigations]

/-- Overwriting the mitigation tables does not change the unit's temp_hp. -/
theorem unitGet_setMitigations_temp (st : BattleState) (tid : String)
    (res wk : List (String × Int)) (imm : List String) :
    ((st.updateUnit tid (setMitigations res wk imm)).unitGet tid).temp_hp
      = (st.unitGet tid).temp_hp := by
  rw [unitGet_updateUnit]
  cases h : dictGet st.units tid <;> simp [BattleState.unitGet, h, setMitigations]

/-- When the second update writes an hp value that does not depend on the
unit it receives, a preceding update of the same unit is invisible in the
final hp. -/
theorem unitGet_double_update_hp (st : BattleState) (tid : String)
    (f g : UnitState → UnitState)
    (hg : ∀ u v, (g u).hp = (g v).hp) :
    (((st.updateUnit tid f).updateUnit tid g).unitGet tid).hp
      = ((st.updateUnit tid g).unitGet tid).hp := by
  rw [unitGet_updateUnit, unitGet_updateUnit]
  have hu : dictGet (st.updateUnit tid f).units tid = (dictGet st.units tid).map f := by
    simp [BattleState.updateUnit, dictGet_map_update]
  rw [hu]
  cases h : dictGet st.units tid with
  | none => simp
  | some u => exact hg (f u) u

/-- The temp_hp analogue of unitGet_double_update_hp. -/
theorem unitGet_double_update_temp (st : BattleState) (tid : String)
    (f g : UnitState → UnitState)
    (hg : ∀ u v, (g u).temp_hp = (g v).temp_hp) :
    (((st.updateUnit tid f).updateUnit tid g).unitGet tid).temp_hp
      = ((st.updateUnit tid g).unitGet tid).temp_hp := by
  rw [unitGet_updateUnit, unitGet_updateUnit]
  have hu : dictGet (st.updateUnit tid f).units tid = (dictGet st.units tid).map f := by
    simp [BattleState.updateUnit, dictGet_map_update]
  rw [hu]
  cases h : dictGet st.units tid with
  | none => simp
  | some u => exact hg (f u) u

/-- Bind on a successful Except value. -/
theorem except_ok_bind {e a b : Type} (x : a) (k : a → Except e b) :
    (Except.ok x : Except e a) >>= k = k x := rfl

/-- Map on a successful Except value. -/
theorem except_map_ok {e a b : Type} (f : a → b) (x : a) :
    Except.map f (Except.ok x : Except e a) = Except.ok (f x) := rfl

/-- One affliction stage-damage entry is mitigation-blind: overwriting the
target's resistances, weaknesses and immunities changes neither the
resulting hp and temp_hp nor the reported damage detail. -/
theorem stage_step_indep (st : BattleState) (tid : String) (rng : DeterministicRNG)
    (dmg : JVal) (res wk : List (String × Int)) (imm : List String) :
    (afflictionStageDamageStep (st.updateUnit tid (setMitigations res wk imm)) tid rng dmg).map
        (fun x => (((x.1).unitGet tid).hp, ((x.1).unitGet tid).temp_hp, x.2))
      = (afflictionStageDamageStep st tid rng dmg).map
        (fun x => (((x.1).unitGet tid).hp, ((x.1).unitGet tid).temp_hp, x.2)) := by
  unfold afflictionStageDamageStep
  by_cases hf : pyStr (jGetD dmg "formula" (.str "")) = ""
  · simp [hf, Except.map, unitGet_setMitigations_hp, unitGet_setMitigations_temp]
  · simp only [hf, if_neg, ite_false]
    rw [unitGet_setMitigations_hp, unitGet_setMitigations_temp]
    cases hroll : roll_damage rng (pyStr (jGetD dmg "formula" (.str ""))) with
    | error e => rfl
    | ok pr =>
      obtain ⟨roll, rng'⟩ := pr
      rw [except_ok_bind, except_ok_bind, except_map_ok, except_map_ok]
      congr 1
      refine congrArg₂ Prod.mk ?_ (congrArg₂ Prod.mk ?_ rfl)
      · exact unitGet_double_update_hp st tid _ _
          (by intro u v; dsimp only; split_ifs <;> rfl)
      · exact unitGet_double_update_temp st tid _ _
          (by intro u v; dsimp only; split_ifs <;> rfl)

/-- C10: affliction stage damage is applied unmitigated — an affliction
stage-damage entry passes the rolled total straight to the temp-HP/hp pool,
so the outcome is independent of the target's resistances, weaknesses and
immunities (first conjunct, for every state, target, RNG and damage entry);
concretely, a stage dealing flat 10 poison drops a poison-immune target
from 40 hp to 30 (second conjunct), while a persistent_damage tick with the
same flat 10 poison formula mitigates by damage type first and leaves the
same target at 40 hp (third conjunct). -/
theorem c10_affliction_stage_damage_unmitigated :
    (∀ (st : BattleState) (tid : String) (rng : DeterministicRNG) (dmg : JVal)
        (res wk : List (String × Int)) (imm : List String),
        (afflictionStageDamageStep (st.updateUnit tid (setMitigations res wk imm))
            tid rng dmg).map
            (fun x => (((x.1).unitGet tid).hp, ((x.1).unitGet tid).temp_hp, x.2))
          = (afflictionStageDamageStep st tid rng dmg).map
            (fun x => (((x.1).unitGet tid).hp, ((x.1).unitGet tid).temp_hp, x.2))) ∧
      (applyAfflictionStage c10AfflState "eff_0002" fixtureRng 1).toOption.map
          (fun x => ((x.1).unitGet "t").hp) = some 30 ∧
      (applyPersistentDamage c10PersistState "eff_0001" fixtureRng).toOption.map
          (fun x => ((x.2.1).unitGet "t").hp) = some 40 :=
  ⟨stage_step_indep, by decide, by decide⟩

/-- dict lookup of a key just written by dict assignment. -/
theorem dictGet_dictSet_self {α : Type} (m : List (String × α)) (k : String) (v : α) :
    dictGet (dictSet m k v) k = some v := by
  induction m with
  | nil => simp [dictSet, dictGet]
  | cons p rest ih =>
    obtain ⟨k0, v0⟩ := p
    by_cases h : k0 = k
    · subst h
      simp [dictSet, dictGet]
    · simp [dictSet, dictGet, h, ih]

/-- rollDice succeeds whenever there is nothing to roll or the die has at
least one face. -/
theorem rollDice_ok (count : Nat) (size : Int) (h : count = 0 ∨ 1 ≤ size) :
    ∀ rng, ∃ pr, rollDice rng count size = .ok pr := by
  induction count with
  | zero => intro rng; exact ⟨([], rng), rfl⟩
  | succ n ih =>
    intro rng
    have hs : 1 ≤ size := h.resolve_left (by omega)
    have hr : rng.randint 1 size = .ok (rng.draw 1 size) := by
      unfold DeterministicRNG.randint
      rw [if_neg (by omega)]
    unfold rollDice
    rw [hr, except_ok_bind]
    rcases hdraw : rng.draw 1 size with ⟨r, rng1⟩
    obtain ⟨⟨rest, rng2⟩, hpr⟩ := ih (Or.inr hs) rng1
    exact ⟨(r.value :: rest, rng2), by simp only [hpr, except_ok_bind]⟩

/-- roll_damage succeeds on every formula that parses to a rollable dice
specification. -/
theorem roll_damage_ok (rng : DeterministicRNG) (formula : String)
    (cnt size modf : Int)
    (hp : parse_formula formula = some (cnt, size, modf))
    (h : cnt.toNat = 0 ∨ 1 ≤ size) :
    ∃ pr, roll_damage rng formula = .ok pr := by
  unfold roll_damage
  rw [hp]
  obtain ⟨⟨rolls, rng1⟩, hpr⟩ := rollDice_ok cnt.toNat size h rng
  refine ⟨(⟨formula, max 0 ((rolls.foldl (· + ·) 0 + modf) * 1), rolls, modf⟩, rng1), ?_⟩
  simp only [hpr, except_ok_bind]

/-- on_apply never fails outside the affliction branch (the only branch that
rolls dice). -/
theorem on_apply_ok (st : BattleState) (eid : String) (rng : DeterministicRNG)
    (h : (st.effectGet eid).kind ≠ "affliction") :
    ∃ out, on_apply st eid rng = .ok out := by
  unfold on_apply
  dsimp only
  split
  · exact ⟨_, rfl⟩
  · split
    · exact ⟨_, rfl⟩
    · split_ifs
      all_goals exact ⟨_, rfl⟩

/-- Success of a bind follows from success of both stages. -/
theorem except_bind_exists {e a b : Type} (x : Except e a) (k : a → Except e b)
    (hx : ∃ v, x = .ok v) (hk : ∀ v, ∃ w, k v = .ok w) :
    ∃ w, (x >>= k) = .ok w := by
  obtain ⟨v, hv⟩ := hx
  obtain ⟨w, hw⟩ := hk v
  exact ⟨w, by rw [hv, except_ok_bind, hw]⟩

/-- A well-formed interact command by an actor with actions left reduces. -/
theorem applyInteract_ok (st : BattleState) (rng : DeterministicRNG)
    (actor iid flag : String) (value : Bool) (cost : Int)
    (hact : 0 < (st.unitGet actor).actions_remaining) :
    ∃ out, applyInteract st (interactCmdOf actor iid flag value cost) rng actor = .ok out := by
  unfold applyInteract
  dsimp only
  rw [if_neg (by omega)]
  exact ⟨_, rfl⟩

/-- A well-formed use_feat / use_item body with an alive target and a
non-affliction effect kind reduces. -/
theorem applyUseTemplate_ok (st : BattleState) (rng : DeterministicRNG)
    (cmd : JVal) (actor target kind event_type id_key : String) (tu : UnitState)
    (hact : 0 < (st.unitGet actor).actions_remaining)
    (hts : pyStr (jGetD cmd "target" JVal.null) = target)
    (hke : pyStr (jGetD cmd "effect_kind" JVal.null) = kind)
    (htar : dictGet st.units target = some tu)
    (halive : tu.alive = true)
    (hkind : kind ≠ "affliction") :
    ∃ out, applyUseTemplate st cmd rng actor event_type id_key = .ok out := by
  unfold applyUseTemplate
  dsimp only
  rw [if_neg (by omega)]
  rw [hts, htar]
  dsimp only
  rw [if_neg (by simp [halive])]
  apply except_bind_exists
  · apply on_apply_ok
    simp only [mkEvent, BattleState.updateUnit, BattleState.effectGet,
      dictGet_dictSet_self, Option.getD_some, hke]
    exact hkind
  · intro v
    exact ⟨_, rfl⟩

/-- A well-formed basic-mode cast_spell body with an alive target and a
rollable formula reduces. -/
theorem applyCastSpell_ok (st : BattleState) (rng : DeterministicRNG)
    (cmd : JVal) (actor target formula : String) (tu : UnitState)
    (cnt size modf : Int)
    (hact : 0 < (st.unitGet actor).actions_remaining)
    (hts : pyStr (jGetD cmd "target" JVal.null) = target)
    (hmode : pyStr (jGetD cmd "mode" (JVal.str "basic")) = "basic")
    (hform : pyStr (jGetD cmd "damage" JVal.null) = formula)
    (htar : dictGet st.units target = some tu)
    (halive : tu.alive = true)
    (hpf : parse_formula formula = some (cnt, size, modf))
    (hsz : cnt.toNat = 0 ∨ 1 ≤ size) :
    ∃ out, applyCastSpell st cmd rng actor = .ok out := by
  unfold applyCastSpell
  dsimp only
  rw [if_neg (by omega)]
  rw [hts, htar]
  dsimp only
  rw [if_neg (by simp [halive])]
  rw [hform]
  rw [if_neg (by simp [hmode])]
  apply except_bind_exists
  · exact roll_damage_ok _ formula cnt size modf hpf hsz
  · intro v
    exact ⟨_, rfl⟩

/-- Dispatch of a materialized cast_spell through the full reducer. -/
theorem castSpellDispatch_ok (ctx : ExternalCtx) (st : BattleState)
    (rng : DeterministicRNG)
    (actor target spell save formula : String) (dc cost : Int) (tu : UnitState)
    (cnt size modf : Int)
    (hactive : st.active_unit_id = actor)
    (halive : (st.unitGet actor).alive = true)
    (hact : 0 < (st.unitGet actor).actions_remaining)
    (htar : dictGet st.units target = some tu)
    (htalive : tu.alive = true)
    (hpf : parse_formula formula = some (cnt, size, modf))
    (hsz : cnt.toNat = 0 ∨ 1 ≤ size) :
    ∃ out, apply_command_full ctx st
      (castSpellCmdOf actor target spell save formula dc cost) rng = .ok out := by
  unfold apply_command_full
  have htype : pyStr (jGetD (castSpellCmdOf actor target spell save formula dc cost)
      "type" JVal.null) = "cast_spell" := rfl
  have hactor : pyStr (jGetD (castSpellCmdOf actor target spell save formula dc cost)
      "actor" JVal.null) = actor := rfl
  dsimp only
  rw [htype, hactor]
  rw [if_pos (Or.inl rfl)]
  rw [if_neg (by simp [hactive])]
  rw [if_neg (by simp [halive])]
  rw [if_pos rfl]
  exact applyCastSpell_ok st rng _ actor target formula tu cnt size modf hact rfl rfl rfl
    htar htalive hpf hsz

/-- Dispatch of a materialized use_feat through the full reducer. -/
theorem useFeatDispatch_ok (ctx : ExternalCtx) (st : BattleState)
    (rng : DeterministicRNG)
    (actor target fid kind : String) (cost : Int) (tu : UnitState)
    (hactive : st.active_unit_id = actor)
    (halive : (st.unitGet actor).alive = true)
    (hact : 0 < (st.unitGet actor).actions_remaining)
    (htar : dictGet st.units target = some tu)
    (htalive : tu.alive = true)
    (hkind : kind ≠ "affliction") :
    ∃ out, apply_command_full ctx st
      (useFeatCmdOf actor target fid kind cost) rng = .ok out := by
  unfold apply_command_full
  have htype : pyStr (jGetD (useFeatCmdOf actor target fid kind cost)
      "type" JVal.null) = "use_feat" := rfl
  have hactor : pyStr (jGetD (useFeatCmdOf actor target fid kind cost)
      "actor" JVal.null) = actor := rfl
  dsimp only
  rw [htype, hactor]
  rw [if_pos (Or.inr (Or.inl rfl))]
  rw [if_neg (by simp [hactive])]
  rw [if_neg (by simp [halive])]
  rw [if_neg (by decide)]
  rw [if_pos rfl]
  exact applyUseTemplate_ok st rng _ actor target kind "use_feat" "feat_id" tu hact rfl rfl
    htar htalive hkind

/-- Dispatch of a materialized use_item through the full reducer. -/
theorem useItemDispatch_ok (ctx : ExternalCtx) (st : BattleState)
    (rng : DeterministicRNG)
    (actor target iid kind : String) (cost : Int) (tu : UnitState)
    (hactive : st.active_unit_id = actor)
    (halive : (st.unitGet actor).alive = true)
    (hact : 0 < (st.unitGet actor).actions_remaining)
    (htar : dictGet st.units target = some tu)
    (htalive : tu.alive = true)
    (hkind : kind ≠ "affliction") :
    ∃ out, apply_command_full ctx st
      (useItemCmdOf actor target iid kind cost) rng = .ok out := by
  unfold apply_command_full
  have htype : pyStr (jGetD (useItemCmdOf actor target iid kind cost)
      "type" JVal.null) = "use_item" := rfl
  have hactor : pyStr (jGetD (useItemCmdOf actor target iid kind cost)
      "actor" JVal.null) = actor := rfl
  dsimp only
  rw [htype, hactor]
  rw [if_pos (Or.inr (Or.inr (Or.inl rfl)))]
  rw [if_neg (by simp [hactive])]
  rw [if_neg (by simp [halive])]
  rw [if_neg (by decide)]
  rw [if_neg (by decide)]
  rw [if_pos rfl]
  exact applyUseTemplate_ok st rng _ actor target kind "use_item" "item_id" tu hact rfl rfl
    htar htalive hkind

/-- Dispatch of a materialized interact through the full reducer. -/
theorem interactDispatch_ok (ctx : ExternalCtx) (st : BattleState)
    (rng : DeterministicRNG)
    (actor iid flag : String) (value : Bool) (cost : Int)
    (hactive : st.active_unit_id = actor)
    (halive : (st.unitGet actor).alive = true)
    (hact : 0 < (st.unitGet actor).actions_remaining) :
    ∃ out, apply_command_full ctx st
      (interactCmdOf actor iid flag value cost) rng = .ok out := by
  unfold apply_command_full
  have htype : pyStr (jGetD (interactCmdOf actor iid flag value cost)
      "type" JVal.null) = "interact" := rfl
  have hactor : pyStr (jGetD (interactCmdOf actor iid flag value cost)
      "actor" JVal.null) = actor := rfl
  dsimp only
  rw [htype, hactor]
  rw [if_pos (Or.inr (Or.inr (Or.inr rfl)))]
  rw [if_neg (by simp [hactive])]
  rw [if_neg (by simp [halive])]
  rw [if_neg (by decide)]
  rw [if_neg (by decide)]
  rw [if_neg (by decide)]
  exact applyInteract_ok st rng actor iid flag value cost hact

/-- C2: the full reducer dispatches every template variant of the command
union — a well-formed cast_spell, use_feat, use_item, or interact command
issued by the active, alive actor with actions remaining reduces to a new
state and events (an ok result) rather than failing as an unsupported
command type.  Well-formedness asks for an alive known target and a
rollable damage formula for cast_spell, an alive known target and a
non-affliction effect kind for use_feat and use_item, and nothing further
for a flag-setting interact. -/
theorem c2_template_commands_reduce :
    (∀ (ctx : ExternalCtx) (st : BattleState) (rng : DeterministicRNG)
        (actor target spell save formula : String) (dc cost : Int) (tu : UnitState)
        (cnt size modf : Int),
        st.active_unit_id = actor →
        (st.unitGet actor).alive = true →
        0 < (st.unitGet actor).actions_remaining →
        dictGet st.units target = some tu →
        tu.alive = true →
        parse_formula formula = some (cnt, size, modf) →
        (cnt.toNat = 0 ∨ 1 ≤ size) →
        ∃ out, apply_command_full ctx st
          (castSpellCmdOf actor target spell save formula dc cost) rng = .ok out) ∧
      (∀ (ctx : ExternalCtx) (st : BattleState) (rng : DeterministicRNG)
        (actor target fid kind : String) (cost : Int) (tu : UnitState),
        st.active_unit_id = actor →
        (st.unitGet actor).alive = true →
        0 < (st.unitGet actor).actions_remaining →
        dictGet st.units target = some tu →
        tu.alive = true →
        kind ≠ "affliction" →
        ∃ out, apply_command_full ctx st
          (useFeatCmdOf actor target fid kind cost) rng = .ok out) ∧
      (∀ (ctx : ExternalCtx) (st : BattleState) (rng : DeterministicRNG)
        (actor target iid kind : String) (cost : Int) (tu : UnitState),
        st.active_unit_id = actor →
        (st.unitGet actor).alive = true →
        0 < (st.unitGet actor).actions_remaining →
        dictGet st.units target = some tu →
        tu.alive = true →
        kind ≠ "affliction" →
        ∃ out, apply_command_full ctx st
          (useItemCmdOf actor target iid kind cost) rng = .ok out) ∧
      (∀ (ctx : ExternalCtx) (st : BattleState) (rng : DeterministicRNG)
        (actor iid flag : String) (value : Bool) (cost : Int),
        st.active_unit_id = actor →
        (st.unitGet actor).alive = true →
        0 < (st.unitGet actor).actions_remaining →
        ∃ out, apply_command_full ctx st
          (interactCmdOf actor iid flag value cost) rng = .ok out) :=
  ⟨fun ctx st rng actor target spell save formula dc cost tu cnt size modf
      h1 h2 h3 h4 h5 h6 h7 =>
    castSpellDispatch_ok ctx st rng actor target spell save formula dc cost tu cnt size modf
      h1 h2 h3 h4 h5 h6 h7,
   fun ctx st rng actor target fid kind cost tu h1 h2 h3 h4 h5 h6 =>
    useFeatDispatch_ok ctx st rng actor target fid kind cost tu h1 h2 h3 h4 h5 h6,
   fun ctx st rng actor target iid kind cost tu h1 h2 h3 h4 h5 h6 =>
    useItemDispatch_ok ctx st rng actor target iid kind cost tu h1 h2 h3 h4 h5 h6,
   fun ctx st rng actor iid flag value cost h1 h2 h3 =>
    interactDispatch_ok ctx st rng actor iid flag value cost h1 h2 h3⟩

/-- C2 witness: the four template variants each reduce at a concrete
one-unit fixture state. -/
theorem c2_template_commands_reduce_witness :
    (∃ out, apply_command_full fixtureCtx soloState
        (castSpellCmdOf "u1" "u1" "ember_burst" "Reflex" "1d4" 15 2) fixtureRng = .ok out) ∧
      (∃ out, apply_command_full fixtureCtx soloState
        (useFeatCmdOf "u1" "u1" "inspiring_chorus" "temp_hp" 1) fixtureRng = .ok out) ∧
      (∃ out, apply_command_full fixtureCtx soloState
        (useItemCmdOf "u1" "u1" "steady_tonic" "condition" 1) fixtureRng = .ok out) ∧
      (∃ out, apply_command_full fixtureCtx soloState
        (interactCmdOf "u1" "lever_east" "gate_open" true 1) fixtureRng = .ok out) :=
  ⟨c2_template_commands_reduce.1 fixtureCtx soloState fixtureRng "u1" "u1" "ember_burst"
      "Reflex" "1d4" 15 2 soloUnit 1 4 0 rfl (by decide) (by decide) rfl (by decide)
      (by decide) (Or.inr (by decide)),
   c2_template_commands_reduce.2.1 fixtureCtx soloState fixtureRng "u1" "u1"
      "inspiring_chorus" "temp_hp" 1 soloUnit rfl (by decide) (by decide) rfl (by decide)
      (by decide),
   c2_template_commands_reduce.2.2.1 fixtureCtx soloState fixtureRng "u1" "u1"
      "steady_tonic" "condition" 1 soloUnit rfl (by decide) (by decide) rfl (by decide)
      (by decide),
   c2_template_commands_reduce.2.2.2 fixtureCtx soloState fixtureRng "u1" "lever_east"
      "gate_open" true 1 rfl (by decide) (by decide)⟩

/-- A shape predicate that rejects null holds on a stored value. -/
theorem jGet_of_pred (d : JVal) (k : String) (p : JVal → Bool)
    (hnull : p .null = false) (h : p (jGetD d k .null) = true) :
    ∃ v, jGet d k = some v ∧ p v = true := by
  cases hg : jGet d k with
  | none =>
    rw [jGetD, hg, Option.getD_none] at h
    rw [hnull] at h
    exact absurd h (by simp)
  | some v =>
    rw [jGetD, hg, Option.getD_some] at h
    exact ⟨v, rfl, h⟩

/-- Inversion of the non-empty-string shape check. -/
theorem jNonEmptyStr_shape (v : JVal) (h : jNonEmptyStr v = true) :
    ∃ s, v = .str s := by
  unfold jNonEmptyStr at h
  split at h
  · next s => exact ⟨s, rfl⟩
  · exact absurd h (by simp)

/-- Inversion of the positive-int shape check. -/
theorem jPosInt_shape (v : JVal) (h : jPosInt v = true) : ∃ n, v = .int n := by
  unfold jPosInt at h
  split at h
  · next n => exact ⟨n, rfl⟩
  · exact absurd h (by simp)

/-- Inversion of the isinstance-int check. -/
theorem jIsInt_shape (v : JVal) (h : jIsInt v = true) : ∃ n, v = .int n := by
  unfold jIsInt at h
  split at h
  · next n => exact ⟨n, rfl⟩
  · exact absurd h (by simp)

/-- Inversion of the int-pair shape check. -/
theorem jIntPair_shape (v : JVal) (h : jIntPair v = true) :
    ∃ a b, v = .arr [.int a, .int b] := by
  unfold jIntPair at h
  split at h
  · next a b =>
    rw [Bool.and_eq_true] at h
    obtain ⟨ha, hb⟩ := h
    obtain ⟨n, rfl⟩ := jIsInt_shape a ha
    obtain ⟨m, rfl⟩ := jIsInt_shape b hb
    exact ⟨n, m, rfl⟩
  · exact absurd h (by simp)

/-- A unit entry that passes the shape validator and carries runtime-typed
optional fields loads, and keeps the raw id string as its unit_id. -/
theorem unitFromRaw_ok (raw : JVal)
    (hs : validateUnitShape raw = true)
    (ht : unitRuntimeTyped raw = true) :
    ∃ u, unitFromRaw raw = some u ∧ u.unit_id = pyStr (jGetD raw "id" JVal.null) := by
  simp only [validateUnitShape, Bool.and_eq_true] at hs
  obtain ⟨⟨⟨⟨⟨⟨⟨⟨⟨⟨⟨⟨hobj, hkeys⟩, hid⟩, hteam⟩, hhp⟩, htmp⟩, hpos⟩, hadt⟩, hbyp⟩,
    hres⟩, hwk⟩, himm⟩, hcim⟩ := hs
  simp only [unitRuntimeTyped, Bool.and_eq_true] at ht
  obtain ⟨⟨⟨⟨⟨⟨⟨⟨⟨hini, hmod⟩, hac⟩, hdmg⟩, htmp2⟩, hfort⟩, href⟩, hwill⟩, hresT⟩, hwkT⟩ := ht
  obtain ⟨vp, hposg, hposp⟩ := jGet_of_pred raw "position" jIntPair rfl hpos
  obtain ⟨a, b, rfl⟩ := jIntPair_shape vp hposp
  obtain ⟨vi, hidg, hidp⟩ := jGet_of_pred raw "id" jNonEmptyStr rfl hid
  obtain ⟨sid, rfl⟩ := jNonEmptyStr_shape vi hidp
  obtain ⟨vt, hteamg, hteamp⟩ := jGet_of_pred raw "team" jNonEmptyStr rfl hteam
  obtain ⟨steam, rfl⟩ := jNonEmptyStr_shape vt hteamp
  obtain ⟨vh, hhpg, hhpp⟩ := jGet_of_pred raw "hp" jPosInt rfl hhp
  obtain ⟨nhp, rfl⟩ := jPosInt_shape vh hhpp
  obtain ⟨vini, hinig, hinip⟩ := jGet_of_pred raw "initiative" jIsInt rfl hini
  obtain ⟨nini, rfl⟩ := jIsInt_shape vini hinip
  obtain ⟨vmod, hmodg, hmodp⟩ := jGet_of_pred raw "attack_mod" jIsInt rfl hmod
  obtain ⟨nmod, rfl⟩ := jIsInt_shape vmod hmodp
  obtain ⟨vac, hacg, hacp⟩ := jGet_of_pred raw "ac" jIsInt rfl hac
  obtain ⟨nac, rfl⟩ := jIsInt_shape vac hacp
  obtain ⟨sdmg, hdmgg⟩ : ∃ s, jGet raw "damage" = some (.str s) := by
    cases hg : jGet raw "damage" with
    | none => rw [hg] at hdmg; exact absurd hdmg (by simp)
    | some v =>
      rw [hg] at hdmg
      cases v with
      | str s => exact ⟨s, rfl⟩
      | _ => exact absurd hdmg (by simp)
  obtain ⟨t0, htmpg⟩ := Option.isSome_iff_exists.mp htmp2
  obtain ⟨f0, hfortg⟩ := Option.isSome_iff_exists.mp hfort
  obtain ⟨r0, hrefg⟩ := Option.isSome_iff_exists.mp href
  obtain ⟨w0, hwillg⟩ := Option.isSome_iff_exists.mp hwill
  obtain ⟨rm, hresg⟩ := Option.isSome_iff_exists.mp hresT
  obtain ⟨wm, hwkg⟩ := Option.isSome_iff_exists.mp hwkT
  unfold unitFromRaw
  rw [hposg, htmpg, hidg, hteamg, hhpg, hinig, hmodg, hacg, hdmgg, hfortg, hrefg,
    hwillg, hresg, hwkg]
  refine ⟨_, rfl, ?_⟩
  simp [jGetD, hidg, pyStr]

/-- Assigning a fresh key appends it to the dict's key sequence. -/
theorem dictSet_keys_fresh {α : Type} (m : List (String × α)) (k : String) (v : α)
    (h : (m.map (fun p => p.1)).contains k = false) :
    (dictSet m k v).map (fun p => p.1) = m.map (fun p => p.1) ++ [k] := by
  induction m with
  | nil => rfl
  | cons p rest ih =>
    obtain ⟨k0, v0⟩ := p
    simp only [List.map_cons, List.contains_cons] at h
    rw [Bool.or_eq_false_iff] at h
    obtain ⟨h1, h2⟩ := h
    have hne : k0 ≠ k := by
      intro he
      subst he
      simp at h1
    simp only [dictSet]
    rw [if_neg hne]
    simp only [List.map_cons, List.cons_append]
    rw [ih h2]

/-- The unit-loading loop succeeds on a validated, runtime-typed unit list
and emits exactly one UnitState per entry (the validator's freshness check
keeps every dictSet an append). -/
theorem unitsFromScenario_ok (us : List JVal) :
    ∀ (acc : List (String × UnitState)),
    (validateUnitsList us (acc.map (fun p => p.1))).1 = true →
    us.all unitRuntimeTyped = true →
    ∃ m, unitsFromScenario us acc = some m ∧ m.length = acc.length + us.length := by
  induction us with
  | nil =>
    intro acc hv ht
    exact ⟨acc, rfl, by simp⟩
  | cons unit rest ih =>
    intro acc hv ht
    rw [List.all_cons, Bool.and_eq_true] at ht
    obtain ⟨ht1, ht2⟩ := ht
    unfold validateUnitsList at hv
    dsimp only at hv
    rw [Bool.and_eq_true, Bool.and_eq_true] at hv
    obtain ⟨⟨hshape, hfresh⟩, hrest⟩ := hv
    obtain ⟨u, hu, huid⟩ := unitFromRaw_ok unit hshape ht1
    have hfresh' : (acc.map (fun p => p.1)).contains u.unit_id = false := by
      rw [huid]
      revert hfresh
      cases (acc.map (fun p => p.1)).contains (pyStr (jGetD unit "id" JVal.null)) <;> simp
    have hkeys := dictSet_keys_fresh acc u.unit_id u hfresh'
    have hlen : (dictSet acc u.unit_id u).length = acc.length + 1 := by
      have := congrArg List.length hkeys
      simpa using this
    have hacc' : (dictSet acc u.unit_id u).map (fun p => p.1)
        = acc.map (fun p => p.1) ++ [pyStr (jGetD unit "id" JVal.null)] := by
      rw [hkeys, huid]
    obtain ⟨m, hm, hmlen⟩ := ih (dictSet acc u.unit_id u) (by rw [hacc']; exact hrest) ht2
    refine ⟨m, ?_, ?_⟩
    · unfold unitsFromScenario
      rw [hu]
      exact hm
    · rw [hmlen, hlen]
      simp [Nat.add_assoc, Nat.add_comm 1 rest.length]

/-- Stable insertion grows a list by one element. -/
theorem insertByLe_length {α : Type} (le : α → α → Bool) (x : α) (l : List α) :
    (insertByLe le x l).length = l.length + 1 := by
  induction l with
  | nil => rfl
  | cons y ys ih =>
    unfold insertByLe
    split_ifs <;> simp [ih]

/-- Insertion sort preserves length. -/
theorem sortByLe_length {α : Type} (le : α → α → Bool) (l : List α) :
    (sortByLe le l).length = l.length := by
  induction l with
  | nil => rfl
  | cons y ys ih =>
    unfold sortByLe
    rw [insertByLe_length, ih, List.length_cons]

/-- The turn order lists every unit exactly once. -/
theorem build_turn_order_length (units : List (String × UnitState)) :
    (build_turn_order units).length = units.length := by
  unfold build_turn_order
  rw [List.length_map, sortByLe_length]
  simp [dictValues]

/-- What validate_scenario = true yields about the units list and the map
dimensions. -/
theorem validate_scenario_parts (data : JVal) (h : validate_scenario data = true) :
    ∃ us, jGetD data "units" JVal.null = .arr us ∧ us.isEmpty = false ∧
      (validateUnitsList us []).1 = true ∧
      (∃ w, jGet (jGetD data "map" JVal.null) "width" = some (.int w)) ∧
      (∃ hg, jGet (jGetD data "map" JVal.null) "height" = some (.int hg)) := by
  unfold validate_scenario at h
  split at h
  · exact absurd h (by simp)
  · dsimp only at h
    simp only [Bool.and_eq_true] at h
    obtain ⟨⟨⟨⟨⟨⟨⟨⟨⟨⟨htop, ⟨hmObj, hmW⟩, hmH⟩, hunits⟩, hcmds⟩, hflags⟩, hobj⟩,
      hpacks⟩, henemy⟩, hmission⟩, hwaves⟩, hroutines⟩ := h
    obtain ⟨vw, hvw, hvwp⟩ := jGet_of_pred (jGetD data "map" JVal.null) "width" jPosInt rfl hmW
    obtain ⟨w, rfl⟩ := jPosInt_shape vw hvwp
    obtain ⟨vh, hvh, hvhp⟩ := jGet_of_pred (jGetD data "map" JVal.null) "height" jPosInt rfl hmH
    obtain ⟨ht, rfl⟩ := jPosInt_shape vh hvhp
    cases hu : jGetD data "units" JVal.null with
    | arr us =>
      rw [hu] at hunits
      dsimp only at hunits
      cases he : us.isEmpty with
      | true => rw [he] at hunits; exact absurd hunits (by simp)
      | false =>
        rw [he] at hunits
        exact ⟨us, rfl, he, by simpa using hunits, ⟨w, hvw⟩, ⟨ht, hvh⟩⟩
    | _ =>
      rw [hu] at hunits
      exact absurd hunits (by simp)

/-- What scenarioRuntimeTyped = true yields at the scenario level. -/
theorem scenarioRuntimeTyped_parts (data : JVal) (h : scenarioRuntimeTyped data = true) :
    (∃ bid, jGet data "battle_id" = some (.str bid)) ∧
      (∃ sd, jGet data "seed" = some (.int sd)) ∧
      (∃ bl, blockedFromScenario (jGetD data "map" JVal.null) = some bl) ∧
      (jItems (jGetD data "units" (.arr []))).all unitRuntimeTyped = true := by
  simp only [scenarioRuntimeTyped, Bool.and_eq_true] at h
  obtain ⟨⟨⟨hbid, hseed⟩, hblock⟩, hall⟩ := h
  refine ⟨?_, ?_, ?_, hall⟩
  · cases hg : jGet data "battle_id" with
    | none => rw [hg] at hbid; exact absurd hbid (by simp)
    | some v =>
      rw [hg] at hbid
      cases v with
      | str s => exact ⟨s, rfl⟩
      | _ => exact absurd hbid (by simp)
  · obtain ⟨v, hv, hvp⟩ := jGet_of_pred data "seed" jIsInt rfl hseed
    obtain ⟨n, rfl⟩ := jIsInt_shape v hvp
    exact ⟨n, hv⟩
  · exact Option.isSome_iff_exists.mp hblock

/-- Bind on a present Option value. -/
theorem option_some_bind {a b : Type} (x : a) (k : a → Option b) :
    ((some x : Option a) >>= k) = k x := rfl

/-- C1 counterexample: a scenario whose unit carries the optional fortitude
field as the non-numeric string "high" is accepted by validate_scenario
(which never type-checks the save fields), yet battle_state_from_scenario
fails on the int() conversion instead of returning a BattleState. -/
theorem c1_validator_accepts_loader_raises :
    validate_scenario c1BadScenario = true ∧
      battle_state_from_scenario c1BadScenario = none :=
  ⟨by decide, rfl⟩

/-- C1 (amended): for every scenario document accepted by validate_scenario
whose dynamically-typed fields additionally carry their documented runtime
types (battle_id a string, seed an int, blocked cells int pairs, and each
unit's initiative / attack_mod / ac / damage / temp_hp / saves / resistance
and weakness values typed so that the loader's int() calls succeed),
battle_state_from_scenario returns a BattleState with one UnitState per
units[] entry; without the runtime-typing side condition the original claim
is false. -/
theorem c1_runtime_typed_scenarios_load (data : JVal)
    (hv : validate_scenario data = true)
    (hrt : scenarioRuntimeTyped data = true) :
    ∃ st, battle_state_from_scenario data = some st ∧
      dictLen st.units = (jItems (jGetD data "units" (.arr []))).length := by
  obtain ⟨us, hu, hne, hval, ⟨w, hvw⟩, ⟨hgt, hvh⟩⟩ := validate_scenario_parts data hv
  obtain ⟨⟨bid, hbid⟩, ⟨sd, hsd⟩, ⟨bl, hbl⟩, hall⟩ := scenarioRuntimeTyped_parts data hrt
  have hug : jGet data "units" = some (.arr us) := by
    cases hg : jGet data "units" with
    | none => rw [jGetD, hg, Option.getD_none] at hu; exact absurd hu (by simp)
    | some v => rw [jGetD, hg, Option.getD_some] at hu; rw [hu]
  have hud : jGetD data "units" (.arr []) = .arr us := by
    rw [jGetD, hug, Option.getD_some]
  rw [hud] at hall
  have hval' : (validateUnitsList us (([] : List (String × UnitState)).map (fun p => p.1))).1
      = true := by simpa using hval
  obtain ⟨m, hm, hmlen⟩ := unitsFromScenario_ok us [] hval' (by simpa using hall)
  have hmlen' : m.length = us.length := by simpa using hmlen
  have hto : (build_turn_order m).isEmpty = false := by
    have hl : (build_turn_order m).length = us.length := by
      rw [build_turn_order_length, hmlen']
    cases hbto : build_turn_order m with
    | nil =>
      rw [hbto] at hl
      cases hcu : us with
      | nil => rw [hcu] at hne; exact absurd hne (by simp)
      | cons q qs => rw [hcu] at hl; simp at hl
    | cons t ts => rfl
  unfold battle_state_from_scenario
  dsimp only
  rw [hbl, hvw, hvh, hbid, hsd, hud]
  rw [show jItems (JVal.arr us) = us from rfl, hm]
  simp only [option_some_bind]
  rw [hto]
  simp only [Bool.false_eq_true, if_false]
  refine ⟨_, rfl, ?_⟩
  exact hmlen'

/-- C1 witness: a fully-typed two-unit scenario (optional fields included)
loads into a BattleState with exactly two units. -/
theorem c1_runtime_typed_scenarios_load_witness :
    validate_scenario c1GoodScenario = true ∧ scenarioRuntimeTyped c1GoodScenario = true ∧
      ∃ st, battle_state_from_scenario c1GoodScenario = some st ∧
        dictLen st.units = (jItems (jGetD c1GoodScenario "units" (.arr []))).length :=
  ⟨by decide, by decide,
    c1_runtime_typed_scenarios_load c1GoodScenario (by decide) (by decide)⟩

end Engine
